import Mathlib

/-!
# Traffic-Mgmt: the traffic control engine (`TrafficManager`)

A shallow embedding of `src/managers/TrafficManager.cpp`.  The engine owns twelve lane
queues, four traffic lights and the table of active vehicle motion states; `update` is
one tick of the simulation loop.

Single-precision arithmetic is kept behind the record `Platform`: every `float`
operation of the source is a call of one of its fields, so the theorems about queues,
modes and lights hold for every behaviour of the arithmetic (rounding, infinities and
NaN included).  The record `f32` further down is a concrete binary32 instance used to
evaluate the code on explicit inputs.
-/

namespace TrafficMgmt

/-! ## Data model -/

/-- Modelled from the spec: the enumeration `LaneId` (its declaration, in the `core/`
headers, is not among the sources): twelve lanes, four approaches A to D with three
lanes each, named as the sources name them. -/
inductive LaneId
  | AL1_INCOMING | AL2_PRIORITY | AL3_FREELANE
  | BL1_INCOMING | BL2_NORMAL | BL3_FREELANE
  | CL1_INCOMING | CL2_NORMAL | CL3_FREELANE
  | DL1_INCOMING | DL2_NORMAL | DL3_FREELANE
  deriving DecidableEq

/-- Modelled from the spec: the enumeration `Direction` (declared in `core/Vehicle.h`,
not among the sources). -/
inductive Direction
  | STRAIGHT | LEFT | RIGHT
  deriving DecidableEq

/-- Modelled from the spec: the enumeration `LightState` (declared in
`core/TrafficLight.h`, not among the sources): RED and GREEN, with the optional
YELLOW. -/
inductive LightState
  | RED | YELLOW | GREEN
  deriving DecidableEq

/-- Modelled from the spec: the class `Vehicle` (`core/Vehicle.h` is not among the
sources): an integer id, the intended manoeuvre and the lane tag, read through
`getId`, `getDirection` and `getCurrentLane`. -/
structure Vehicle where
  id : Nat
  direction : Direction
  currentLane : LaneId
  deriving DecidableEq

/-- Modelled from the spec: the class `Lane` (`core/Lane.h` is not among the sources):
a FIFO queue of vehicles (head of the list is the front) with a priority flag. -/
structure Lane where
  id : LaneId
  isPriority : Bool
  queue : List Vehicle
  deriving DecidableEq

/-- Modelled from the spec: `Lane::getId`. -/
def Lane.getId (lane : Lane) : LaneId := lane.id

/-- Modelled from the spec: `Lane::isPriorityLane`, the priority flag. -/
def Lane.isPriorityLane (lane : Lane) : Bool := lane.isPriority

/-- Modelled from the spec: `Lane::getQueueSize`, the current count. -/
def Lane.getQueueSize (lane : Lane) : Nat := lane.queue.length

/-- Modelled from the spec: `Lane::addVehicle`, enqueue: appends to the tail. -/
def Lane.addVehicle (lane : Lane) (v : Vehicle) : Lane :=
  { lane with queue := lane.queue ++ [v] }

/-- Modelled from the spec: `Lane::removeVehicle`, dequeue: removes and returns the head
vehicle, and returns empty on an empty queue. -/
def Lane.removeVehicle (lane : Lane) : Option Vehicle × Lane :=
  match lane.queue with
  | [] => (none, lane)
  | v :: rest => (some v, { lane with queue := rest })

/-- Modelled from the spec: the class `TrafficLight` (`core/TrafficLight.h` is not among
the sources): the current light state, the elapsed time in that state and the
configured minimum and maximum hold durations. -/
structure TrafficLight (F : Type) where
  state : LightState
  elapsed : F
  minHold : F
  maxHold : F

/-- Modelled from the spec: `TrafficLight::getState`. -/
def TrafficLight.getState {F : Type} (l : TrafficLight F) : LightState := l.state

/-- Modelled from the spec: `TrafficLight::setState`, which forces the current light
state. -/
def TrafficLight.setState {F : Type} (l : TrafficLight F) (s : LightState) :
    TrafficLight F :=
  { l with state := s }

/-- The struct `VehicleState` of `TrafficManager.h`. -/
structure VehicleState (F : Type) where
  vehicle : Vehicle
  x : F
  y : F
  targetX : F
  targetY : F
  speed : F
  isMoving : Bool
  direction : Direction
  hasStartedTurn : Bool
  turnProgress : F
  waitTime : F
  turnAngle : F
  targetAngle : F
  deriving DecidableEq

/-- What `TrafficManager.cpp` takes from outside itself: the `float` arithmetic, the
two `<cmath>` functions, the constants of the namespace `SimConstants`
(`core/Constants.h` is not among the sources, so they are parameters, taken at type
`float`), the numbering of the `LaneId` enumerators, and the two members of
`TrafficLight` that the spec leaves open (the default constructor and the per-tick
timer `update`). -/
structure Platform (F : Type) where
  /-- `a + b` on `float`. -/
  add : F → F → F
  /-- `a - b` on `float`. -/
  sub : F → F → F
  /-- `a * b` on `float`. -/
  mul : F → F → F
  /-- `a / b` on `float`. -/
  div : F → F → F
  /-- Unary minus. -/
  neg : F → F
  /-- `std::sqrt`. -/
  sqrt : F → F
  /-- `std::exp`. -/
  exp : F → F
  /-- `std::ceil`. -/
  ceil : F → F
  /-- `a < b` on `float`. -/
  lt : F → F → Bool
  /-- `a >= b` on `float`. -/
  ge : F → F → Bool
  /-- Conversion of a `size_t` to `float`. -/
  ofNat : Nat → F
  /-- Conversion of an `int` to `float`. -/
  ofInt : Int → F
  /-- `static_cast<size_t>` of a `float`. -/
  toSizeT : F → Nat
  /-- The `float` literal written `num/den` in decimal, such as `0.3f` for `3/10`. -/
  lit : Nat → Nat → F
  /-- The value of a `float` member that is read before it is ever written. -/
  indeterminate : F
  CENTER_X : F
  CENTER_Y : F
  ROAD_WIDTH : F
  LANE_WIDTH : F
  QUEUE_SPACING : F
  QUEUE_START_OFFSET : F
  VEHICLE_WIDTH : F
  VEHICLE_BASE_SPEED : F
  TURN_GUIDE_RADIUS : F
  FILE_CHECK_INTERVAL : F
  VEHICLE_PROCESS_TIME : F
  /-- `static_cast<int>` of a lane id. -/
  laneIndex : LaneId → Int
  /-- `TrafficLight()`, the default-constructed light. -/
  lightDefault : TrafficLight F
  /-- `TrafficLight::update(deltaTime)`, the phase timer of one light. -/
  lightUpdate : F → TrafficLight F → TrafficLight F

/-- The table `std::map<uint32_t, VehicleState>`: entries in increasing key order. -/
abbrev ActiveVehicles (F : Type) := List (Nat × VehicleState F)

/-- Lookup `activeVehicles.find(id)`. -/
def ActiveVehicles.find {F : Type} : ActiveVehicles F → Nat → Option (VehicleState F)
  | [], _ => none
  | (k, st) :: rest, id => if k = id then some st else ActiveVehicles.find rest id

/-- Assignment `activeVehicles[id] = state`: overwrites the entry of `id` or inserts a
new one at its place in key order. -/
def ActiveVehicles.assign {F : Type} :
    ActiveVehicles F → Nat → VehicleState F → ActiveVehicles F
  | [], id, st => [(id, st)]
  | (k, old) :: rest, id, st =>
    if id < k then (id, st) :: (k, old) :: rest
    else if id = k then (k, st) :: rest
    else (k, old) :: ActiveVehicles.assign rest id st

/-- The statement pair `it = activeVehicles.find(id); if (it != end) it->second.isMoving
= true;`. -/
def ActiveVehicles.setMoving {F : Type} : ActiveVehicles F → Nat → ActiveVehicles F
  | [], _ => []
  | (k, st) :: rest, id =>
    if k = id then (k, { st with isMoving := true }) :: rest
    else (k, st) :: ActiveVehicles.setMoving rest id

/-- The body `if (vehicle) { ... isMoving = true ... }` applied to what `removeVehicle`
returned. -/
def releaseVehicle {F : Type} (av : ActiveVehicles F) : Option Vehicle → ActiveVehicles F
  | some v => av.setMoving v.id
  | none => av

/-- The members of the class `TrafficManager`, together with the function-local static
`fileCheckTimer` of `update`. -/
structure TrafficManager (F : Type) where
  lanes : List Lane
  trafficLights : LaneId → Option (TrafficLight F)
  activeVehicles : ActiveVehicles F
  inPriorityMode : Bool
  stateTimer : F
  lastUpdateTime : F
  fileCheckTimer : F

/-- Accessor `isInPriorityMode()`. -/
def TrafficManager.isInPriorityMode {F : Type} (s : TrafficManager F) : Bool :=
  s.inPriorityMode

/-! ## Traffic lights -/

/-- The expression `trafficLights[k]`: the entry of `k`, default-constructed first when
the key is absent. -/
def lightAt {F : Type} (P : Platform F) (m : LaneId → Option (TrafficLight F))
    (k : LaneId) : TrafficLight F :=
  (m k).getD P.lightDefault

/-- The statement `trafficLights[k].setState(st)`. -/
def setLight {F : Type} (P : Platform F) (m : LaneId → Option (TrafficLight F))
    (k : LaneId) (st : LightState) : LaneId → Option (TrafficLight F) :=
  fun j => if j = k then some ((lightAt P m k).setState st) else m j

/-- The insertion that merely evaluating `trafficLights[k]` performs. -/
def touchLight {F : Type} (P : Platform F) (m : LaneId → Option (TrafficLight F))
    (k : LaneId) : LaneId → Option (TrafficLight F) :=
  fun j => if j = k then some (lightAt P m k) else m j

/-- The statement `trafficLights[k] = light`. -/
def assignLight {F : Type} (m : LaneId → Option (TrafficLight F)) (k : LaneId)
    (light : TrafficLight F) : LaneId → Option (TrafficLight F) :=
  fun j => if j = k then some light else m j

/-- The function `TrafficManager::synchronizeTrafficLights`. -/
def synchronizeTrafficLights {F : Type} (P : Platform F) (s : TrafficManager F) :
    TrafficManager F :=
  if s.inPriorityMode then
    let m := setLight P s.trafficLights LaneId.AL2_PRIORITY LightState.GREEN
    let m := setLight P m LaneId.BL2_NORMAL LightState.RED
    let m := setLight P m LaneId.CL2_NORMAL LightState.RED
    let m := setLight P m LaneId.DL2_NORMAL LightState.RED
    { s with trafficLights := m }
  else
    let m := setLight P s.trafficLights LaneId.AL2_PRIORITY LightState.RED
    let m := setLight P m LaneId.BL2_NORMAL LightState.GREEN
    let m := setLight P m LaneId.CL2_NORMAL LightState.RED
    let m := setLight P m LaneId.DL2_NORMAL LightState.GREEN
    { s with trafficLights := m }

/-- The function `TrafficManager::updateTrafficLights`. -/
def updateTrafficLights {F : Type} (P : Platform F) (s : TrafficManager F)
    (deltaTime : F) : TrafficManager F :=
  let m : LaneId → Option (TrafficLight F) :=
    fun j => (s.trafficLights j).map (P.lightUpdate deltaTime)
  if !s.inPriorityMode then
    if (lightAt P m LaneId.BL2_NORMAL).getState = LightState.GREEN then
      let m := touchLight P m LaneId.BL2_NORMAL
      let m := setLight P m LaneId.DL2_NORMAL LightState.GREEN
      let m := setLight P m LaneId.AL2_PRIORITY LightState.RED
      let m := setLight P m LaneId.CL2_NORMAL LightState.RED
      { s with trafficLights := m }
    else
      let m := touchLight P m LaneId.BL2_NORMAL
      let m := setLight P m LaneId.AL2_PRIORITY LightState.GREEN
      let m := setLight P m LaneId.CL2_NORMAL LightState.GREEN
      let m := setLight P m LaneId.BL2_NORMAL LightState.RED
      let m := setLight P m LaneId.DL2_NORMAL LightState.RED
      { s with trafficLights := m }
  else
    let m := setLight P m LaneId.AL2_PRIORITY LightState.GREEN
    let m := setLight P m LaneId.BL2_NORMAL LightState.RED
    let m := setLight P m LaneId.CL2_NORMAL LightState.RED
    let m := setLight P m LaneId.DL2_NORMAL LightState.RED
    { s with trafficLights := m }

/-! ## Lanes -/

/-- The lanes of the constructor, in `push_back` order. -/
def initialLanes : List Lane :=
  [ ⟨LaneId.AL1_INCOMING, false, []⟩, ⟨LaneId.AL2_PRIORITY, true, []⟩,
    ⟨LaneId.AL3_FREELANE, false, []⟩, ⟨LaneId.BL1_INCOMING, false, []⟩,
    ⟨LaneId.BL2_NORMAL, false, []⟩, ⟨LaneId.BL3_FREELANE, false, []⟩,
    ⟨LaneId.CL1_INCOMING, false, []⟩, ⟨LaneId.CL2_NORMAL, false, []⟩,
    ⟨LaneId.CL3_FREELANE, false, []⟩, ⟨LaneId.DL1_INCOMING, false, []⟩,
    ⟨LaneId.DL2_NORMAL, false, []⟩, ⟨LaneId.DL3_FREELANE, false, []⟩ ]

/-- The constructor `TrafficManager::TrafficManager`; the static `fileCheckTimer`
starts at `0.0f`. -/
def TrafficManager.new {F : Type} (P : Platform F) : TrafficManager F :=
  let m : LaneId → Option (TrafficLight F) := fun _ => none
  let m := assignLight m LaneId.AL2_PRIORITY P.lightDefault
  let m := assignLight m LaneId.BL2_NORMAL P.lightDefault
  let m := assignLight m LaneId.CL2_NORMAL P.lightDefault
  let m := assignLight m LaneId.DL2_NORMAL P.lightDefault
  synchronizeTrafficLights P
    { lanes := initialLanes
      trafficLights := m
      activeVehicles := []
      inPriorityMode := false
      stateTimer := P.lit 0 1
      lastUpdateTime := P.lit 0 1
      fileCheckTimer := P.lit 0 1 }

/-- The `find_if` of `addVehicleToLane` followed by `addVehicle` on the lane found. -/
def addVehicleToLanes : List Lane → LaneId → Vehicle → List Lane
  | [], _, _ => []
  | lane :: rest, laneId, v =>
    if lane.getId = laneId then lane.addVehicle v :: rest
    else lane :: addVehicleToLanes rest laneId v

/-- The function `TrafficManager::addVehicleToLane`. -/
def addVehicleToLane {F : Type} (s : TrafficManager F) (laneId : LaneId) (v : Vehicle) :
    TrafficManager F :=
  { s with lanes := addVehicleToLanes s.lanes laneId v }

/-- The `find_if` of `getLaneSize` over the lanes. -/
def laneSizeIn : List Lane → LaneId → Nat
  | [], _ => 0
  | lane :: rest, laneId =>
    if lane.getId = laneId then lane.getQueueSize else laneSizeIn rest laneId

/-- The function `TrafficManager::getLaneSize`. -/
def getLaneSize {F : Type} (s : TrafficManager F) (laneId : LaneId) : Nat :=
  laneSizeIn s.lanes laneId

/-- The predicate of `checkPriorityConditions`, searched with `find_if`. -/
def checkPriorityConditions {F : Type} (s : TrafficManager F) : Bool :=
  s.lanes.any fun lane => lane.isPriorityLane && decide (lane.getQueueSize > 10)

/-- The loop `while (lane->getQueueSize() > 5)` of `processPriorityLane`; the first
argument bounds the number of iterations. -/
def drainPriorityLane {F : Type} : Nat → Lane → ActiveVehicles F → Lane × ActiveVehicles F
  | 0, lane, av => (lane, av)
  | fuel + 1, lane, av =>
    if lane.getQueueSize > 5 then
      drainPriorityLane fuel lane.removeVehicle.2 (releaseVehicle av lane.removeVehicle.1)
    else (lane, av)

/-- The loop over the lanes of `processPriorityLane`, which stops at the first priority
lane holding more than five vehicles. -/
def processPriorityLanes {F : Type} :
    List Lane → ActiveVehicles F → List Lane × ActiveVehicles F
  | [], av => ([], av)
  | lane :: rest, av =>
    if lane.isPriorityLane && decide (lane.getQueueSize > 5) then
      ((drainPriorityLane lane.getQueueSize lane av).1 :: rest,
        (drainPriorityLane lane.getQueueSize lane av).2)
    else
      (lane :: (processPriorityLanes rest av).1, (processPriorityLanes rest av).2)

/-- The function `TrafficManager::processPriorityLane`. -/
def processPriorityLane {F : Type} (s : TrafficManager F) : TrafficManager F :=
  { s with
    lanes := (processPriorityLanes s.lanes s.activeVehicles).1
    activeVehicles := (processPriorityLanes s.lanes s.activeVehicles).2 }

/-- The test shared by `processNormalLanes` and `calculateVehiclesToProcess`: the lane is
neither the priority lane nor one of the four free lanes. -/
def isNormalLane (lane : Lane) : Bool :=
  !lane.isPriorityLane && lane.getId != LaneId.AL3_FREELANE &&
    lane.getId != LaneId.BL3_FREELANE && lane.getId != LaneId.CL3_FREELANE &&
    lane.getId != LaneId.DL3_FREELANE

/-- The inner loop `for (i = 0; i < vehicleCount && lane->getQueueSize() > 0; ++i)` of
`processNormalLanes`; the first argument is `vehicleCount - i`. -/
def dequeueUpTo {F : Type} : Nat → Lane → ActiveVehicles F → Lane × ActiveVehicles F
  | 0, lane, av => (lane, av)
  | n + 1, lane, av =>
    if lane.getQueueSize > 0 then
      dequeueUpTo n lane.removeVehicle.2 (releaseVehicle av lane.removeVehicle.1)
    else (lane, av)

/-- The loop over the lanes of `processNormalLanes`. -/
def processNormalLanesLoop {F : Type} (vehicleCount : Nat) :
    List Lane → ActiveVehicles F → List Lane × ActiveVehicles F
  | [], av => ([], av)
  | lane :: rest, av =>
    if isNormalLane lane then
      ((dequeueUpTo vehicleCount lane av).1 ::
          (processNormalLanesLoop vehicleCount rest (dequeueUpTo vehicleCount lane av).2).1,
        (processNormalLanesLoop vehicleCount rest (dequeueUpTo vehicleCount lane av).2).2)
    else
      (lane :: (processNormalLanesLoop vehicleCount rest av).1,
        (processNormalLanesLoop vehicleCount rest av).2)

/-- The function `TrafficManager::processNormalLanes`. -/
def processNormalLanes {F : Type} (s : TrafficManager F) (vehicleCount : Nat) :
    TrafficManager F :=
  if vehicleCount = 0 then s
  else
    { s with
      lanes := (processNormalLanesLoop vehicleCount s.lanes s.activeVehicles).1
      activeVehicles := (processNormalLanesLoop vehicleCount s.lanes s.activeVehicles).2 }

/-- The accumulation loop of `calculateVehiclesToProcess`: the pair
`(totalVehicles, normalLaneCount)`. -/
def countNormalLanes : List Lane → Nat × Nat → Nat × Nat
  | [], acc => acc
  | lane :: rest, acc =>
    if isNormalLane lane then countNormalLanes rest (acc.1 + lane.getQueueSize, acc.2 + 1)
    else countNormalLanes rest acc

/-- The function `TrafficManager::calculateVehiclesToProcess`. -/
def calculateVehiclesToProcess {F : Type} (P : Platform F) (s : TrafficManager F) : Nat :=
  let totalVehicles := (countNormalLanes s.lanes (0, 0)).1
  let normalLaneCount := (countNormalLanes s.lanes (0, 0)).2
  if normalLaneCount = 0 then 0
  else
    let avgVehicles := P.div (P.ofNat totalVehicles) (P.ofNat normalLaneCount)
    let vehicleRatio := P.lit 3 10
    P.toSizeT (P.ceil (P.mul avgVehicles vehicleRatio))

/-- The test of the last loop of `update`: the lane is one of the four free lanes. -/
def isFreeLane (lane : Lane) : Bool :=
  lane.getId == LaneId.AL3_FREELANE || lane.getId == LaneId.BL3_FREELANE ||
    lane.getId == LaneId.CL3_FREELANE || lane.getId == LaneId.DL3_FREELANE

/-- The loop `while (lane->getQueueSize() > 0)` of the free-lane pass of `update`; the
first argument bounds the number of iterations. -/
def drainFreeLane {F : Type} : Nat → Lane → ActiveVehicles F → Lane × ActiveVehicles F
  | 0, lane, av => (lane, av)
  | fuel + 1, lane, av =>
    if lane.getQueueSize > 0 then
      drainFreeLane fuel lane.removeVehicle.2 (releaseVehicle av lane.removeVehicle.1)
    else (lane, av)

/-- The loop over the lanes of the free-lane pass of `update`. -/
def processFreeLanesLoop {F : Type} :
    List Lane → ActiveVehicles F → List Lane × ActiveVehicles F
  | [], av => ([], av)
  | lane :: rest, av =>
    if isFreeLane lane then
      ((drainFreeLane lane.getQueueSize lane av).1 ::
          (processFreeLanesLoop rest (drainFreeLane lane.getQueueSize lane av).2).1,
        (processFreeLanesLoop rest (drainFreeLane lane.getQueueSize lane av).2).2)
    else (lane :: (processFreeLanesLoop rest av).1, (processFreeLanesLoop rest av).2)

/-- The free-lane pass that ends `update` ("Process free lanes continuously"). -/
def processFreeLanes {F : Type} (s : TrafficManager F) : TrafficManager F :=
  { s with
    lanes := (processFreeLanesLoop s.lanes s.activeVehicles).1
    activeVehicles := (processFreeLanesLoop s.lanes s.activeVehicles).2 }

/-! ## Vehicle motion -/

/-- The expression `static_cast<float>(static_cast<int>(laneId) -
static_cast<int>(first)) * LANE_WIDTH`, where `first` is the first lane of the approach. -/
def laneOffset {F : Type} (P : Platform F) (laneId first : LaneId) : F :=
  P.mul (P.ofInt (P.laneIndex laneId - P.laneIndex first)) P.LANE_WIDTH

/-- The function `TrafficManager::updateVehicleQueuePosition`. -/
def updateVehicleQueuePosition {F : Type} (P : Platform F) (state : VehicleState F)
    (laneId : LaneId) (queuePosition : Nat) : VehicleState F :=
  match laneId with
  | LaneId.AL1_INCOMING | LaneId.AL2_PRIORITY | LaneId.AL3_FREELANE =>
    { state with
      x := P.sub (P.sub P.CENTER_X P.QUEUE_START_OFFSET)
        (P.mul (P.ofNat queuePosition) P.QUEUE_SPACING)
      y := P.add (P.add (P.sub P.CENTER_Y (P.div P.ROAD_WIDTH (P.lit 2 1)))
        (P.div P.LANE_WIDTH (P.lit 2 1))) (laneOffset P laneId LaneId.AL1_INCOMING) }
  | LaneId.BL1_INCOMING | LaneId.BL2_NORMAL | LaneId.BL3_FREELANE =>
    { state with
      x := P.add (P.add (P.sub P.CENTER_X (P.div P.ROAD_WIDTH (P.lit 2 1)))
        (P.div P.LANE_WIDTH (P.lit 2 1))) (laneOffset P laneId LaneId.BL1_INCOMING)
      y := P.sub (P.sub P.CENTER_Y P.QUEUE_START_OFFSET)
        (P.mul (P.ofNat queuePosition) P.QUEUE_SPACING) }
  | LaneId.CL1_INCOMING | LaneId.CL2_NORMAL | LaneId.CL3_FREELANE =>
    { state with
      x := P.add (P.add P.CENTER_X P.QUEUE_START_OFFSET)
        (P.mul (P.ofNat queuePosition) P.QUEUE_SPACING)
      y := P.add (P.add (P.sub P.CENTER_Y (P.div P.ROAD_WIDTH (P.lit 2 1)))
        (P.div P.LANE_WIDTH (P.lit 2 1))) (laneOffset P laneId LaneId.CL1_INCOMING) }
  | LaneId.DL1_INCOMING | LaneId.DL2_NORMAL | LaneId.DL3_FREELANE =>
    { state with
      x := P.add (P.add (P.sub P.CENTER_X (P.div P.ROAD_WIDTH (P.lit 2 1)))
        (P.div P.LANE_WIDTH (P.lit 2 1))) (laneOffset P laneId LaneId.DL1_INCOMING)
      y := P.add (P.add P.CENTER_Y P.QUEUE_START_OFFSET)
        (P.mul (P.ofNat queuePosition) P.QUEUE_SPACING) }

/-- The function `TrafficManager::calculateTargetPosition`; `EXIT_DISTANCE` is
`450.0f`. -/
def calculateTargetPosition {F : Type} (P : Platform F) (state : VehicleState F)
    (laneId : LaneId) : VehicleState F :=
  let EXIT_DISTANCE := P.lit 450 1
  match state.direction with
  | Direction.STRAIGHT =>
    match laneId with
    | LaneId.AL1_INCOMING | LaneId.AL2_PRIORITY | LaneId.AL3_FREELANE =>
      { state with targetX := P.add P.CENTER_X EXIT_DISTANCE, targetY := state.y }
    | LaneId.BL1_INCOMING | LaneId.BL2_NORMAL | LaneId.BL3_FREELANE =>
      { state with targetX := state.x, targetY := P.add P.CENTER_Y EXIT_DISTANCE }
    | LaneId.CL1_INCOMING | LaneId.CL2_NORMAL | LaneId.CL3_FREELANE =>
      { state with targetX := P.sub P.CENTER_X EXIT_DISTANCE, targetY := state.y }
    | LaneId.DL1_INCOMING | LaneId.DL2_NORMAL | LaneId.DL3_FREELANE =>
      { state with targetX := state.x, targetY := P.sub P.CENTER_Y EXIT_DISTANCE }
  | Direction.LEFT =>
    let turnRadius := P.TURN_GUIDE_RADIUS
    match laneId with
    | LaneId.AL1_INCOMING | LaneId.AL2_PRIORITY | LaneId.AL3_FREELANE =>
      { state with
        targetX := P.add state.x turnRadius, targetY := P.sub P.CENTER_Y EXIT_DISTANCE }
    | LaneId.BL1_INCOMING | LaneId.BL2_NORMAL | LaneId.BL3_FREELANE =>
      { state with
        targetX := P.sub P.CENTER_X EXIT_DISTANCE, targetY := P.add state.y turnRadius }
    | LaneId.CL1_INCOMING | LaneId.CL2_NORMAL | LaneId.CL3_FREELANE =>
      { state with
        targetX := P.sub state.x turnRadius, targetY := P.add P.CENTER_Y EXIT_DISTANCE }
    | LaneId.DL1_INCOMING | LaneId.DL2_NORMAL | LaneId.DL3_FREELANE =>
      { state with
        targetX := P.add P.CENTER_X EXIT_DISTANCE, targetY := P.sub state.y turnRadius }
  | Direction.RIGHT =>
    let turnRadius := P.mul P.TURN_GUIDE_RADIUS (P.lit 6 10)
    match laneId with
    | LaneId.AL1_INCOMING | LaneId.AL2_PRIORITY | LaneId.AL3_FREELANE =>
      { state with
        targetX := P.add state.x turnRadius, targetY := P.add P.CENTER_Y EXIT_DISTANCE }
    | LaneId.BL1_INCOMING | LaneId.BL2_NORMAL | LaneId.BL3_FREELANE =>
      { state with
        targetX := P.add P.CENTER_X EXIT_DISTANCE, targetY := P.add state.y turnRadius }
    | LaneId.CL1_INCOMING | LaneId.CL2_NORMAL | LaneId.CL3_FREELANE =>
      { state with
        targetX := P.sub state.x turnRadius, targetY := P.sub P.CENTER_Y EXIT_DISTANCE }
    | LaneId.DL1_INCOMING | LaneId.DL2_NORMAL | LaneId.DL3_FREELANE =>
      { state with
        targetX := P.sub P.CENTER_X EXIT_DISTANCE, targetY := P.sub state.y turnRadius }

/-- The position switch of `addNewVehicleToState` (its own text, lines 129 to 173): the
pair `(state.x, state.y)` it assigns for `queuePosition`. -/
def spawnPosition {F : Type} (P : Platform F) (laneId : LaneId) (queuePosition : Nat) :
    F × F :=
  match laneId with
  | LaneId.AL1_INCOMING | LaneId.AL2_PRIORITY | LaneId.AL3_FREELANE =>
    (P.sub (P.sub P.CENTER_X P.QUEUE_START_OFFSET)
        (P.mul (P.ofNat queuePosition) P.QUEUE_SPACING),
      P.add (P.add (P.sub P.CENTER_Y (P.div P.ROAD_WIDTH (P.lit 2 1)))
        (P.div P.LANE_WIDTH (P.lit 2 1))) (laneOffset P laneId LaneId.AL1_INCOMING))
  | LaneId.BL1_INCOMING | LaneId.BL2_NORMAL | LaneId.BL3_FREELANE =>
    (P.add (P.add (P.sub P.CENTER_X (P.div P.ROAD_WIDTH (P.lit 2 1)))
        (P.div P.LANE_WIDTH (P.lit 2 1))) (laneOffset P laneId LaneId.BL1_INCOMING),
      P.sub (P.sub P.CENTER_Y P.QUEUE_START_OFFSET)
        (P.mul (P.ofNat queuePosition) P.QUEUE_SPACING))
  | LaneId.CL1_INCOMING | LaneId.CL2_NORMAL | LaneId.CL3_FREELANE =>
    (P.add (P.add P.CENTER_X P.QUEUE_START_OFFSET)
        (P.mul (P.ofNat queuePosition) P.QUEUE_SPACING),
      P.add (P.add (P.sub P.CENTER_Y (P.div P.ROAD_WIDTH (P.lit 2 1)))
        (P.div P.LANE_WIDTH (P.lit 2 1))) (laneOffset P laneId LaneId.CL1_INCOMING))
  | LaneId.DL1_INCOMING | LaneId.DL2_NORMAL | LaneId.DL3_FREELANE =>
    (P.add (P.add (P.sub P.CENTER_X (P.div P.ROAD_WIDTH (P.lit 2 1)))
        (P.div P.LANE_WIDTH (P.lit 2 1))) (laneOffset P laneId LaneId.DL1_INCOMING),
      P.add (P.add P.CENTER_Y P.QUEUE_START_OFFSET)
        (P.mul (P.ofNat queuePosition) P.QUEUE_SPACING))

/-- The function `TrafficManager::addNewVehicleToState`; `targetX`, `targetY`,
`turnAngle` and `targetAngle` are not initialised before `calculateTargetPosition`
runs. -/
def addNewVehicleToState {F : Type} (P : Platform F) (s : TrafficManager F) (vehicle : Vehicle)
    (laneId : LaneId) : TrafficManager F :=
  let queuePosition := getLaneSize s laneId
  let state : VehicleState F :=
    { vehicle := vehicle
      x := (spawnPosition P laneId queuePosition).1
      y := (spawnPosition P laneId queuePosition).2
      targetX := P.indeterminate
      targetY := P.indeterminate
      speed := P.VEHICLE_BASE_SPEED
      isMoving := false
      direction := vehicle.direction
      hasStartedTurn := false
      turnProgress := P.lit 0 1
      waitTime := P.lit 0 1
      turnAngle := P.indeterminate
      targetAngle := P.indeterminate }
  let state := calculateTargetPosition P state laneId
  { s with activeVehicles := s.activeVehicles.assign vehicle.id state }

/-- The constant `MIN_DISTANCE` of `checkCollision`. -/
def MIN_DISTANCE {F : Type} (P : Platform F) : F := P.mul P.VEHICLE_WIDTH (P.lit 12 10)

/-- The distance `std::sqrt(dx * dx + dy * dy)` as the code computes it. -/
def distanceTo {F : Type} (P : Platform F) (dx dy : F) : F :=
  P.sqrt (P.add (P.mul dx dx) (P.mul dy dy))

/-- The function `TrafficManager::checkCollision`, over the table `av`. -/
def checkCollision {F : Type} (P : Platform F) :
    ActiveVehicles F → VehicleState F → F → F → Bool
  | [], _, _, _ => false
  | (otherId, otherState) :: rest, state, newX, newY =>
    if otherId ≠ state.vehicle.id ∧
        P.lt (distanceTo P (P.sub newX otherState.x) (P.sub newY otherState.y))
          (MIN_DISTANCE P) = true then true
    else checkCollision P rest state newX newY

/-- One pass of the `while` loop of `updateVehiclePositions` at the entry `(id, state)`,
with `table` the whole table at that moment: `none` when the entry is erased. -/
def stepVehicle {F : Type} (P : Platform F) (lanes : List Lane) (deltaTime : F)
    (table : ActiveVehicles F) (state : VehicleState F) : Option (VehicleState F) :=
  if state.isMoving then
    let dx := P.sub state.targetX state.x
    let dy := P.sub state.targetY state.y
    let distance := distanceTo P dx dy
    if P.lt distance (P.lit 1 1) then none
    else
      let speedFactor := P.sub (P.lit 1 1) (P.exp (P.div (P.neg distance) (P.lit 200 1)))
      let currentSpeed := P.mul state.speed speedFactor
      let moveX := P.mul (P.mul (P.div dx distance) currentSpeed) deltaTime
      let moveY := P.mul (P.mul (P.div dy distance) currentSpeed) deltaTime
      if !checkCollision P table state (P.add state.x moveX) (P.add state.y moveY) then
        some { state with x := P.add state.x moveX, y := P.add state.y moveY }
      else some state
  else
    some (updateVehicleQueuePosition P state state.vehicle.currentLane
      (laneSizeIn lanes state.vehicle.currentLane))

/-- The `while` loop of `updateVehiclePositions`: `done` holds the entries before the
iterator (already updated), the third list the entries from the iterator on. -/
def updateVehiclePositionsLoop {F : Type} (P : Platform F) (lanes : List Lane) (deltaTime : F) :
    ActiveVehicles F → ActiveVehicles F → ActiveVehicles F
  | done, [] => done
  | done, (id, state) :: rest =>
    match stepVehicle P lanes deltaTime (done ++ (id, state) :: rest) state with
    | none => updateVehiclePositionsLoop P lanes deltaTime done rest
    | some state' => updateVehiclePositionsLoop P lanes deltaTime (done ++ [(id, state')]) rest

/-- The function `TrafficManager::updateVehiclePositions`. -/
def updateVehiclePositions {F : Type} (P : Platform F) (s : TrafficManager F) (deltaTime : F) :
    TrafficManager F :=
  { s with
    activeVehicles := updateVehiclePositionsLoop P s.lanes deltaTime [] s.activeVehicles }

/-! ## The tick -/

/-- The loop `for (const auto& [laneId, vehicle] : newVehicles)` of `update`. -/
def feedVehicles {F : Type} (P : Platform F) :
    TrafficManager F → List (LaneId × Vehicle) → TrafficManager F
  | s, [] => s
  | s, (laneId, vehicle) :: rest =>
    feedVehicles P (addNewVehicleToState P (addVehicleToLane s laneId vehicle) vehicle laneId)
      rest

/-- The first phase of `update`: the timers advance and, when `fileCheckTimer` has
reached `FILE_CHECK_INTERVAL / 1000.0f`, the vehicles `newVehicles` that
`fileHandler.readNewVehicles()` returns on this tick are fed in. -/
def pollFeed {F : Type} (P : Platform F) (s : TrafficManager F) (deltaTime : F)
    (newVehicles : List (LaneId × Vehicle)) : TrafficManager F :=
  let s := { s with
    stateTimer := P.add s.stateTimer deltaTime
    lastUpdateTime := P.add s.lastUpdateTime deltaTime
    fileCheckTimer := P.add s.fileCheckTimer deltaTime }
  if P.ge s.fileCheckTimer (P.div P.FILE_CHECK_INTERVAL (P.lit 1000 1)) then
    { feedVehicles P s newVehicles with fileCheckTimer := P.lit 0 1 }
  else s

/-- The branch `if (checkPriorityConditions()) { ... }` of `update`. -/
def priorityBranch {F : Type} (P : Platform F) (s : TrafficManager F) : TrafficManager F :=
  let s := if !s.inPriorityMode then synchronizeTrafficLights P s else s
  let s := { s with inPriorityMode := true }
  processPriorityLane s

/-- The block "Process normal lanes at regular intervals" of `update`. -/
def dispatchNormal {F : Type} (P : Platform F) (s : TrafficManager F) : TrafficManager F :=
  if P.ge s.lastUpdateTime P.VEHICLE_PROCESS_TIME then
    let vehiclesToProcess := calculateVehiclesToProcess P s
    let s := processNormalLanes s vehiclesToProcess
    { s with lastUpdateTime := P.lit 0 1 }
  else s

/-- The branch `else { ... }` of `update`. -/
def normalBranch {F : Type} (P : Platform F) (s : TrafficManager F) : TrafficManager F :=
  let s := if s.inPriorityMode then synchronizeTrafficLights P s else s
  let s := { s with inPriorityMode := false }
  dispatchNormal P s

/-- The second and third phases of `update`: the positions are updated, then the
priority condition is evaluated and the priority lane or the normal lanes are
processed. -/
def schedule {F : Type} (P : Platform F) (s : TrafficManager F) (deltaTime : F) :
    TrafficManager F :=
  let s := updateVehiclePositions P s deltaTime
  if checkPriorityConditions s then priorityBranch P s else normalBranch P s

/-- The function `TrafficManager::update`; `newVehicles` is what
`fileHandler.readNewVehicles()` returns if it is called on this tick. -/
def update {F : Type} (P : Platform F) (s : TrafficManager F) (deltaTime : F)
    (newVehicles : List (LaneId × Vehicle)) : TrafficManager F :=
  processFreeLanes
    (updateTrafficLights P (schedule P (pollFeed P s deltaTime newVehicles) deltaTime)
      deltaTime)

/-! ## Reachable states -/

/-- The states of the engine: the constructor, then arrivals through the public pair
`addVehicleToLane`, `addNewVehicleToState`, and update ticks. -/
inductive Reachable {F : Type} (P : Platform F) : TrafficManager F → Prop
  | init : Reachable P (TrafficManager.new P)
  | arrival (s : TrafficManager F) (laneId : LaneId) (v : Vehicle) :
      Reachable P s →
      Reachable P (addNewVehicleToState P (addVehicleToLane s laneId v) v laneId)
  | tick (s : TrafficManager F) (deltaTime : F) (newVehicles : List (LaneId × Vehicle)) :
      Reachable P s → Reachable P (update P s deltaTime newVehicles)

/-- The accessor `getLanes()` read at one lane id: the queue of the first lane with that
id, empty when there is none. -/
def laneQueue : List Lane → LaneId → List Vehicle
  | [], _ => []
  | lane :: rest, laneId => if lane.getId = laneId then lane.queue else laneQueue rest laneId

/-- The twelve lanes of the constructor holding the queues `q`. -/
def lanesOf (q : LaneId → List Vehicle) : List Lane :=
  initialLanes.map fun lane => { lane with queue := q lane.id }

/-- The lane set of the constructor: the twelve ids in `push_back` order, with the
priority flag on `AL2_PRIORITY` alone. -/
def WellFormed {F : Type} (s : TrafficManager F) : Prop :=
  s.lanes.map (fun lane => (lane.id, lane.isPriority)) =
    initialLanes.map (fun lane => (lane.id, lane.isPriority))

instance WellFormed.decidable {F : Type} (s : TrafficManager F) : Decidable (WellFormed s) :=
  inferInstanceAs (Decidable (_ = _))

/-! ## A binary32 instance of the arithmetic

Finite values of IEEE 754 binary32 are rationals, and each operation is the exact
rational operation followed by rounding to nearest, ties to even, with 24 significant
bits and gradual underflow.  Results beyond the binary32 range, division by zero and the
square root of a negative number (infinities and NaN) are outside this instance; no
input evaluated below comes near them. -/

/-- The integer nearest to `N / D`, ties to even. -/
def roundHalfEven (N D : Nat) : Nat :=
  if 2 * (N % D) < D then N / D
  else if 2 * (N % D) = D then (if (N / D) % 2 = 0 then N / D else N / D + 1)
  else N / D + 1

/-- The position of the leading bit of `n` (`0` for `n < 2`); the first argument bounds
the number of halvings. -/
def bitLog2 : Nat → Nat → Nat
  | 0, _ => 0
  | fuel + 1, n => if n < 2 then 0 else bitLog2 fuel (n / 2) + 1

/-- The exponent `e` with `2 ^ e ≤ n / d < 2 ^ (e + 1)`, for positive `n` and `d`. -/
def floorLog2 (n d : Nat) : Int :=
  let e0 : Int := (bitLog2 n n : Int) - (bitLog2 d d : Int)
  if e0 ≥ 0 then (if n < d * 2 ^ e0.toNat then e0 - 1 else e0)
  else (if n * 2 ^ (-e0).toNat < d then e0 - 1 else e0)

/-- The rational `m * 2 ^ u`. -/
def scale2 (m : Nat) (u : Int) : ℚ :=
  if u ≥ 0 then ((m * 2 ^ u.toNat : Nat) : ℚ) else (m : ℚ) / ((2 ^ (-u).toNat : Nat) : ℚ)

/-- Rounding of a rational to binary32: nearest, ties to even. -/
def roundF32 (q : ℚ) : ℚ :=
  if q = 0 then 0
  else
    let n := q.num.natAbs
    let d := q.den
    let u : Int := max (floorLog2 n d - 23) (-149)
    let m : Nat :=
      if u ≥ 0 then roundHalfEven n (d * 2 ^ u.toNat)
      else roundHalfEven (n * 2 ^ (-u).toNat) d
    if q < 0 then -(scale2 m u) else scale2 m u

/-- The integer square root by bits, from bit `b - 1` down to bit `0`. -/
def isqrtBits : Nat → Nat → Nat → Nat
  | 0, _, r => r
  | b + 1, n, r => isqrtBits b n (if (r + 2 ^ b) * (r + 2 ^ b) ≤ n then r + 2 ^ b else r)

/-- The integer square root. -/
def isqrt (n : Nat) : Nat := isqrtBits (bitLog2 n n / 2 + 1) n 0

/-- The correctly rounded binary32 square root of a non-negative rational. -/
def sqrtF32 (q : ℚ) : ℚ :=
  if q ≤ 0 then 0
  else
    let n := q.num.natAbs
    let d := q.den
    let k : Int := (47 - floorLog2 n d) / 2
    let N : Nat := if k ≥ 0 then n * 4 ^ k.toNat else n
    let D : Nat := if k ≥ 0 then d else d * 4 ^ (-k).toNat
    let f : Nat := isqrt (N / D)
    let f' : Nat :=
      if 4 * N < D * (4 * f * f + 4 * f + 1) then f
      else if 4 * N = D * (4 * f * f + 4 * f + 1) then (if f % 2 = 0 then f else f + 1)
      else f + 1
    scale2 f' (-k)

/-- The exponential as the Taylor polynomial of degree 64, rounded to binary32; for the
arguments of small magnitude that the ticks evaluated below produce, a library
`std::exp` may differ from it in the last bit.  The one argument of larger magnitude
evaluated below is `-17.5`, where the polynomial is within one percent of the
exponential. -/
def expF32 (q : ℚ) : ℚ :=
  roundF32 ((List.range 64).foldr (fun k acc => 1 + q / ((k : ℚ) + 1) * acc) 1)

/-- The least integer not below `q`. -/
def ceilQ (q : ℚ) : ℚ := ((-((-q.num) / (q.den : Int)) : Int) : ℚ)

/-- The binary32 instance.  The geometric constants are those that `FileHandler.h`
repeats (window 1024 by 768, road width 270, lane width 90, queue spacing 40, queue
start offset 250); the other constants of `SimConstants` are not in the sources and
are given sample values, the enumerators of `LaneId` are numbered from `0` in
declaration order, and a light's `update` advances its elapsed time. -/
def f32 : Platform ℚ where
  add a b := roundF32 (a + b)
  sub a b := roundF32 (a - b)
  mul a b := roundF32 (a * b)
  div a b := roundF32 (a / b)
  neg a := -a
  sqrt := sqrtF32
  exp := expF32
  ceil := ceilQ
  lt a b := decide (a < b)
  ge a b := decide (b ≤ a)
  ofNat n := roundF32 (n : ℚ)
  ofInt i := roundF32 (i : ℚ)
  toSizeT q := (q.num / (q.den : Int)).toNat
  lit num den := roundF32 ((num : ℚ) / (den : ℚ))
  indeterminate := 0
  CENTER_X := 512
  CENTER_Y := 384
  ROAD_WIDTH := 270
  LANE_WIDTH := 90
  QUEUE_SPACING := 40
  QUEUE_START_OFFSET := 250
  VEHICLE_WIDTH := 40
  VEHICLE_BASE_SPEED := 50
  TURN_GUIDE_RADIUS := 30
  FILE_CHECK_INTERVAL := 100
  VEHICLE_PROCESS_TIME := 2
  laneIndex
    | LaneId.AL1_INCOMING => 0 | LaneId.AL2_PRIORITY => 1 | LaneId.AL3_FREELANE => 2
    | LaneId.BL1_INCOMING => 3 | LaneId.BL2_NORMAL => 4 | LaneId.BL3_FREELANE => 5
    | LaneId.CL1_INCOMING => 6 | LaneId.CL2_NORMAL => 7 | LaneId.CL3_FREELANE => 8
    | LaneId.DL1_INCOMING => 9 | LaneId.DL2_NORMAL => 10 | LaneId.DL3_FREELANE => 11
  lightDefault := { state := LightState.RED, elapsed := 0, minHold := 0, maxHold := 0 }
  lightUpdate dt l := { l with elapsed := roundF32 (l.elapsed + dt) }

/-! ## Notions used in the statements -/

/-- The vehicles `vs` released one after the other: each one's entry, when there is
one, gets `isMoving = true`. -/
def releaseAll {F : Type} (av : ActiveVehicles F) (vs : List Vehicle) : ActiveVehicles F :=
  vs.foldl (fun av v => av.setMoving v.id) av

/-- The assignment `isMoving = true` on one motion state. -/
def VehicleState.release {F : Type} (st : VehicleState F) : VehicleState F :=
  { st with isMoving := true }

/-- The lane ids that `isNormalLane` accepts in the constructor's lane set. -/
def normalLaneIds : List LaneId :=
  [LaneId.AL1_INCOMING, LaneId.BL1_INCOMING, LaneId.BL2_NORMAL, LaneId.CL1_INCOMING,
    LaneId.CL2_NORMAL, LaneId.DL1_INCOMING, LaneId.DL2_NORMAL]

/-- The four free lane ids. -/
def freeLaneIds : List LaneId :=
  [LaneId.AL3_FREELANE, LaneId.BL3_FREELANE, LaneId.CL3_FREELANE, LaneId.DL3_FREELANE]

/-- The twelve lane ids. -/
def allLaneIds : List LaneId :=
  [LaneId.AL1_INCOMING, LaneId.AL2_PRIORITY, LaneId.AL3_FREELANE, LaneId.BL1_INCOMING,
    LaneId.BL2_NORMAL, LaneId.BL3_FREELANE, LaneId.CL1_INCOMING, LaneId.CL2_NORMAL,
    LaneId.CL3_FREELANE, LaneId.DL1_INCOMING, LaneId.DL2_NORMAL, LaneId.DL3_FREELANE]

/-- The vehicles dequeued between two lane lists: for each lane id, the head of the
earlier queue that the later queue lacks. -/
def dequeuedBy (before after : List Lane) : List Vehicle :=
  allLaneIds.flatMap fun l =>
    (laneQueue before l).take ((laneQueue before l).length - (laneQueue after l).length)

/-- One entry of the table before and after a release of the vehicles with ids in `ids`:
same key, and the state is untouched or differs only by `isMoving = true`, the latter
only for a key in `ids`. -/
def ReleasedEntry {F : Type} (ids : List Nat) (e e' : Nat × VehicleState F) : Prop :=
  e'.1 = e.1 ∧ (e'.2 = e.2 ∨ (e'.2 = e.2.release ∧ e.1 ∈ ids))

/-- The table of `s'` is the table of `s` entry by entry, in the same key order, up to
`isMoving = true` on entries of vehicles dequeued between `s` and `s'`. -/
def ReleasesOnly {F : Type} (s s' : TrafficManager F) : Prop :=
  List.Forall₂ (ReleasedEntry ((dequeuedBy s.lanes s'.lanes).map Vehicle.id))
    s.activeVehicles s'.activeVehicles

/-- The sum `T` of the queue sizes of the lanes that are neither the priority lane nor a
free lane. -/
def normalTotal (lanes : List Lane) : Nat :=
  ((lanes.filter isNormalLane).map Lane.getQueueSize).sum

/-- The number `k` of lanes that are neither the priority lane nor a free lane. -/
def normalCount (lanes : List Lane) : Nat :=
  (lanes.filter isNormalLane).length

/-- The arrivals `(laneId, vehicle id first + i)` for `i < n`, all going straight. -/
def arrivals (laneId : LaneId) (first n : Nat) : List (LaneId × Vehicle) :=
  (List.range n).map fun i => (laneId, ⟨first + i, Direction.STRAIGHT, laneId⟩)

/-- The state of the light of lane `k` as the accessor `getTrafficLights()` shows it:
`none` when the map has no entry for `k`. -/
def lightStateAt {F : Type} (m : LaneId → Option (TrafficLight F)) (k : LaneId) :
    Option LightState :=
  (m k).map TrafficLight.getState

/-- The lockstep of normal mode: AL2 and CL2 show the same state, BL2 and DL2 show the
same state, and one pair is GREEN while the other is RED. -/
def Lockstep {F : Type} (m : LaneId → Option (TrafficLight F)) : Prop :=
  lightStateAt m LaneId.AL2_PRIORITY = lightStateAt m LaneId.CL2_NORMAL ∧
    lightStateAt m LaneId.BL2_NORMAL = lightStateAt m LaneId.DL2_NORMAL ∧
    ((lightStateAt m LaneId.AL2_PRIORITY = some LightState.GREEN ∧
        lightStateAt m LaneId.BL2_NORMAL = some LightState.RED) ∨
      (lightStateAt m LaneId.AL2_PRIORITY = some LightState.RED ∧
        lightStateAt m LaneId.BL2_NORMAL = some LightState.GREEN))

/-- The configuration that `synchronizeTrafficLights` sets in priority mode: AL2 GREEN,
the three others RED. -/
def PriorityConfiguration {F : Type} (m : LaneId → Option (TrafficLight F)) : Prop :=
  lightStateAt m LaneId.AL2_PRIORITY = some LightState.GREEN ∧
    lightStateAt m LaneId.BL2_NORMAL = some LightState.RED ∧
    lightStateAt m LaneId.CL2_NORMAL = some LightState.RED ∧
    lightStateAt m LaneId.DL2_NORMAL = some LightState.RED

/-- The configuration that `synchronizeTrafficLights` sets in normal mode ("North-South
traffic flow"): BL2 and DL2 GREEN, AL2 and CL2 RED. -/
def NormalStartConfiguration {F : Type} (m : LaneId → Option (TrafficLight F)) : Prop :=
  lightStateAt m LaneId.AL2_PRIORITY = some LightState.RED ∧
    lightStateAt m LaneId.BL2_NORMAL = some LightState.GREEN ∧
    lightStateAt m LaneId.CL2_NORMAL = some LightState.RED ∧
    lightStateAt m LaneId.DL2_NORMAL = some LightState.GREEN

/-! ## The vehicle feed (`FileHandler`) -/

/-- The lane files of the data directory: the bytes of each lane's file, one character
per byte, and `none` for a file that does not exist. -/
abbrev LaneFiles := LaneId → Option (List Char)

/-- The C function `isspace` in the "C" locale, by which `std::stoul` skips leading
white space: the space and the characters 9 to 13. -/
def isSpace (c : Char) : Bool :=
  decide (c.toNat = 32) || (decide (9 ≤ c.toNat) && decide (c.toNat ≤ 13))

/-- A decimal digit character. -/
def isDigit (c : Char) : Bool :=
  decide (48 ≤ c.toNat) && decide (c.toNat ≤ 57)

/-- The number that a string of decimal digits denotes. -/
def decimalValue (digits : List Char) : Nat :=
  digits.foldl (fun acc c => 10 * acc + (c.toNat - 48)) 0

/-- The library function `std::stoul(str)` in base 10, for an `unsigned long` of
`ulongBits` bits: leading white space is skipped, one sign is accepted, the longest run
of digits is converted and what follows it is ignored; a minus sign negates the value
modulo `2 ^ ulongBits`.  The result is `none` when the function throws:
`std::invalid_argument` when there is no digit, `std::out_of_range` when the digits
exceed the range of `unsigned long`. -/
def stoul (ulongBits : Nat) (str : List Char) : Option Nat :=
  let afterSpace := str.dropWhile isSpace
  let negative := decide (afterSpace.head? = some '-')
  let afterSign :=
    match afterSpace with
    | [] => []
    | c :: rest => if c = '-' ∨ c = '+' then rest else c :: rest
  let digits := afterSign.takeWhile isDigit
  if digits = [] then none
  else if 2 ^ ulongBits ≤ decimalValue digits then none
  else if negative then some ((2 ^ ulongBits - decimalValue digits) % 2 ^ ulongBits)
  else some (decimalValue digits)

/-- The call `line.find(c)`: the index of the first `c`, `none` for `npos`. -/
def findChar (c : Char) : List Char → Option Nat
  | [] => none
  | x :: rest => if x = c then some 0 else (findChar c rest).map (· + 1)

/-- The body of the loop `while (std::getline(file, line))` of `readNewVehicles` for one
line: the vehicle it appends to `newVehicles`, `none` when it appends nothing (empty
line, missing comma or semicolon, exception of `std::stoul` caught, direction character
other than `S`, `L`, `R`). -/
def parseLine (ulongBits : Nat) (laneId : LaneId) (line : List Char) : Option Vehicle :=
  if line = [] then none
  else
    match findChar ',' line, findChar ';' line with
    | some commaPos, some _ =>
      match stoul ulongBits (line.take commaPos) with
      | none => none
      | some value =>
        let id := value % 2 ^ 32
        let dirChar := line.getD (commaPos + 1) (Char.ofNat 0)
        if dirChar = 'S' then some ⟨id, Direction.STRAIGHT, laneId⟩
        else if dirChar = 'L' then some ⟨id, Direction.LEFT, laneId⟩
        else if dirChar = 'R' then some ⟨id, Direction.RIGHT, laneId⟩
        else none
    | _, _ => none

/-- The lines that successive calls of `std::getline` return on the bytes `content`,
with `current` the reversed characters of the line being read: a line ends at a newline
or at the end of the input, and an empty tail after the last newline is no line. -/
def getLinesFrom : List Char → List Char → List (List Char)
  | [], current => if current = [] then [] else [current.reverse]
  | c :: rest, current =>
    if c = '\n' then current.reverse :: getLinesFrom rest []
    else getLinesFrom rest (c :: current)

/-- The lines of a file read from its first byte. -/
def getLines (content : List Char) : List (List Char) :=
  getLinesFrom content []

/-- The member `lastReadPositions` of the class `FileHandler`; each lane has a file path
of its own, so the map is keyed here by the lane. -/
structure FileHandler where
  lastReadPositions : LaneId → Int

/-- The constructor `FileHandler::FileHandler` on an accessible data directory: it
creates the lane files that do not exist and sets every read position to `0`. -/
def FileHandler.new (files : LaneFiles) : FileHandler × LaneFiles :=
  (⟨fun _ => 0⟩, fun l => some ((files l).getD []))

/-- The body of the loop of `readNewVehicles` for one lane file that exists, from the
read position `pos`: the vehicles of the lines read and the new read position.  When
the file is longer than `pos`, the stream is positioned at `pos` (a negative `pos` makes
`seekg` fail, and a failed stream yields no line), the lines are parsed, and the
position stored is `file.tellg()` of a stream whose last `getline` has failed, which is
`-1`. -/
def readLaneFile (ulongBits : Nat) (laneId : LaneId) (content : List Char) (pos : Int) :
    List Vehicle × Int :=
  if (content.length : Int) > pos then
    let lines := if 0 ≤ pos then getLines (content.drop pos.toNat) else []
    (lines.filterMap (parseLine ulongBits laneId), -1)
  else ([], pos)

/-- The loop `for (const auto& [laneId, filepath] : laneFiles)` of `readNewVehicles`,
over the lanes in the order of the map keys. -/
def readNewVehiclesLoop (ulongBits : Nat) (files : LaneFiles) :
    List LaneId → FileHandler → List (LaneId × Vehicle) →
      List (LaneId × Vehicle) × FileHandler
  | [], handler, newVehicles => (newVehicles, handler)
  | laneId :: rest, handler, newVehicles =>
    match files laneId with
    | none => readNewVehiclesLoop ulongBits files rest handler newVehicles
    | some content =>
      readNewVehiclesLoop ulongBits files rest
        ⟨Function.update handler.lastReadPositions laneId
          (readLaneFile ulongBits laneId content (handler.lastReadPositions laneId)).2⟩
        (newVehicles ++
          (readLaneFile ulongBits laneId content (handler.lastReadPositions laneId)).1.map
            fun v => (laneId, v))

/-- The function `FileHandler::readNewVehicles`: the new vehicles and the handler with
its read positions updated. -/
def FileHandler.readNewVehicles (ulongBits : Nat) (handler : FileHandler)
    (files : LaneFiles) : List (LaneId × Vehicle) × FileHandler :=
  readNewVehiclesLoop ulongBits files allLaneIds handler []

/-- The statements `FileHandler fileHandler; auto newVehicles =
fileHandler.readNewVehicles();` of `update`: a handler is constructed for this poll
alone. -/
def pollFiles (ulongBits : Nat) (files : LaneFiles) : List (LaneId × Vehicle) :=
  ((FileHandler.new files).1.readNewVehicles ulongBits (FileHandler.new files).2).1

/-- The function `TrafficManager::update` on the lane files `files`. -/
def updateFromFiles {F : Type} (P : Platform F) (ulongBits : Nat) (s : TrafficManager F)
    (deltaTime : F) (files : LaneFiles) : TrafficManager F :=
  update P s deltaTime (pollFiles ulongBits files)

/-- The files of the data directory in which the file of `laneId` holds `content` and
the other lane files are empty. -/
def oneLaneFile (laneId : LaneId) (content : List Char) : LaneFiles :=
  fun l => if l = laneId then some content else some []

/-- The direction character of a feed record. -/
def directionChar : Direction → Char
  | Direction.STRAIGHT => 'S'
  | Direction.LEFT => 'L'
  | Direction.RIGHT => 'R'

/-- The text of a feed record: the id `n` in decimal, a comma, the direction character
and a semicolon, as in `42,S;`. -/
def feedRecord (n : Nat) (d : Direction) : List Char :=
  Nat.toDigits 10 n ++ [',', directionChar d, ';']

/-- The vehicles that one call of `readNewVehicles` takes from the file of `laneId`,
with the read position `pos` that the handler holds for it. -/
def vehiclesRead (ulongBits : Nat) (files : LaneFiles) (positions : LaneId → Int)
    (laneId : LaneId) : List (LaneId × Vehicle) :=
  match files laneId with
  | none => []
  | some content =>
    (readLaneFile ulongBits laneId content (positions laneId)).1.map fun v => (laneId, v)

/-- The read position that one call of `readNewVehicles` leaves for the file of
`laneId`. -/
def positionAfter (ulongBits : Nat) (files : LaneFiles) (positions : LaneId → Int)
    (laneId : LaneId) : Int :=
  match files laneId with
  | none => positions laneId
  | some content => (readLaneFile ulongBits laneId content (positions laneId)).2

/-- The bytes of a text file that holds the given lines, each ended by a newline. -/
def fileText (lines : List (List Char)) : List Char :=
  lines.flatMap fun line => line ++ ['\n']

/-- The test `state.isMoving` and `distance < 1.0f` on which `updateVehiclePositions`
erases an entry, with the distance as the code computes it. -/
def arrived {F : Type} (P : Platform F) (state : VehicleState F) : Bool :=
  state.isMoving &&
    P.lt (distanceTo P (P.sub state.targetX state.x) (P.sub state.targetY state.y)) (P.lit 1 1)

/-- An entry of the table and what a pass of `updateVehiclePositions` makes of it: the
same key, vehicle, flag and target. -/
def SameVehicle {F : Type} (e e' : Nat × VehicleState F) : Prop :=
  e'.1 = e.1 ∧ e'.2.vehicle = e.2.vehicle ∧ e'.2.isMoving = e.2.isMoving ∧
    e'.2.targetX = e.2.targetX ∧ e'.2.targetY = e.2.targetY

/-- A motion state of the binary32 instance at `(x, y)` with target `(targetX, targetY)`,
its other fields as `addNewVehicleToState` sets them. -/
def stateAt (vehicle : Vehicle) (x y targetX targetY : ℚ) (isMoving : Bool) : VehicleState ℚ :=
  { vehicle := vehicle
    x := x
    y := y
    targetX := targetX
    targetY := targetY
    speed := f32.VEHICLE_BASE_SPEED
    isMoving := isMoving
    direction := vehicle.direction
    hasStartedTurn := false
    turnProgress := 0
    waitTime := 0
    turnAngle := 0
    targetAngle := 0 }

/-- The position `(state.x + moveX, state.y + moveY)` that `updateVehiclePositions`
hands to `checkCollision` for a moving vehicle. -/
def prospective {F : Type} (P : Platform F) (state : VehicleState F) (deltaTime : F) : F × F :=
  let dx := P.sub state.targetX state.x
  let dy := P.sub state.targetY state.y
  let distance := distanceTo P dx dy
  let speedFactor := P.sub (P.lit 1 1) (P.exp (P.div (P.neg distance) (P.lit 200 1)))
  let currentSpeed := P.mul state.speed speedFactor
  let moveX := P.mul (P.mul (P.div dx distance) currentSpeed) deltaTime
  let moveY := P.mul (P.mul (P.div dy distance) currentSpeed) deltaTime
  (P.add state.x moveX, P.add state.y moveY)

/-- An entry of the table and a later entry that continues it: the same key and vehicle,
and moving if the earlier one was moving. -/
def Continues {F : Type} (e e' : Nat × VehicleState F) : Prop :=
  e'.1 = e.1 ∧ e'.2.vehicle = e.2.vehicle ∧ (e.2.isMoving = true → e'.2.isMoving = true)

/-- A run of `n` update ticks of `deltaTime` each on which the feed returns nothing. -/
def ticks {F : Type} (P : Platform F) (deltaTime : F) : Nat → TrafficManager F → TrafficManager F
  | 0, s => s
  | n + 1, s => ticks P deltaTime n (update P s deltaTime [])

/-! ## Counting the calls of `addVehicle` and `removeVehicle` -/

/-- The number of calls `lane->removeVehicle()` that return a vehicle in the loop
`drainPriorityLane`. -/
def drainPriorityLaneCount : Nat → Lane → Nat
  | 0, _ => 0
  | fuel + 1, lane =>
    if lane.getQueueSize > 5 then
      (if lane.removeVehicle.1.isSome then 1 else 0) +
        drainPriorityLaneCount fuel lane.removeVehicle.2
    else 0

/-- The number of vehicles that `processPriorityLane` dequeues from the lanes with id
`laneId`. -/
def processPriorityLanesCount : List Lane → LaneId → Nat
  | [], _ => 0
  | lane :: rest, laneId =>
    if lane.isPriorityLane && decide (lane.getQueueSize > 5) then
      if lane.getId = laneId then drainPriorityLaneCount lane.getQueueSize lane else 0
    else processPriorityLanesCount rest laneId

/-- The number of calls `lane->removeVehicle()` that return a vehicle in the loop
`dequeueUpTo`. -/
def dequeueUpToCount : Nat → Lane → Nat
  | 0, _ => 0
  | n + 1, lane =>
    if lane.getQueueSize > 0 then
      (if lane.removeVehicle.1.isSome then 1 else 0) + dequeueUpToCount n lane.removeVehicle.2
    else 0

/-- The number of vehicles that the lane loop of `processNormalLanes` dequeues from the
lanes with id `laneId`. -/
def processNormalLanesCount (vehicleCount : Nat) : List Lane → LaneId → Nat
  | [], _ => 0
  | lane :: rest, laneId =>
    (if isNormalLane lane && decide (lane.getId = laneId) then
        dequeueUpToCount vehicleCount lane
      else 0) + processNormalLanesCount vehicleCount rest laneId

/-- The number of calls `lane->removeVehicle()` that return a vehicle in the loop
`drainFreeLane`. -/
def drainFreeLaneCount : Nat → Lane → Nat
  | 0, _ => 0
  | fuel + 1, lane =>
    if lane.getQueueSize > 0 then
      (if lane.removeVehicle.1.isSome then 1 else 0) +
        drainFreeLaneCount fuel lane.removeVehicle.2
    else 0

/-- The number of vehicles that the free-lane pass of `update` dequeues from the lanes
with id `laneId`. -/
def processFreeLanesCount : List Lane → LaneId → Nat
  | [], _ => 0
  | lane :: rest, laneId =>
    (if isFreeLane lane && decide (lane.getId = laneId) then
        drainFreeLaneCount lane.getQueueSize lane
      else 0) + processFreeLanesCount rest laneId

/-- The lane lists of the engine with their history: `Accounted lanes N M` says that
`lanes` results from the constructor's lanes by calls of `addVehicleToLane` and by the
three dequeuing passes of the scheduler, `N l` being the number of calls
`addVehicleToLane(l, v)` and `M l` the number of vehicles dequeued from `l` so far. -/
inductive Accounted {F : Type} : List Lane → (LaneId → Nat) → (LaneId → Nat) → Prop
  | init : Accounted initialLanes (fun _ => 0) (fun _ => 0)
  | add (lanes : List Lane) (N M : LaneId → Nat) (laneId : LaneId) (v : Vehicle) :
      Accounted lanes N M →
      Accounted (addVehicleToLanes lanes laneId v)
        (fun l => N l + if l = laneId then 1 else 0) M
  | priority (lanes : List Lane) (N M : LaneId → Nat) (av : ActiveVehicles F) :
      Accounted lanes N M →
      Accounted (processPriorityLanes lanes av).1 N
        (fun l => M l + processPriorityLanesCount lanes l)
  | normal (lanes : List Lane) (N M : LaneId → Nat) (vehicleCount : Nat)
      (av : ActiveVehicles F) :
      Accounted lanes N M →
      Accounted (processNormalLanesLoop vehicleCount lanes av).1 N
        (fun l => M l + processNormalLanesCount vehicleCount lanes l)
  | free (lanes : List Lane) (N M : LaneId → Nat) (av : ActiveVehicles F) :
      Accounted lanes N M →
      Accounted (processFreeLanesLoop lanes av).1 N
        (fun l => M l + processFreeLanesCount lanes l)

/-! ## The queue geometry and the targets in the words of the spec -/

/-- The coordinate of a lane across its approach in the binary32 instance: the lanes of
the approaches A and C lie on the lines `y = 294`, `384`, `474`, those of B and D on
the lines `x = 422`, `512`, `602`. -/
def crossCoordinate : LaneId → ℚ
  | LaneId.AL1_INCOMING | LaneId.CL1_INCOMING => 294
  | LaneId.AL2_PRIORITY | LaneId.CL2_NORMAL => 384
  | LaneId.AL3_FREELANE | LaneId.CL3_FREELANE => 474
  | LaneId.BL1_INCOMING | LaneId.DL1_INCOMING => 422
  | LaneId.BL2_NORMAL | LaneId.DL2_NORMAL => 512
  | LaneId.BL3_FREELANE | LaneId.DL3_FREELANE => 602

/-- The queue slot `n` of a lane as a point of the plane, for the constants of the
binary32 instance (centre `(512, 384)`, start offset 250, spacing 40): on the lane's
line, at distance `250 + 40 * n` from the centre, west of it for approach A, north for
B, east for C and south for D. -/
def slotPoint : LaneId → Nat → ℚ × ℚ
  | LaneId.AL1_INCOMING, n => (512 - (250 + 40 * n), crossCoordinate LaneId.AL1_INCOMING)
  | LaneId.AL2_PRIORITY, n => (512 - (250 + 40 * n), crossCoordinate LaneId.AL2_PRIORITY)
  | LaneId.AL3_FREELANE, n => (512 - (250 + 40 * n), crossCoordinate LaneId.AL3_FREELANE)
  | LaneId.BL1_INCOMING, n => (crossCoordinate LaneId.BL1_INCOMING, 384 - (250 + 40 * n))
  | LaneId.BL2_NORMAL, n => (crossCoordinate LaneId.BL2_NORMAL, 384 - (250 + 40 * n))
  | LaneId.BL3_FREELANE, n => (crossCoordinate LaneId.BL3_FREELANE, 384 - (250 + 40 * n))
  | LaneId.CL1_INCOMING, n => (512 + (250 + 40 * n), crossCoordinate LaneId.CL1_INCOMING)
  | LaneId.CL2_NORMAL, n => (512 + (250 + 40 * n), crossCoordinate LaneId.CL2_NORMAL)
  | LaneId.CL3_FREELANE, n => (512 + (250 + 40 * n), crossCoordinate LaneId.CL3_FREELANE)
  | LaneId.DL1_INCOMING, n => (crossCoordinate LaneId.DL1_INCOMING, 384 + (250 + 40 * n))
  | LaneId.DL2_NORMAL, n => (crossCoordinate LaneId.DL2_NORMAL, 384 + (250 + 40 * n))
  | LaneId.DL3_FREELANE, n => (crossCoordinate LaneId.DL3_FREELANE, 384 + (250 + 40 * n))

/-- The unit step from a queue slot of a lane to the next slot nearer the
intersection: east for approach A, south for B, west for C and north for D (`y` grows
southwards). -/
def towardsCentre : LaneId → ℚ × ℚ
  | LaneId.AL1_INCOMING | LaneId.AL2_PRIORITY | LaneId.AL3_FREELANE => (1, 0)
  | LaneId.BL1_INCOMING | LaneId.BL2_NORMAL | LaneId.BL3_FREELANE => (0, 1)
  | LaneId.CL1_INCOMING | LaneId.CL2_NORMAL | LaneId.CL3_FREELANE => (-1, 0)
  | LaneId.DL1_INCOMING | LaneId.DL2_NORMAL | LaneId.DL3_FREELANE => (0, -1)

/-- The target of a turning vehicle in the words of the spec: from the position
`(x, y)`, the coordinate along the approach axis is offset by `radius` towards the
intersection, and the other coordinate is the centre minus or plus 450, with opposite
signs for a left and a right turn. -/
def turnTarget {F : Type} (P : Platform F) (radius : F) (left : Bool) (laneId : LaneId)
    (x y : F) : F × F :=
  match laneId with
  | LaneId.AL1_INCOMING | LaneId.AL2_PRIORITY | LaneId.AL3_FREELANE =>
    (P.add x radius,
      if left then P.sub P.CENTER_Y (P.lit 450 1) else P.add P.CENTER_Y (P.lit 450 1))
  | LaneId.BL1_INCOMING | LaneId.BL2_NORMAL | LaneId.BL3_FREELANE =>
    (if left then P.sub P.CENTER_X (P.lit 450 1) else P.add P.CENTER_X (P.lit 450 1),
      P.add y radius)
  | LaneId.CL1_INCOMING | LaneId.CL2_NORMAL | LaneId.CL3_FREELANE =>
    (P.sub x radius,
      if left then P.add P.CENTER_Y (P.lit 450 1) else P.sub P.CENTER_Y (P.lit 450 1))
  | LaneId.DL1_INCOMING | LaneId.DL2_NORMAL | LaneId.DL3_FREELANE =>
    (if left then P.add P.CENTER_X (P.lit 450 1) else P.sub P.CENTER_X (P.lit 450 1),
      P.sub y radius)

/-- The target of a vehicle that goes straight on, in the words of the spec: the far
side of the intersection, 450 beyond the centre, on the line of the lane. -/
def straightTarget {F : Type} (P : Platform F) (laneId : LaneId) (x y : F) : F × F :=
  match laneId with
  | LaneId.AL1_INCOMING | LaneId.AL2_PRIORITY | LaneId.AL3_FREELANE =>
    (P.add P.CENTER_X (P.lit 450 1), y)
  | LaneId.BL1_INCOMING | LaneId.BL2_NORMAL | LaneId.BL3_FREELANE =>
    (x, P.add P.CENTER_Y (P.lit 450 1))
  | LaneId.CL1_INCOMING | LaneId.CL2_NORMAL | LaneId.CL3_FREELANE =>
    (P.sub P.CENTER_X (P.lit 450 1), y)
  | LaneId.DL1_INCOMING | LaneId.DL2_NORMAL | LaneId.DL3_FREELANE =>
    (x, P.sub P.CENTER_Y (P.lit 450 1))

/-- The target of a vehicle of direction `d` spawned in `laneId` at queue depth `n`. -/
def targetAt {F : Type} (P : Platform F) (d : Direction) (laneId : LaneId) (n : Nat) : F × F :=
  match d with
  | Direction.STRAIGHT =>
    straightTarget P laneId (spawnPosition P laneId n).1 (spawnPosition P laneId n).2
  | Direction.LEFT =>
    turnTarget P P.TURN_GUIDE_RADIUS true laneId (spawnPosition P laneId n).1
      (spawnPosition P laneId n).2
  | Direction.RIGHT =>
    turnTarget P (P.mul P.TURN_GUIDE_RADIUS (P.lit 6 10)) false laneId
      (spawnPosition P laneId n).1 (spawnPosition P laneId n).2

/-- The exact offset of the point `q` from the point `p` along the approach axis of a
lane, counted towards the intersection. -/
def axisOffset (laneId : LaneId) (p q : ℚ × ℚ) : ℚ :=
  (q.1 - p.1) * (towardsCentre laneId).1 + (q.2 - p.2) * (towardsCentre laneId).2

/-- The list of the lane ids with their priority flags, in the order of `lanes`. -/
def laneKeys {F : Type} (s : TrafficManager F) : List (LaneId × Bool) :=
  s.lanes.map fun lane => (lane.getId, lane.isPriorityLane)

/-- The four lanes that the constructor gives a traffic light. -/
def lightIds : List LaneId :=
  [LaneId.AL2_PRIORITY, LaneId.BL2_NORMAL, LaneId.CL2_NORMAL, LaneId.DL2_NORMAL]

/-- The keys of the map `trafficLights`, in key order. -/
def lightKeys {F : Type} (s : TrafficManager F) : List LaneId :=
  allLaneIds.filter fun k => (s.trafficLights k).isSome

/-- The test of `checkCollision` for a vehicle at the position of `a` against the
position of `b` does not fire: the distance as the code computes it does not compare
below `MIN_DISTANCE`. -/
def Apart {F : Type} (P : Platform F) (a b : VehicleState F) : Prop :=
  P.lt (distanceTo P (P.sub a.x b.x) (P.sub a.y b.y)) (MIN_DISTANCE P) = false

/-- An entry of the table before a pass of `updateVehiclePositions`, paired with the
entry after the pass, has changed its position. -/
def Moved {F : Type} (p : (Nat × VehicleState F) × (Nat × VehicleState F)) : Prop :=
  p.2.2.x ≠ p.1.2.x ∨ p.2.2.y ≠ p.1.2.y

/-- Two entries `p`, `q` (each paired with its entry after the pass, `p` before `q` in
key order) that were both moving: if the later one moved, it is apart from the earlier
one; if only the earlier one moved, it is apart from the later one. -/
def SeparatedPair {F : Type} (P : Platform F)
    (p q : (Nat × VehicleState F) × (Nat × VehicleState F)) : Prop :=
  p.1.2.isMoving = true → q.1.2.isMoving = true → p.1.1 ≠ q.1.1 →
    (Moved q → Apart P q.2.2 p.2.2) ∧ (Moved p → ¬ Moved q → Apart P p.2.2 q.2.2)

/-! ## The table of active vehicles under release -/

theorem releaseAll_nil {F : Type} (av : ActiveVehicles F) : releaseAll av [] = av := rfl

theorem releaseAll_cons {F : Type} (av : ActiveVehicles F) (v : Vehicle) (vs : List Vehicle) :
    releaseAll av (v :: vs) = releaseAll (av.setMoving v.id) vs := rfl

theorem releaseAll_append {F : Type} (av : ActiveVehicles F) (xs ys : List Vehicle) :
    releaseAll (releaseAll av xs) ys = releaseAll av (xs ++ ys) := by
  simp [releaseAll, List.foldl_append]

theorem setMoving_keys {F : Type} (av : ActiveVehicles F) (id : Nat) :
    (av.setMoving id).map Prod.fst = av.map Prod.fst := by
  induction av with
  | nil => rfl
  | cons e rest ih =>
    obtain ⟨k, st⟩ := e
    by_cases h : k = id
    · simp [ActiveVehicles.setMoving, h]
    · simp [ActiveVehicles.setMoving, h, ih]

theorem VehicleState.release_release {F : Type} (st : VehicleState F) :
    st.release.release = st.release := rfl

theorem find_setMoving {F : Type} (av : ActiveVehicles F) (id j : Nat) :
    (av.setMoving id).find j =
      if j = id then (av.find j).map VehicleState.release else av.find j := by
  induction av with
  | nil => simp [ActiveVehicles.setMoving, ActiveVehicles.find]
  | cons e rest ih =>
    obtain ⟨k, st⟩ := e
    by_cases h : k = id
    · subst h
      by_cases hj : k = j
      · subst hj
        simp [ActiveVehicles.setMoving, ActiveVehicles.find, VehicleState.release]
      · have hj' : ¬ j = k := fun h => hj h.symm
        simp [ActiveVehicles.setMoving, ActiveVehicles.find, hj, hj']
    · by_cases hj : k = j
      · subst hj
        simp [ActiveVehicles.setMoving, ActiveVehicles.find, h]
      · simp [ActiveVehicles.setMoving, ActiveVehicles.find, h, hj, ih]

theorem releaseAll_keys {F : Type} (av : ActiveVehicles F) (vs : List Vehicle) :
    (releaseAll av vs).map Prod.fst = av.map Prod.fst := by
  induction vs generalizing av with
  | nil => rfl
  | cons v vs ih => rw [releaseAll_cons, ih, setMoving_keys]

/-- Lookup after a release: the entries of the released ids have `isMoving = true` and
are otherwise as before, and the other entries are untouched. -/
theorem find_releaseAll {F : Type} (av : ActiveVehicles F) (vs : List Vehicle) (j : Nat) :
    (releaseAll av vs).find j =
      if j ∈ vs.map Vehicle.id then (av.find j).map VehicleState.release
      else av.find j := by
  induction vs generalizing av with
  | nil => simp [releaseAll_nil]
  | cons v vs ih =>
    rw [releaseAll_cons, ih, find_setMoving]
    by_cases h1 : j = v.id
    · have hm : j ∈ (v :: vs).map Vehicle.id := by simp [h1]
      rw [if_pos hm, if_pos h1]
      by_cases h2 : j ∈ vs.map Vehicle.id
      · rw [if_pos h2]
        cases av.find j <;> rfl
      · rw [if_neg h2]
    · rw [if_neg h1]
      by_cases h2 : j ∈ vs.map Vehicle.id
      · have hm : j ∈ (v :: vs).map Vehicle.id := by
          simp only [List.map_cons, List.mem_cons]
          exact Or.inr h2
        rw [if_pos h2, if_pos hm]
      · have hm : ¬ j ∈ (v :: vs).map Vehicle.id := by
          simp only [List.map_cons, List.mem_cons, not_or]
          exact ⟨h1, h2⟩
        rw [if_neg h2, if_neg hm]

theorem find_assign_self {F : Type} (av : ActiveVehicles F) (id : Nat) (st : VehicleState F) :
    (av.assign id st).find id = some st := by
  induction av with
  | nil => simp [ActiveVehicles.assign, ActiveVehicles.find]
  | cons e rest ih =>
    obtain ⟨k, old⟩ := e
    by_cases h1 : id < k
    · simp [ActiveVehicles.assign, ActiveVehicles.find, h1]
    · by_cases h2 : id = k
      · subst h2
        simp [ActiveVehicles.assign, ActiveVehicles.find]
      · have h3 : ¬ k = id := fun h => h2 h.symm
        simp [ActiveVehicles.assign, ActiveVehicles.find, h1, h2, h3, ih]

/-! ## The three release loops -/

theorem drainPriorityLane_eq {F : Type} (fuel : Nat) (lane : Lane) (av : ActiveVehicles F)
    (h : lane.queue.length - 5 ≤ fuel) :
    drainPriorityLane fuel lane av =
      ({ lane with queue := lane.queue.drop (lane.queue.length - 5) },
        releaseAll av (lane.queue.take (lane.queue.length - 5))) := by
  induction fuel generalizing lane av with
  | zero =>
    have h0 : lane.queue.length - 5 = 0 := by omega
    simp [drainPriorityLane, h0, releaseAll_nil]
  | succ n ih =>
    obtain ⟨id, pr, q⟩ := lane
    cases q with
    | nil => simp [drainPriorityLane, Lane.getQueueSize, releaseAll_nil]
    | cons v q =>
      by_cases hs : (v :: q).length > 5
      · have hlen : (v :: q).length - 5 = (q.length - 5) + 1 := by
          simp only [List.length_cons] at hs ⊢
          omega
        have hfuel : q.length - 5 ≤ n := by
          simp only [List.length_cons] at h
          omega
        have := ih ⟨id, pr, q⟩ (releaseVehicle av (some v)) hfuel
        simp only [drainPriorityLane, Lane.getQueueSize, hs, if_true, Lane.removeVehicle]
        rw [this, hlen]
        simp [releaseVehicle, releaseAll_cons]
      · have h0 : (v :: q).length - 5 = 0 := by omega
        simp only [drainPriorityLane, Lane.getQueueSize, hs, if_false, h0]
        simp [releaseAll_nil]

theorem dequeueUpTo_eq {F : Type} (n : Nat) (lane : Lane) (av : ActiveVehicles F) :
    dequeueUpTo n lane av =
      ({ lane with queue := lane.queue.drop n }, releaseAll av (lane.queue.take n)) := by
  induction n generalizing lane av with
  | zero => simp [dequeueUpTo, releaseAll_nil]
  | succ n ih =>
    obtain ⟨id, pr, q⟩ := lane
    cases q with
    | nil => simp [dequeueUpTo, Lane.getQueueSize, releaseAll_nil]
    | cons v q =>
      simp only [dequeueUpTo, Lane.getQueueSize, List.length_cons, Nat.succ_pos,
        gt_iff_lt, if_true, Lane.removeVehicle, Nat.zero_lt_succ]
      rw [ih]
      simp [releaseVehicle, releaseAll_cons]

theorem drainFreeLane_eq {F : Type} (fuel : Nat) (lane : Lane) (av : ActiveVehicles F)
    (h : lane.queue.length ≤ fuel) :
    drainFreeLane fuel lane av = ({ lane with queue := [] }, releaseAll av lane.queue) := by
  induction fuel generalizing lane av with
  | zero =>
    obtain ⟨id, pr, q⟩ := lane
    have h0 : q = [] := List.length_eq_zero.mp (by simpa using h)
    subst h0
    simp [drainFreeLane, releaseAll_nil]
  | succ n ih =>
    obtain ⟨id, pr, q⟩ := lane
    cases q with
    | nil => simp [drainFreeLane, Lane.getQueueSize, releaseAll_nil]
    | cons v q =>
      have hfuel : q.length ≤ n := by
        simp only [List.length_cons] at h
        omega
      simp only [drainFreeLane, Lane.getQueueSize, List.length_cons, gt_iff_lt,
        Nat.zero_lt_succ, if_true, Lane.removeVehicle]
      rw [ih _ _ hfuel]
      simp [releaseVehicle, releaseAll_cons]

/-! ## The twelve lanes -/

theorem laneSizeIn_eq_length (lanes : List Lane) (l : LaneId) :
    laneSizeIn lanes l = (laneQueue lanes l).length := by
  induction lanes with
  | nil => rfl
  | cons lane rest ih =>
    by_cases h : lane.getId = l
    · simp [laneSizeIn, laneQueue, h, Lane.getQueueSize]
    · simp [laneSizeIn, laneQueue, h, ih]

theorem laneQueue_lanesOf (q : LaneId → List Vehicle) (l : LaneId) :
    laneQueue (lanesOf q) l = q l := by
  cases l <;> simp [lanesOf, initialLanes, laneQueue, Lane.getId]

theorem lanesOf_congr (q r : LaneId → List Vehicle) (h : ∀ l, q l = r l) :
    lanesOf q = lanesOf r := by
  have : q = r := funext h
  rw [this]

/-- A lane list with the constructor's ids and flags is `lanesOf` of its queues. -/
theorem lanes_eq_lanesOf (lanes : List Lane)
    (h : lanes.map (fun lane => (lane.id, lane.isPriority)) =
      initialLanes.map (fun lane => (lane.id, lane.isPriority))) :
    lanes = lanesOf (laneQueue lanes) := by
  simp only [initialLanes, List.map_cons, List.map_nil] at h
  simp only [List.map_eq_cons_iff, List.map_eq_nil_iff, Prod.mk.injEq] at h
  obtain ⟨l0, t0, rfl, ⟨h0, g0⟩, l1, t1, rfl, ⟨h1, g1⟩, l2, t2, rfl, ⟨h2, g2⟩,
    l3, t3, rfl, ⟨h3, g3⟩, l4, t4, rfl, ⟨h4, g4⟩, l5, t5, rfl, ⟨h5, g5⟩,
    l6, t6, rfl, ⟨h6, g6⟩, l7, t7, rfl, ⟨h7, g7⟩, l8, t8, rfl, ⟨h8, g8⟩,
    l9, t9, rfl, ⟨h9, g9⟩, l10, t10, rfl, ⟨h10, g10⟩, l11, t11, rfl, ⟨h11, g11⟩,
    rfl⟩ := h
  obtain ⟨i0, p0, q0⟩ := l0
  obtain ⟨i1, p1, q1⟩ := l1
  obtain ⟨i2, p2, q2⟩ := l2
  obtain ⟨i3, p3, q3⟩ := l3
  obtain ⟨i4, p4, q4⟩ := l4
  obtain ⟨i5, p5, q5⟩ := l5
  obtain ⟨i6, p6, q6⟩ := l6
  obtain ⟨i7, p7, q7⟩ := l7
  obtain ⟨i8, p8, q8⟩ := l8
  obtain ⟨i9, p9, q9⟩ := l9
  obtain ⟨i10, p10, q10⟩ := l10
  obtain ⟨i11, p11, q11⟩ := l11
  simp only at h0 h1 h2 h3 h4 h5 h6 h7 h8 h9 h10 h11 g0 g1 g2 g3 g4 g5 g6 g7 g8 g9 g10 g11
  subst h0 h1 h2 h3 h4 h5 h6 h7 h8 h9 h10 h11 g0 g1 g2 g3 g4 g5 g6 g7 g8 g9 g10 g11
  simp [lanesOf, initialLanes, laneQueue, Lane.getId]

theorem wellFormed_lanesOf {F : Type} (s : TrafficManager F) (q : LaneId → List Vehicle)
    (h : s.lanes = lanesOf q) : WellFormed s := by
  simp [WellFormed, h, lanesOf, initialLanes]

theorem WellFormed.lanes_eq {F : Type} {s : TrafficManager F} (h : WellFormed s) :
    s.lanes = lanesOf (laneQueue s.lanes) :=
  lanes_eq_lanesOf s.lanes h

theorem addVehicleToLanes_lanesOf (q : LaneId → List Vehicle) (l : LaneId) (v : Vehicle) :
    addVehicleToLanes (lanesOf q) l v = lanesOf (Function.update q l (q l ++ [v])) := by
  cases l <;>
    simp [lanesOf, initialLanes, addVehicleToLanes, Lane.getId, Lane.addVehicle,
      Function.update]

theorem any_priority_lanesOf (q : LaneId → List Vehicle) :
    ((lanesOf q).any fun lane => lane.isPriorityLane && decide (lane.getQueueSize > 10)) =
      decide (10 < (q LaneId.AL2_PRIORITY).length) := by
  simp [lanesOf, initialLanes, Lane.isPriorityLane, Lane.getQueueSize]

theorem processPriorityLanes_lanesOf {F : Type} (q : LaneId → List Vehicle)
    (av : ActiveVehicles F) :
    processPriorityLanes (lanesOf q) av =
      (lanesOf (Function.update q LaneId.AL2_PRIORITY
          ((q LaneId.AL2_PRIORITY).drop ((q LaneId.AL2_PRIORITY).length - 5))),
        releaseAll av
          ((q LaneId.AL2_PRIORITY).take ((q LaneId.AL2_PRIORITY).length - 5))) := by
  by_cases h : (q LaneId.AL2_PRIORITY).length > 5
  · simp [lanesOf, initialLanes, processPriorityLanes, Lane.isPriorityLane,
      Lane.getQueueSize, h, drainPriorityLane_eq, Function.update]
  · have h0 : (q LaneId.AL2_PRIORITY).length - 5 = 0 := by omega
    simp [lanesOf, initialLanes, processPriorityLanes, Lane.isPriorityLane,
      Lane.getQueueSize, h, h0, releaseAll_nil, Function.update]

theorem processNormalLanesLoop_lanesOf {F : Type} (n : Nat) (q : LaneId → List Vehicle)
    (av : ActiveVehicles F) :
    processNormalLanesLoop n (lanesOf q) av =
      (lanesOf (fun l => if l ∈ normalLaneIds then (q l).drop n else q l),
        releaseAll av (normalLaneIds.flatMap fun l => (q l).take n)) := by
  simp [lanesOf, initialLanes, processNormalLanesLoop, isNormalLane, Lane.isPriorityLane,
    Lane.getId, dequeueUpTo_eq, normalLaneIds, releaseAll_append, List.flatMap]

theorem processFreeLanesLoop_lanesOf {F : Type} (q : LaneId → List Vehicle)
    (av : ActiveVehicles F) :
    processFreeLanesLoop (lanesOf q) av =
      (lanesOf (fun l => if l ∈ freeLaneIds then [] else q l),
        releaseAll av (freeLaneIds.flatMap q)) := by
  simp [lanesOf, initialLanes, processFreeLanesLoop, isFreeLane, Lane.getId,
    Lane.getQueueSize, drainFreeLane_eq, freeLaneIds, releaseAll_append, List.flatMap]

/-! ## What each phase of the tick does to the lanes and to the mode -/

theorem feedVehicles_inPriorityMode {F : Type} (P : Platform F)
    (nv : List (LaneId × Vehicle)) (s : TrafficManager F) :
    (feedVehicles P s nv).inPriorityMode = s.inPriorityMode := by
  induction nv generalizing s with
  | nil => rfl
  | cons e rest ih =>
    obtain ⟨l, v⟩ := e
    simp only [feedVehicles]
    rw [ih]
    rfl

theorem feedVehicles_trafficLights {F : Type} (P : Platform F)
    (nv : List (LaneId × Vehicle)) (s : TrafficManager F) :
    (feedVehicles P s nv).trafficLights = s.trafficLights := by
  induction nv generalizing s with
  | nil => rfl
  | cons e rest ih =>
    obtain ⟨l, v⟩ := e
    simp only [feedVehicles]
    rw [ih]
    rfl

theorem feedVehicles_lanes {F : Type} (P : Platform F) (nv : List (LaneId × Vehicle))
    (s : TrafficManager F) (q : LaneId → List Vehicle) (h : s.lanes = lanesOf q) :
    ∃ extra : LaneId → List Vehicle,
      (feedVehicles P s nv).lanes = lanesOf (fun l => q l ++ extra l) := by
  induction nv generalizing s q with
  | nil => exact ⟨fun _ => [], by simpa [feedVehicles] using h⟩
  | cons e rest ih =>
    obtain ⟨l, v⟩ := e
    have h1 : (addNewVehicleToState P (addVehicleToLane s l v) v l).lanes =
        lanesOf (Function.update q l (q l ++ [v])) := by
      simp only [addNewVehicleToState, addVehicleToLane, h, addVehicleToLanes_lanesOf]
    obtain ⟨extra, hex⟩ := ih _ _ h1
    refine ⟨fun j => (if j = l then [v] else []) ++ extra j, ?_⟩
    simp only [feedVehicles]
    rw [hex]
    apply lanesOf_congr
    intro j
    by_cases hj : j = l
    · subst hj
      simp [Function.update]
    · simp [Function.update, hj]

theorem pollFeed_inPriorityMode {F : Type} (P : Platform F) (s : TrafficManager F) (dt : F)
    (nv : List (LaneId × Vehicle)) :
    (pollFeed P s dt nv).inPriorityMode = s.inPriorityMode := by
  unfold pollFeed
  simp only
  split
  · simp only [feedVehicles_inPriorityMode]
  · rfl

theorem pollFeed_trafficLights {F : Type} (P : Platform F) (s : TrafficManager F) (dt : F)
    (nv : List (LaneId × Vehicle)) :
    (pollFeed P s dt nv).trafficLights = s.trafficLights := by
  unfold pollFeed
  simp only
  split
  · simp only [feedVehicles_trafficLights]
  · rfl

theorem pollFeed_lanes {F : Type} (P : Platform F) (s : TrafficManager F) (dt : F)
    (nv : List (LaneId × Vehicle)) (q : LaneId → List Vehicle) (h : s.lanes = lanesOf q) :
    ∃ extra : LaneId → List Vehicle,
      (pollFeed P s dt nv).lanes = lanesOf (fun l => q l ++ extra l) := by
  unfold pollFeed
  simp only
  split
  · exact feedVehicles_lanes P nv _ q h
  · exact ⟨fun _ => [], by simpa using h⟩

theorem pollFeed_wellFormed {F : Type} (P : Platform F) (s : TrafficManager F) (dt : F)
    (nv : List (LaneId × Vehicle)) (h : WellFormed s) : WellFormed (pollFeed P s dt nv) := by
  obtain ⟨extra, hex⟩ := pollFeed_lanes P s dt nv _ h.lanes_eq
  exact wellFormed_lanesOf _ _ hex

theorem updateTrafficLights_lanes {F : Type} (P : Platform F) (s : TrafficManager F) (dt : F) :
    (updateTrafficLights P s dt).lanes = s.lanes := by
  unfold updateTrafficLights
  simp only
  split
  · split <;> rfl
  · rfl

theorem updateTrafficLights_activeVehicles {F : Type} (P : Platform F) (s : TrafficManager F)
    (dt : F) : (updateTrafficLights P s dt).activeVehicles = s.activeVehicles := by
  unfold updateTrafficLights
  simp only
  split
  · split <;> rfl
  · rfl

theorem updateTrafficLights_inPriorityMode {F : Type} (P : Platform F) (s : TrafficManager F)
    (dt : F) : (updateTrafficLights P s dt).inPriorityMode = s.inPriorityMode := by
  unfold updateTrafficLights
  simp only
  split
  · split <;> rfl
  · rfl

theorem synchronizeTrafficLights_proj {F : Type} (P : Platform F) (s : TrafficManager F) :
    (synchronizeTrafficLights P s).lanes = s.lanes ∧
      (synchronizeTrafficLights P s).activeVehicles = s.activeVehicles ∧
      (synchronizeTrafficLights P s).inPriorityMode = s.inPriorityMode := by
  unfold synchronizeTrafficLights
  split <;> exact ⟨rfl, rfl, rfl⟩

theorem checkPriorityConditions_eq {F : Type} (s : TrafficManager F) (h : WellFormed s) :
    checkPriorityConditions s = decide (10 < getLaneSize s LaneId.AL2_PRIORITY) := by
  unfold checkPriorityConditions getLaneSize
  rw [laneSizeIn_eq_length]
  generalize hq : laneQueue s.lanes = q
  rw [h.lanes_eq, hq, any_priority_lanesOf]

theorem processNormalLanes_inPriorityMode {F : Type} (s : TrafficManager F) (n : Nat) :
    (processNormalLanes s n).inPriorityMode = s.inPriorityMode := by
  unfold processNormalLanes
  split <;> rfl

theorem processNormalLanes_trafficLights {F : Type} (s : TrafficManager F) (n : Nat) :
    (processNormalLanes s n).trafficLights = s.trafficLights := by
  unfold processNormalLanes
  split <;> rfl

theorem priorityBranch_inPriorityMode {F : Type} (P : Platform F) (s : TrafficManager F) :
    (priorityBranch P s).inPriorityMode = true := rfl

theorem dispatchNormal_inPriorityMode {F : Type} (P : Platform F) (s : TrafficManager F) :
    (dispatchNormal P s).inPriorityMode = s.inPriorityMode := by
  unfold dispatchNormal
  split
  · exact processNormalLanes_inPriorityMode _ _
  · rfl

theorem dispatchNormal_trafficLights {F : Type} (P : Platform F) (s : TrafficManager F) :
    (dispatchNormal P s).trafficLights = s.trafficLights := by
  unfold dispatchNormal
  split
  · exact processNormalLanes_trafficLights _ _
  · rfl

theorem normalBranch_inPriorityMode {F : Type} (P : Platform F) (s : TrafficManager F) :
    (normalBranch P s).inPriorityMode = false := by
  unfold normalBranch
  simp only [dispatchNormal_inPriorityMode]

/-- The mode after the scheduling phase is the value of the priority condition. -/
theorem schedule_inPriorityMode {F : Type} (P : Platform F) (s : TrafficManager F) (dt : F) :
    (schedule P s dt).inPriorityMode = checkPriorityConditions s := by
  have hc : checkPriorityConditions (updateVehiclePositions P s dt) =
      checkPriorityConditions s := rfl
  unfold schedule
  simp only [hc]
  cases hcp : checkPriorityConditions s
  · simp only [Bool.false_eq_true, if_false]
    exact normalBranch_inPriorityMode _ _
  · simp only [if_true]
    rfl

/-- The mode after a tick is the value of the priority condition at its evaluation. -/
theorem update_inPriorityMode {F : Type} (P : Platform F) (s : TrafficManager F) (dt : F)
    (nv : List (LaneId × Vehicle)) :
    (update P s dt nv).inPriorityMode = checkPriorityConditions (pollFeed P s dt nv) := by
  unfold update
  show (updateTrafficLights P (schedule P (pollFeed P s dt nv) dt) dt).inPriorityMode = _
  rw [updateTrafficLights_inPriorityMode, schedule_inPriorityMode]

theorem processPriorityLane_eq {F : Type} (s : TrafficManager F) (q : LaneId → List Vehicle)
    (h : s.lanes = lanesOf q) :
    (processPriorityLane s).lanes =
        lanesOf (Function.update q LaneId.AL2_PRIORITY
          ((q LaneId.AL2_PRIORITY).drop ((q LaneId.AL2_PRIORITY).length - 5))) ∧
      (processPriorityLane s).activeVehicles =
        releaseAll s.activeVehicles
          ((q LaneId.AL2_PRIORITY).take ((q LaneId.AL2_PRIORITY).length - 5)) := by
  simp only [processPriorityLane, h, processPriorityLanes_lanesOf, and_self]

theorem processNormalLanes_eq {F : Type} (s : TrafficManager F) (n : Nat)
    (q : LaneId → List Vehicle) (h : s.lanes = lanesOf q) :
    (processNormalLanes s n).lanes =
        lanesOf (fun l => if l ∈ normalLaneIds then (q l).drop n else q l) ∧
      (processNormalLanes s n).activeVehicles =
        releaseAll s.activeVehicles (normalLaneIds.flatMap fun l => (q l).take n) := by
  unfold processNormalLanes
  split
  · rename_i h0
    subst h0
    refine ⟨?_, ?_⟩
    · rw [h]
      apply lanesOf_congr
      intro l
      simp
    · simp [normalLaneIds, List.flatMap, releaseAll_nil]
  · simp only [h, processNormalLanesLoop_lanesOf, and_self]

theorem processFreeLanes_eq {F : Type} (s : TrafficManager F) (q : LaneId → List Vehicle)
    (h : s.lanes = lanesOf q) :
    (processFreeLanes s).lanes = lanesOf (fun l => if l ∈ freeLaneIds then [] else q l) ∧
      (processFreeLanes s).activeVehicles =
        releaseAll s.activeVehicles (freeLaneIds.flatMap q) := by
  simp only [processFreeLanes, h, processFreeLanesLoop_lanesOf, and_self]

theorem Reachable.feed {F : Type} (P : Platform F) (nv : List (LaneId × Vehicle))
    (s : TrafficManager F) (h : Reachable P s) : Reachable P (feedVehicles P s nv) := by
  induction nv generalizing s with
  | nil => exact h
  | cons e rest ih =>
    obtain ⟨l, v⟩ := e
    exact ih _ (Reachable.arrival s l v h)

/-! ## C1 and C2: the priority mode -/

set_option maxRecDepth 100000 in
/-- C1, as stated, fails.  Eleven arrivals in AL2, a tick (priority mode starts and the
lane is drained to five) and three more arrivals give a reachable state in priority mode
whose priority lane holds 8 vehicles when the condition is evaluated; after `update` it
is no longer in priority mode. -/
theorem hysteresis_counterexample :
    Reachable f32
        (feedVehicles f32
          (update f32 (feedVehicles f32 (TrafficManager.new f32)
            (arrivals LaneId.AL2_PRIORITY 1 11)) (1 / 64) [])
          (arrivals LaneId.AL2_PRIORITY 12 3)) ∧
      (feedVehicles f32
        (update f32 (feedVehicles f32 (TrafficManager.new f32)
          (arrivals LaneId.AL2_PRIORITY 1 11)) (1 / 64) [])
        (arrivals LaneId.AL2_PRIORITY 12 3)).isInPriorityMode = true ∧
      getLaneSize
        (pollFeed f32
          (feedVehicles f32
            (update f32 (feedVehicles f32 (TrafficManager.new f32)
              (arrivals LaneId.AL2_PRIORITY 1 11)) (1 / 64) [])
            (arrivals LaneId.AL2_PRIORITY 12 3)) (1 / 64) []) LaneId.AL2_PRIORITY = 8 ∧
      (update f32
        (feedVehicles f32
          (update f32 (feedVehicles f32 (TrafficManager.new f32)
            (arrivals LaneId.AL2_PRIORITY 1 11)) (1 / 64) [])
          (arrivals LaneId.AL2_PRIORITY 12 3)) (1 / 64) []).isInPriorityMode = false := by
  refine ⟨Reachable.feed f32 _ _
    (Reachable.tick _ _ _ (Reachable.feed f32 _ _ Reachable.init)), ?_, ?_, ?_⟩ <;> decide!

/-- C1, amended: there is no hysteresis band.  For every engine state with the
constructor's lane set, in priority mode or not, whose priority lane (AL2) holds at most
10 vehicles when the priority condition is evaluated in `update` (for instance 8),
`isInPriorityMode()` is false after `update`. -/
theorem update_leaves_priority_mode {F : Type} (P : Platform F) (s : TrafficManager F)
    (deltaTime : F) (newVehicles : List (LaneId × Vehicle)) (hwf : WellFormed s)
    (hsize : getLaneSize (pollFeed P s deltaTime newVehicles) LaneId.AL2_PRIORITY ≤ 10) :
    (update P s deltaTime newVehicles).isInPriorityMode = false := by
  unfold TrafficManager.isInPriorityMode
  rw [update_inPriorityMode,
    checkPriorityConditions_eq _ (pollFeed_wellFormed P s deltaTime newVehicles hwf)]
  exact decide_eq_false (by omega)

set_option maxRecDepth 100000 in
/-- C1, amended, at the state of the counterexample. -/
theorem update_leaves_priority_mode_witness :
    (update f32
      (feedVehicles f32
        (update f32 (feedVehicles f32 (TrafficManager.new f32)
          (arrivals LaneId.AL2_PRIORITY 1 11)) (1 / 64) [])
        (arrivals LaneId.AL2_PRIORITY 12 3)) (1 / 64) []).isInPriorityMode = false :=
  update_leaves_priority_mode f32 _ (1 / 64) [] (by decide!) (by decide!)

/-- C2: for every engine state with the constructor's lane set, whatever its mode,
`isInPriorityMode()` is true after `update` if and only if the priority lane (AL2) holds
more than 10 vehicles once this tick's arrivals are enqueued; `checkPriorityConditions`
is true exactly then, and is false at size 10. -/
theorem update_priority_mode_iff {F : Type} (P : Platform F) (s : TrafficManager F)
    (deltaTime : F) (newVehicles : List (LaneId × Vehicle)) (hwf : WellFormed s) :
    ((update P s deltaTime newVehicles).isInPriorityMode = true ↔
        10 < getLaneSize (pollFeed P s deltaTime newVehicles) LaneId.AL2_PRIORITY) ∧
      (checkPriorityConditions
          (updateVehiclePositions P (pollFeed P s deltaTime newVehicles) deltaTime) = true ↔
        10 < getLaneSize (pollFeed P s deltaTime newVehicles) LaneId.AL2_PRIORITY) ∧
      (getLaneSize (pollFeed P s deltaTime newVehicles) LaneId.AL2_PRIORITY = 10 →
        checkPriorityConditions
          (updateVehiclePositions P (pollFeed P s deltaTime newVehicles) deltaTime) = false) := by
  have hc : checkPriorityConditions
      (updateVehiclePositions P (pollFeed P s deltaTime newVehicles) deltaTime) =
      checkPriorityConditions (pollFeed P s deltaTime newVehicles) := rfl
  have he := checkPriorityConditions_eq _ (pollFeed_wellFormed P s deltaTime newVehicles hwf)
  unfold TrafficManager.isInPriorityMode
  rw [update_inPriorityMode, hc, he]
  refine ⟨by simp, by simp, ?_⟩
  intro h
  simp [h]

set_option maxRecDepth 100000 in
/-- C2 at the constructor state fed eleven vehicles in AL2 on the tick. -/
theorem update_priority_mode_iff_witness :
    WellFormed (TrafficManager.new f32) ∧
      ((update f32 (TrafficManager.new f32) 1
            (arrivals LaneId.AL2_PRIORITY 1 11)).isInPriorityMode = true ↔
        10 < getLaneSize (pollFeed f32 (TrafficManager.new f32) 1
          (arrivals LaneId.AL2_PRIORITY 1 11)) LaneId.AL2_PRIORITY) :=
  ⟨by decide!,
    (update_priority_mode_iff f32 (TrafficManager.new f32) 1
      (arrivals LaneId.AL2_PRIORITY 1 11) (by decide!)).1⟩

/-! ## C3: the priority lane is drained to the low-water mark -/

/-- C3: `processPriorityLane` drains the priority lane to the low-water mark.  For every
engine state with the constructor's lane set and `n` vehicles in AL2, afterwards AL2
holds `min n 5` vehicles, its queue is the old queue without its `n - min n 5` oldest
vehicles (the head of the queue, in queue order), every removed vehicle that has a
motion state has `isMoving = true`, and the queue of every other lane is unchanged. -/
theorem processPriorityLane_drains {F : Type} (s : TrafficManager F) (hwf : WellFormed s) :
    getLaneSize (processPriorityLane s) LaneId.AL2_PRIORITY =
        min (getLaneSize s LaneId.AL2_PRIORITY) 5 ∧
      laneQueue s.lanes LaneId.AL2_PRIORITY =
        (laneQueue s.lanes LaneId.AL2_PRIORITY).take
            (getLaneSize s LaneId.AL2_PRIORITY - min (getLaneSize s LaneId.AL2_PRIORITY) 5) ++
          laneQueue (processPriorityLane s).lanes LaneId.AL2_PRIORITY ∧
      (∀ v ∈ (laneQueue s.lanes LaneId.AL2_PRIORITY).take
            (getLaneSize s LaneId.AL2_PRIORITY - min (getLaneSize s LaneId.AL2_PRIORITY) 5),
        ∀ st, (processPriorityLane s).activeVehicles.find v.id = some st →
          st.isMoving = true) ∧
      (∀ l, l ≠ LaneId.AL2_PRIORITY →
        laneQueue (processPriorityLane s).lanes l = laneQueue s.lanes l) := by
  obtain ⟨hl, ha⟩ := processPriorityLane_eq s _ hwf.lanes_eq
  have hn : getLaneSize s LaneId.AL2_PRIORITY =
      (laneQueue s.lanes LaneId.AL2_PRIORITY).length := laneSizeIn_eq_length _ _
  have hk : getLaneSize s LaneId.AL2_PRIORITY - min (getLaneSize s LaneId.AL2_PRIORITY) 5 =
      (laneQueue s.lanes LaneId.AL2_PRIORITY).length - 5 := by
    rw [hn]
    omega
  have hq : laneQueue (processPriorityLane s).lanes LaneId.AL2_PRIORITY =
      (laneQueue s.lanes LaneId.AL2_PRIORITY).drop
        ((laneQueue s.lanes LaneId.AL2_PRIORITY).length - 5) := by
    rw [hl, laneQueue_lanesOf]
    simp
  refine ⟨?_, ?_, ?_, ?_⟩
  · unfold getLaneSize
    rw [laneSizeIn_eq_length, laneSizeIn_eq_length, hq, List.length_drop]
    omega
  · rw [hk, hq, List.take_append_drop]
  · intro v hv st hst
    rw [hk] at hv
    rw [ha, find_releaseAll, if_pos (List.mem_map_of_mem Vehicle.id hv)] at hst
    cases hf : s.activeVehicles.find v.id with
    | none => simp [hf] at hst
    | some st0 =>
      simp only [hf, Option.map_some', Option.some.injEq] at hst
      rw [← hst]
      rfl
  · intro l hne
    rw [hl, laneQueue_lanesOf, Function.update_noteq hne]

set_option maxRecDepth 100000 in
/-- C3 at the constructor state after eleven arrivals in AL2: five vehicles stay. -/
theorem processPriorityLane_drains_witness :
    WellFormed (feedVehicles f32 (TrafficManager.new f32) (arrivals LaneId.AL2_PRIORITY 1 11)) ∧
      getLaneSize
          (processPriorityLane
            (feedVehicles f32 (TrafficManager.new f32) (arrivals LaneId.AL2_PRIORITY 1 11)))
          LaneId.AL2_PRIORITY =
        min (getLaneSize
          (feedVehicles f32 (TrafficManager.new f32) (arrivals LaneId.AL2_PRIORITY 1 11))
          LaneId.AL2_PRIORITY) 5 :=
  ⟨by decide!, (processPriorityLane_drains _ (by decide!)).1⟩

/-! ## C5: normal-mode dispatch -/

theorem processNormalLanesLoop_lanes {F : Type} (n : Nat) (lanes : List Lane)
    (av : ActiveVehicles F) :
    (processNormalLanesLoop n lanes av).1 =
      lanes.map fun lane =>
        if isNormalLane lane then { lane with queue := lane.queue.drop n } else lane := by
  induction lanes generalizing av with
  | nil => rfl
  | cons lane rest ih =>
    by_cases h : isNormalLane lane = true
    · simp only [processNormalLanesLoop, h, if_true, List.map_cons, ih, dequeueUpTo_eq]
    · simp only [processNormalLanesLoop, h, if_false, List.map_cons, ih]
      simp

theorem drop_min_length {α : Type} (xs : List α) (n : Nat) :
    xs.drop (min xs.length n) = xs.drop n := by
  by_cases h : n ≤ xs.length
  · rw [Nat.min_eq_right h]
  · have h1 : xs.length ≤ n := by omega
    rw [Nat.min_eq_left h1, List.drop_length, List.drop_eq_nil_of_le h1]

/-- C5: `processNormalLanes(q)` dequeues up to the quota from each qualifying lane in
FIFO order.  For every quota `q` and every engine state, lane by lane: a lane that is
neither priority nor free, of size `s`, loses its `min s q` oldest vehicles and keeps
the others in order, so it ends with size `s - min s q`; the priority lane and the four
free lanes are unchanged; and `q = 0` changes nothing at all. -/
theorem processNormalLanes_fifo {F : Type} (s : TrafficManager F) (q : Nat) :
    (processNormalLanes s q).lanes =
        s.lanes.map (fun lane =>
          if isNormalLane lane then
            { lane with queue := lane.queue.drop (min lane.getQueueSize q) }
          else lane) ∧
      (∀ lane : Lane,
        lane.queue = lane.queue.take (min lane.getQueueSize q) ++
            lane.queue.drop (min lane.getQueueSize q) ∧
          (lane.queue.drop (min lane.getQueueSize q)).length =
            lane.getQueueSize - min lane.getQueueSize q) ∧
      processNormalLanes s 0 = s := by
  refine ⟨?_, ?_, ?_⟩
  · have hmap : (s.lanes.map fun lane =>
          if isNormalLane lane then
            { lane with queue := lane.queue.drop (min lane.getQueueSize q) }
          else lane) =
        s.lanes.map fun lane =>
          if isNormalLane lane then { lane with queue := lane.queue.drop q } else lane := by
      apply List.map_congr_left
      intro lane _
      simp only [Lane.getQueueSize, drop_min_length]
    rw [hmap]
    unfold processNormalLanes
    split
    · rename_i h0
      subst h0
      symm
      conv_rhs => rw [← List.map_id s.lanes]
      apply List.map_congr_left
      intro lane _
      split <;> simp
    · exact processNormalLanesLoop_lanes q s.lanes s.activeVehicles
  · intro lane
    refine ⟨(List.take_append_drop _ _).symm, ?_⟩
    rw [List.length_drop]
    rfl
  · simp [processNormalLanes]

/-! ## The scheduling phase on the constructor's lane set -/

theorem ite_sync_proj {F : Type} (P : Platform F) (s : TrafficManager F) (b : Bool) :
    (if b = true then synchronizeTrafficLights P s else s).lanes = s.lanes ∧
      (if b = true then synchronizeTrafficLights P s else s).activeVehicles =
        s.activeVehicles := by
  cases b
  · exact ⟨rfl, rfl⟩
  · exact ⟨(synchronizeTrafficLights_proj P s).1, (synchronizeTrafficLights_proj P s).2.1⟩

theorem priorityBranch_eq {F : Type} (P : Platform F) (s : TrafficManager F)
    (q : LaneId → List Vehicle) (h : s.lanes = lanesOf q) :
    (priorityBranch P s).lanes =
        lanesOf (Function.update q LaneId.AL2_PRIORITY
          ((q LaneId.AL2_PRIORITY).drop ((q LaneId.AL2_PRIORITY).length - 5))) ∧
      (priorityBranch P s).activeVehicles =
        releaseAll s.activeVehicles
          ((q LaneId.AL2_PRIORITY).take ((q LaneId.AL2_PRIORITY).length - 5)) := by
  obtain ⟨h1, h2⟩ := ite_sync_proj P s (!s.inPriorityMode)
  have := processPriorityLane_eq
    ({ (if (!s.inPriorityMode) = true then synchronizeTrafficLights P s else s) with
      inPriorityMode := true }) q (by rw [← h, ← h1])
  rw [← h2]
  exact this

theorem dispatchNormal_eq {F : Type} (P : Platform F) (s : TrafficManager F)
    (q : LaneId → List Vehicle) (h : s.lanes = lanesOf q) :
    ∃ n : Nat,
      (dispatchNormal P s).lanes =
          lanesOf (fun l => if l ∈ normalLaneIds then (q l).drop n else q l) ∧
        (dispatchNormal P s).activeVehicles =
          releaseAll s.activeVehicles (normalLaneIds.flatMap fun l => (q l).take n) := by
  unfold dispatchNormal
  split
  · exact ⟨calculateVehiclesToProcess P s, processNormalLanes_eq s _ q h⟩
  · refine ⟨0, ?_, ?_⟩
    · rw [h]
      apply lanesOf_congr
      intro l
      simp
    · simp [normalLaneIds, List.flatMap, releaseAll_nil]

theorem normalBranch_eq {F : Type} (P : Platform F) (s : TrafficManager F)
    (q : LaneId → List Vehicle) (h : s.lanes = lanesOf q) :
    ∃ n : Nat,
      (normalBranch P s).lanes =
          lanesOf (fun l => if l ∈ normalLaneIds then (q l).drop n else q l) ∧
        (normalBranch P s).activeVehicles =
          releaseAll s.activeVehicles (normalLaneIds.flatMap fun l => (q l).take n) := by
  obtain ⟨h1, h2⟩ := ite_sync_proj P s s.inPriorityMode
  obtain ⟨n, hn1, hn2⟩ := dispatchNormal_eq P
    ({ (if s.inPriorityMode = true then synchronizeTrafficLights P s else s) with
      inPriorityMode := false }) q (by rw [← h, ← h1])
  refine ⟨n, hn1, ?_⟩
  rw [← h2]
  exact hn2

/-- The scheduling phase removes a prefix of each queue and releases exactly the
vehicles it removes; it leaves the free lanes alone. -/
theorem schedule_eq {F : Type} (P : Platform F) (s : TrafficManager F) (dt : F)
    (q : LaneId → List Vehicle) (h : s.lanes = lanesOf q) :
    ∃ k : LaneId → Nat,
      (schedule P s dt).lanes = lanesOf (fun l => (q l).drop (k l)) ∧
        (schedule P s dt).activeVehicles =
          releaseAll (updateVehiclePositions P s dt).activeVehicles
            ((normalLaneIds ++ [LaneId.AL2_PRIORITY]).flatMap fun l => (q l).take (k l)) ∧
        ∀ l ∈ freeLaneIds, k l = 0 := by
  unfold schedule
  simp only
  split
  · obtain ⟨h1, h2⟩ := priorityBranch_eq P (updateVehiclePositions P s dt) q h
    refine ⟨fun l => if l = LaneId.AL2_PRIORITY then (q LaneId.AL2_PRIORITY).length - 5 else 0,
      ?_, ?_, ?_⟩
    · rw [h1]
      apply lanesOf_congr
      intro l
      by_cases hl : l = LaneId.AL2_PRIORITY
      · subst hl
        simp
      · simp [Function.update, hl]
    · rw [h2]
      simp [normalLaneIds, List.flatMap]
    · intro l hl
      simp only [freeLaneIds, List.mem_cons, List.mem_singleton, List.not_mem_nil,
        or_false] at hl
      rcases hl with rfl | rfl | rfl | rfl <;> simp
  · obtain ⟨n, h1, h2⟩ := normalBranch_eq P (updateVehiclePositions P s dt) q h
    refine ⟨fun l => if l ∈ normalLaneIds then n else 0, ?_, ?_, ?_⟩
    · rw [h1]
      apply lanesOf_congr
      intro l
      by_cases hl : l ∈ normalLaneIds
      · simp [hl]
      · simp [hl]
    · rw [h2]
      simp [normalLaneIds, List.flatMap]
    · intro l hl
      simp only [freeLaneIds, List.mem_cons, List.mem_singleton, List.not_mem_nil,
        or_false] at hl
      rcases hl with rfl | rfl | rfl | rfl <;> simp [normalLaneIds]

/-- The lanes and the table at the end of a tick, for the constructor's lane set. -/
theorem update_eq {F : Type} (P : Platform F) (s : TrafficManager F) (dt : F)
    (nv : List (LaneId × Vehicle)) (hwf : WellFormed s) :
    ∃ (extra : LaneId → List Vehicle) (k : LaneId → Nat),
      (pollFeed P s dt nv).lanes = lanesOf (fun l => laneQueue s.lanes l ++ extra l) ∧
        (∀ l ∈ freeLaneIds, k l = 0) ∧
        (update P s dt nv).lanes =
          lanesOf (fun l =>
            if l ∈ freeLaneIds then [] else (laneQueue s.lanes l ++ extra l).drop (k l)) ∧
        (update P s dt nv).activeVehicles =
          releaseAll (schedule P (pollFeed P s dt nv) dt).activeVehicles
            (freeLaneIds.flatMap fun l => laneQueue s.lanes l ++ extra l) := by
  obtain ⟨extra, hex⟩ := pollFeed_lanes P s dt nv _ hwf.lanes_eq
  obtain ⟨k, hk1, _, hk3⟩ := schedule_eq P (pollFeed P s dt nv) dt _ hex
  have h3 : (updateTrafficLights P (schedule P (pollFeed P s dt nv) dt) dt).lanes =
      lanesOf (fun l => (laneQueue s.lanes l ++ extra l).drop (k l)) := by
    rw [updateTrafficLights_lanes, hk1]
  obtain ⟨h4, h5⟩ := processFreeLanes_eq _ _ h3
  refine ⟨extra, k, hex, hk3, ?_, ?_⟩
  · unfold update
    rw [h4]
  · unfold update
    rw [h5, updateTrafficLights_activeVehicles]
    congr 1
    simp only [freeLaneIds, List.flatMap_cons, List.flatMap_nil, List.append_nil]
    rw [hk3 _ (by simp [freeLaneIds]), hk3 _ (by simp [freeLaneIds]),
      hk3 _ (by simp [freeLaneIds]), hk3 _ (by simp [freeLaneIds])]
    simp

/-! ## C6: the free lanes are drained on every tick -/

/-- C6: free lanes are drained every tick.  For every engine state with the
constructor's lane set, in priority mode or not, every `deltaTime` and every feed, after
`update` the queues of AL3, BL3, CL3 and DL3 are empty, and every vehicle that was in
one of them, at the start of the tick or once this tick's arrivals were enqueued, and
that has a motion state after the tick, has `isMoving = true`. -/
theorem update_drains_free_lanes {F : Type} (P : Platform F) (s : TrafficManager F)
    (deltaTime : F) (newVehicles : List (LaneId × Vehicle)) (hwf : WellFormed s) :
    ∀ l ∈ freeLaneIds,
      laneQueue (update P s deltaTime newVehicles).lanes l = [] ∧
        getLaneSize (update P s deltaTime newVehicles) l = 0 ∧
        ∀ v, v ∈ laneQueue s.lanes l ∨
            v ∈ laneQueue (pollFeed P s deltaTime newVehicles).lanes l →
          ∀ st, (update P s deltaTime newVehicles).activeVehicles.find v.id = some st →
            st.isMoving = true := by
  obtain ⟨extra, k, h1, _, h3, h4⟩ := update_eq P s deltaTime newVehicles hwf
  intro l hl
  have hq : laneQueue (update P s deltaTime newVehicles).lanes l = [] := by
    rw [h3, laneQueue_lanesOf, if_pos hl]
  refine ⟨hq, ?_, ?_⟩
  · unfold getLaneSize
    rw [laneSizeIn_eq_length, hq]
    rfl
  · intro v hv st hst
    have hv' : v ∈ laneQueue s.lanes l ++ extra l := by
      rcases hv with hv | hv
      · exact List.mem_append_left _ hv
      · rwa [h1, laneQueue_lanesOf] at hv
    have hmem : v.id ∈
        (freeLaneIds.flatMap fun l => laneQueue s.lanes l ++ extra l).map Vehicle.id :=
      List.mem_map_of_mem Vehicle.id (List.mem_flatMap.mpr ⟨l, hl, hv'⟩)
    rw [h4, find_releaseAll, if_pos hmem] at hst
    cases hf : (schedule P (pollFeed P s deltaTime newVehicles) deltaTime).activeVehicles.find
        v.id with
    | none => simp [hf] at hst
    | some st0 =>
      simp only [hf, Option.map_some', Option.some.injEq] at hst
      rw [← hst]
      rfl

set_option maxRecDepth 100000 in
/-- C6 at the constructor state after two arrivals in AL3. -/
theorem update_drains_free_lanes_witness :
    WellFormed (feedVehicles f32 (TrafficManager.new f32) (arrivals LaneId.AL3_FREELANE 1 2)) ∧
      laneQueue
        (update f32 (feedVehicles f32 (TrafficManager.new f32)
          (arrivals LaneId.AL3_FREELANE 1 2)) 0 []).lanes LaneId.AL3_FREELANE = [] :=
  ⟨by decide!,
    (update_drains_free_lanes f32 _ 0 [] (by decide!) LaneId.AL3_FREELANE
      (by decide)).1⟩

/-! ## C9: release never removes a motion state -/

theorem releasedEntry_refl {F : Type} (ids : List Nat) (av : ActiveVehicles F) :
    List.Forall₂ (ReleasedEntry ids) av av := by
  induction av with
  | nil => exact List.Forall₂.nil
  | cons e rest ih => exact List.Forall₂.cons ⟨rfl, Or.inl rfl⟩ ih

theorem releasedEntry_setMoving {F : Type} (av : ActiveVehicles F) (id : Nat) :
    List.Forall₂ (ReleasedEntry [id]) av (av.setMoving id) := by
  induction av with
  | nil => exact List.Forall₂.nil
  | cons e rest ih =>
    obtain ⟨k, st⟩ := e
    by_cases h : k = id
    · simp only [ActiveVehicles.setMoving, h, if_true]
      exact List.Forall₂.cons ⟨rfl, Or.inr ⟨rfl, by simp⟩⟩ (releasedEntry_refl _ _)
    · simp only [ActiveVehicles.setMoving, h, if_false]
      exact List.Forall₂.cons ⟨rfl, Or.inl rfl⟩ ih

theorem releasedEntry_trans {F : Type} (xs ys : List Nat) (a b c : ActiveVehicles F)
    (hab : List.Forall₂ (ReleasedEntry xs) a b) (hbc : List.Forall₂ (ReleasedEntry ys) b c) :
    List.Forall₂ (ReleasedEntry (xs ++ ys)) a c := by
  induction hab generalizing c with
  | nil =>
    cases hbc
    exact List.Forall₂.nil
  | cons h _ ih =>
    cases hbc with
    | cons h' t' =>
      refine List.Forall₂.cons ?_ (ih _ t')
      obtain ⟨k1, e1⟩ := h
      obtain ⟨k2, e2⟩ := h'
      refine ⟨k2.trans k1, ?_⟩
      rcases e1 with e1 | ⟨e1, m1⟩
      · rcases e2 with e2 | ⟨e2, m2⟩
        · exact Or.inl (e2.trans e1)
        · refine Or.inr ⟨by rw [e2, e1], ?_⟩
          rw [k1] at m2
          exact List.mem_append_right _ m2
      · rcases e2 with e2 | ⟨e2, _⟩
        · exact Or.inr ⟨e2.trans e1, List.mem_append_left _ m1⟩
        · refine Or.inr ⟨?_, List.mem_append_left _ m1⟩
          rw [e2, e1]
          rfl

theorem releasedEntry_mono {F : Type} (xs ys : List Nat) (h : ∀ i ∈ xs, i ∈ ys)
    (a b : ActiveVehicles F) (hab : List.Forall₂ (ReleasedEntry xs) a b) :
    List.Forall₂ (ReleasedEntry ys) a b := by
  induction hab with
  | nil => exact List.Forall₂.nil
  | cons h1 _ ih =>
    refine List.Forall₂.cons ⟨h1.1, ?_⟩ ih
    rcases h1.2 with e | ⟨e, m⟩
    · exact Or.inl e
    · exact Or.inr ⟨e, h _ m⟩

theorem releasedEntry_releaseAll {F : Type} (av : ActiveVehicles F) (vs : List Vehicle) :
    List.Forall₂ (ReleasedEntry (vs.map Vehicle.id)) av (releaseAll av vs) := by
  induction vs generalizing av with
  | nil => exact releasedEntry_refl _ _
  | cons v vs ih =>
    rw [releaseAll_cons]
    exact releasedEntry_trans [v.id] (vs.map Vehicle.id) _ _ _
      (releasedEntry_setMoving av v.id) (ih _)

/-- A release step on the constructor's lane set that removes the first `k l` vehicles
of each lane `l` and releases a list of vehicles taken from those. -/
theorem releasesOnly_of_eq {F : Type} (s s' : TrafficManager F) (q : LaneId → List Vehicle)
    (k : LaneId → Nat) (vs : List Vehicle) (h : s.lanes = lanesOf q)
    (h' : s'.lanes = lanesOf (fun l => (q l).drop (k l)))
    (ha : s'.activeVehicles = releaseAll s.activeVehicles vs)
    (hvs : ∀ v ∈ vs, ∃ l, v ∈ (q l).take (k l)) : ReleasesOnly s s' := by
  unfold ReleasesOnly
  rw [ha]
  refine releasedEntry_mono _ _ ?_ _ _ (releasedEntry_releaseAll s.activeVehicles vs)
  intro i hi
  obtain ⟨v, hv, rfl⟩ := List.mem_map.mp hi
  obtain ⟨l, hl⟩ := hvs v hv
  refine List.mem_map_of_mem Vehicle.id ?_
  unfold dequeuedBy
  refine List.mem_flatMap.mpr ⟨l, by cases l <;> simp [allLaneIds], ?_⟩
  rw [h, h', laneQueue_lanesOf, laneQueue_lanesOf, List.length_drop]
  by_cases hle : k l ≤ (q l).length
  · have hmin : (q l).length - ((q l).length - k l) = k l := by omega
    rw [hmin]
    exact hl
  · have h0 : (q l).length - ((q l).length - k l) = (q l).length := by omega
    rw [h0, List.take_of_length_le (Nat.le_refl _)]
    exact List.mem_of_mem_take hl

/-- C9: release never removes a motion state.  For every engine state with the
constructor's lane set, `processPriorityLane`, `processNormalLanes` and the free-lane
pass of `update` leave the keys of the active-vehicle table as they are, in the same
order, and change no entry other than by `isMoving = true` on entries of vehicles they
dequeue; over a whole tick the keys after `update` are the keys that
`updateVehiclePositions` left. -/
theorem release_keeps_motion_states {F : Type} (P : Platform F) (s : TrafficManager F)
    (vehicleCount : Nat) (deltaTime : F) (newVehicles : List (LaneId × Vehicle))
    (hwf : WellFormed s) :
    ReleasesOnly s (processPriorityLane s) ∧
      ReleasesOnly s (processNormalLanes s vehicleCount) ∧
      ReleasesOnly s (processFreeLanes s) ∧
      (processPriorityLane s).activeVehicles.map Prod.fst = s.activeVehicles.map Prod.fst ∧
      (processNormalLanes s vehicleCount).activeVehicles.map Prod.fst =
        s.activeVehicles.map Prod.fst ∧
      (processFreeLanes s).activeVehicles.map Prod.fst = s.activeVehicles.map Prod.fst ∧
      (update P s deltaTime newVehicles).activeVehicles.map Prod.fst =
        (updateVehiclePositions P (pollFeed P s deltaTime newVehicles)
          deltaTime).activeVehicles.map Prod.fst := by
  have hq := hwf.lanes_eq
  obtain ⟨p1, p2⟩ := processPriorityLane_eq s _ hq
  obtain ⟨n1, n2⟩ := processNormalLanes_eq s vehicleCount _ hq
  obtain ⟨f1, f2⟩ := processFreeLanes_eq s _ hq
  refine ⟨?_, ?_, ?_, ?_, ?_, ?_, ?_⟩
  · refine releasesOnly_of_eq s _ (laneQueue s.lanes)
      (fun l => if l = LaneId.AL2_PRIORITY then
        (laneQueue s.lanes LaneId.AL2_PRIORITY).length - 5 else 0) _ hq ?_ p2 ?_
    · rw [p1]
      apply lanesOf_congr
      intro l
      by_cases hl : l = LaneId.AL2_PRIORITY
      · subst hl
        simp
      · simp [Function.update, hl]
    · intro v hv
      exact ⟨LaneId.AL2_PRIORITY, by simpa using hv⟩
  · refine releasesOnly_of_eq s _ (laneQueue s.lanes)
      (fun l => if l ∈ normalLaneIds then vehicleCount else 0) _ hq ?_ n2 ?_
    · rw [n1]
      apply lanesOf_congr
      intro l
      by_cases hl : l ∈ normalLaneIds
      · simp [hl]
      · simp [hl]
    · intro v hv
      obtain ⟨l, hl, hv⟩ := List.mem_flatMap.mp hv
      exact ⟨l, by simpa [hl] using hv⟩
  · refine releasesOnly_of_eq s _ (laneQueue s.lanes)
      (fun l => if l ∈ freeLaneIds then (laneQueue s.lanes l).length else 0) _ hq ?_ f2 ?_
    · rw [f1]
      apply lanesOf_congr
      intro l
      by_cases hl : l ∈ freeLaneIds
      · simp [hl]
      · simp [hl]
    · intro v hv
      obtain ⟨l, hl, hv⟩ := List.mem_flatMap.mp hv
      exact ⟨l, by simpa [hl] using hv⟩
  · rw [p2, releaseAll_keys]
  · rw [n2, releaseAll_keys]
  · rw [f2, releaseAll_keys]
  · obtain ⟨extra, k, h1, _, _, h4⟩ := update_eq P s deltaTime newVehicles hwf
    obtain ⟨k', _, hs, _⟩ := schedule_eq P (pollFeed P s deltaTime newVehicles) deltaTime _ h1
    rw [h4, releaseAll_keys, hs, releaseAll_keys]

set_option maxRecDepth 100000 in
/-- C9 at the constructor state after eleven arrivals in AL2. -/
theorem release_keeps_motion_states_witness :
    WellFormed (feedVehicles f32 (TrafficManager.new f32) (arrivals LaneId.AL2_PRIORITY 1 11)) ∧
      (processPriorityLane
          (feedVehicles f32 (TrafficManager.new f32)
            (arrivals LaneId.AL2_PRIORITY 1 11))).activeVehicles.map Prod.fst =
        (feedVehicles f32 (TrafficManager.new f32)
          (arrivals LaneId.AL2_PRIORITY 1 11)).activeVehicles.map Prod.fst :=
  ⟨by decide!, (release_keeps_motion_states f32 _ 0 0 [] (by decide!)).2.2.2.1⟩

/-! ## C10: priority mode forces the signals -/

theorem updateTrafficLights_priority {F : Type} (P : Platform F) (s : TrafficManager F)
    (dt : F) (h : s.inPriorityMode = true) :
    ((updateTrafficLights P s dt).trafficLights LaneId.AL2_PRIORITY).map
          TrafficLight.getState = some LightState.GREEN ∧
      ((updateTrafficLights P s dt).trafficLights LaneId.BL2_NORMAL).map
          TrafficLight.getState = some LightState.RED ∧
      ((updateTrafficLights P s dt).trafficLights LaneId.CL2_NORMAL).map
          TrafficLight.getState = some LightState.RED ∧
      ((updateTrafficLights P s dt).trafficLights LaneId.DL2_NORMAL).map
          TrafficLight.getState = some LightState.RED := by
  simp [updateTrafficLights, h, setLight, TrafficLight.setState, TrafficLight.getState]

/-- C10: priority mode forces the signals.  At the end of every `update` tick on which
the priority condition holds, whatever the lights' states and timers were before the
tick and whatever a light's own `update` does, the AL2 light is GREEN and the BL2, CL2
and DL2 lights are RED. -/
theorem update_priority_lights {F : Type} (P : Platform F) (s : TrafficManager F)
    (deltaTime : F) (newVehicles : List (LaneId × Vehicle))
    (h : checkPriorityConditions
      (updateVehiclePositions P (pollFeed P s deltaTime newVehicles) deltaTime) = true) :
    ((update P s deltaTime newVehicles).trafficLights LaneId.AL2_PRIORITY).map
          TrafficLight.getState = some LightState.GREEN ∧
      ((update P s deltaTime newVehicles).trafficLights LaneId.BL2_NORMAL).map
          TrafficLight.getState = some LightState.RED ∧
      ((update P s deltaTime newVehicles).trafficLights LaneId.CL2_NORMAL).map
          TrafficLight.getState = some LightState.RED ∧
      ((update P s deltaTime newVehicles).trafficLights LaneId.DL2_NORMAL).map
          TrafficLight.getState = some LightState.RED := by
  have hmode : (schedule P (pollFeed P s deltaTime newVehicles) deltaTime).inPriorityMode =
      true := by
    rw [schedule_inPriorityMode]
    exact h
  exact updateTrafficLights_priority P _ deltaTime hmode

set_option maxRecDepth 100000 in
/-- C10 at the constructor state fed eleven vehicles in AL2 on the tick. -/
theorem update_priority_lights_witness :
    checkPriorityConditions
        (updateVehiclePositions f32
          (pollFeed f32 (TrafficManager.new f32) 1 (arrivals LaneId.AL2_PRIORITY 1 11)) 1) =
          true ∧
      ((update f32 (TrafficManager.new f32) 1
          (arrivals LaneId.AL2_PRIORITY 1 11)).trafficLights LaneId.AL2_PRIORITY).map
        TrafficLight.getState = some LightState.GREEN :=
  ⟨by decide!,
    (update_priority_lights f32 (TrafficManager.new f32) 1
      (arrivals LaneId.AL2_PRIORITY 1 11) (by decide!)).1⟩

/-! ## C4: the dispatch quota -/

theorem countNormalLanes_eq (lanes : List Lane) (acc : Nat × Nat) :
    countNormalLanes lanes acc = (acc.1 + normalTotal lanes, acc.2 + normalCount lanes) := by
  induction lanes generalizing acc with
  | nil => simp [countNormalLanes, normalTotal, normalCount]
  | cons lane rest ih =>
    by_cases h : isNormalLane lane = true
    · simp only [countNormalLanes, h, if_true, ih, normalTotal, normalCount,
        List.filter_cons_of_pos, List.map_cons, List.sum_cons, List.length_cons]
      ext <;> simp <;> omega
    · simp only [countNormalLanes, h, if_false, ih, normalTotal, normalCount]
      simp [List.filter_cons, h]

theorem normalCount_lanesOf (q : LaneId → List Vehicle) : normalCount (lanesOf q) = 7 := rfl

theorem normalTotal_lanesOf (q : LaneId → List Vehicle) :
    normalTotal (lanesOf q) = ((normalLaneIds.map q).map List.length).sum := rfl

theorem ceil_three_tenths (T : Nat) :
    ⌈(3 / 10 : ℚ) * ((T : ℚ) / 7)⌉ = (((3 * T + 69) / 70 : Nat) : Int) := by
  have key : ∀ n r : Nat, r < 70 → 70 * n + r = 3 * T + 69 →
      ⌈(3 / 10 : ℚ) * ((T : ℚ) / 7)⌉ = (n : Int) := by
    intro n r hr h
    rw [Int.ceil_eq_iff]
    have hq : (70 : ℚ) * (n : ℚ) + (r : ℚ) = 3 * (T : ℚ) + 69 := by exact_mod_cast h
    have hr' : (r : ℚ) ≤ 69 := by exact_mod_cast Nat.le_of_lt_succ hr
    have hr0 : (0 : ℚ) ≤ (r : ℚ) := Nat.cast_nonneg _
    simp only [Int.cast_natCast]
    constructor <;> linarith
  exact key _ _ (Nat.mod_lt _ (by norm_num)) (Nat.div_add_mod _ _)

set_option maxRecDepth 1000000 in
theorem quota_f32_below_350 :
    ∀ T, T < 350 →
      f32.toSizeT (f32.ceil (f32.mul (f32.div (f32.ofNat T) (f32.ofNat 7)) (f32.lit 3 10))) =
        (3 * T + 69) / 70 := by
  decide!

set_option maxRecDepth 1000000 in
/-- C4, as stated, fails: with fifty vehicles in each of the seven qualifying lanes, a
reachable state (`T = 350`, `k = 7`, average 50), the code returns 16, while
`ceil(0.3 * T / k)` is 15. -/
theorem quota_counterexample :
    Reachable f32
        (feedVehicles f32 (TrafficManager.new f32)
          (arrivals LaneId.AL1_INCOMING 1 50 ++ arrivals LaneId.BL1_INCOMING 51 50 ++
            arrivals LaneId.BL2_NORMAL 101 50 ++ arrivals LaneId.CL1_INCOMING 151 50 ++
            arrivals LaneId.CL2_NORMAL 201 50 ++ arrivals LaneId.DL1_INCOMING 251 50 ++
            arrivals LaneId.DL2_NORMAL 301 50)) ∧
      normalTotal
        (feedVehicles f32 (TrafficManager.new f32)
          (arrivals LaneId.AL1_INCOMING 1 50 ++ arrivals LaneId.BL1_INCOMING 51 50 ++
            arrivals LaneId.BL2_NORMAL 101 50 ++ arrivals LaneId.CL1_INCOMING 151 50 ++
            arrivals LaneId.CL2_NORMAL 201 50 ++ arrivals LaneId.DL1_INCOMING 251 50 ++
            arrivals LaneId.DL2_NORMAL 301 50)).lanes = 350 ∧
      normalCount
        (feedVehicles f32 (TrafficManager.new f32)
          (arrivals LaneId.AL1_INCOMING 1 50 ++ arrivals LaneId.BL1_INCOMING 51 50 ++
            arrivals LaneId.BL2_NORMAL 101 50 ++ arrivals LaneId.CL1_INCOMING 151 50 ++
            arrivals LaneId.CL2_NORMAL 201 50 ++ arrivals LaneId.DL1_INCOMING 251 50 ++
            arrivals LaneId.DL2_NORMAL 301 50)).lanes = 7 ∧
      calculateVehiclesToProcess f32
        (feedVehicles f32 (TrafficManager.new f32)
          (arrivals LaneId.AL1_INCOMING 1 50 ++ arrivals LaneId.BL1_INCOMING 51 50 ++
            arrivals LaneId.BL2_NORMAL 101 50 ++ arrivals LaneId.CL1_INCOMING 151 50 ++
            arrivals LaneId.CL2_NORMAL 201 50 ++ arrivals LaneId.DL1_INCOMING 251 50 ++
            arrivals LaneId.DL2_NORMAL 301 50)) = 16 ∧
      ⌈(3 / 10 : ℚ) * ((350 : ℚ) / 7)⌉ = 15 := by
  refine ⟨Reachable.feed f32 _ _ Reachable.init, by decide!, by decide!, by decide!, ?_⟩
  have h := ceil_three_tenths 350
  norm_num at h ⊢

/-- C4, amended: `calculateVehiclesToProcess` returns the ceiling of the
single-precision product of the single-precision average `T / k` and the constant
`0.3f`, where `k` is the number of lanes that are neither the priority lane nor a free
lane and `T` is the sum of their queue sizes, and it returns 0 without dividing when
`k = 0`.  In binary32 arithmetic the result is 0 when all qualifying lanes are empty, it
is 2 for qualifying sizes `[4, 6, 8]`, and for the engine's seven qualifying lanes it is
`ceil(0.3 * T / 7)` whenever `T < 350`. -/
theorem calculateVehiclesToProcess_quota :
    (∀ (F : Type) (P : Platform F) (s : TrafficManager F),
        normalCount s.lanes = 0 → calculateVehiclesToProcess P s = 0) ∧
      (∀ (F : Type) (P : Platform F) (s : TrafficManager F),
        normalCount s.lanes ≠ 0 →
          calculateVehiclesToProcess P s =
            P.toSizeT (P.ceil (P.mul
              (P.div (P.ofNat (normalTotal s.lanes)) (P.ofNat (normalCount s.lanes)))
              (P.lit 3 10)))) ∧
      (∀ s : TrafficManager ℚ,
        normalTotal s.lanes = 0 → calculateVehiclesToProcess f32 s = 0) ∧
      (∀ s : TrafficManager ℚ,
        (s.lanes.filter isNormalLane).map Lane.getQueueSize = [4, 6, 8] →
          calculateVehiclesToProcess f32 s = 2) ∧
      (∀ s : TrafficManager ℚ,
        WellFormed s → normalTotal s.lanes < 350 →
          (calculateVehiclesToProcess f32 s : Int) =
            ⌈(3 / 10 : ℚ) * ((normalTotal s.lanes : ℚ) / 7)⌉) := by
  have hcalc : ∀ (F : Type) (P : Platform F) (s : TrafficManager F),
      calculateVehiclesToProcess P s =
        if normalCount s.lanes = 0 then 0
        else P.toSizeT (P.ceil (P.mul
          (P.div (P.ofNat (normalTotal s.lanes)) (P.ofNat (normalCount s.lanes)))
          (P.lit 3 10))) := by
    intro F P s
    simp [calculateVehiclesToProcess, countNormalLanes_eq]
  refine ⟨?_, ?_, ?_, ?_, ?_⟩
  · intro F P s h
    rw [hcalc, if_pos h]
  · intro F P s h
    rw [hcalc, if_neg h]
  · intro s h
    rw [hcalc, h]
    split
    · rfl
    · have h0 : f32.div (f32.ofNat 0) (f32.ofNat (normalCount s.lanes)) = 0 := by
        simp [f32, roundF32]
      rw [h0]
      decide!
  · intro s h
    have hT : normalTotal s.lanes = 18 := by
      simp [normalTotal, h]
    have hk : normalCount s.lanes = 3 := by
      have := congrArg List.length h
      simpa [normalCount] using this
    rw [hcalc, hT, hk]
    decide!
  · intro s hwf hT
    have hk : normalCount s.lanes = 7 := by
      rw [hwf.lanes_eq]
      exact normalCount_lanesOf _
    rw [hcalc, hk, if_neg (by norm_num), quota_f32_below_350 _ hT, ceil_three_tenths]

set_option maxRecDepth 1000000 in
/-- C4, amended, at the constructor state after four, six and eight arrivals in three
qualifying lanes: the total is 18 over seven lanes and the quota is 1. -/
theorem calculateVehiclesToProcess_quota_witness :
    WellFormed
        (feedVehicles f32 (TrafficManager.new f32)
          (arrivals LaneId.AL1_INCOMING 1 4 ++ arrivals LaneId.BL1_INCOMING 5 6 ++
            arrivals LaneId.CL1_INCOMING 11 8)) ∧
      normalTotal
        (feedVehicles f32 (TrafficManager.new f32)
          (arrivals LaneId.AL1_INCOMING 1 4 ++ arrivals LaneId.BL1_INCOMING 5 6 ++
            arrivals LaneId.CL1_INCOMING 11 8)).lanes < 350 ∧
      (calculateVehiclesToProcess f32
          (feedVehicles f32 (TrafficManager.new f32)
            (arrivals LaneId.AL1_INCOMING 1 4 ++ arrivals LaneId.BL1_INCOMING 5 6 ++
              arrivals LaneId.CL1_INCOMING 11 8)) : Int) =
        ⌈(3 / 10 : ℚ) *
          ((normalTotal
            (feedVehicles f32 (TrafficManager.new f32)
              (arrivals LaneId.AL1_INCOMING 1 4 ++ arrivals LaneId.BL1_INCOMING 5 6 ++
                arrivals LaneId.CL1_INCOMING 11 8)).lanes : ℚ) / 7)⌉ :=
  ⟨by decide!, by decide!,
    calculateVehiclesToProcess_quota.2.2.2.2 _ (by decide!) (by decide!)⟩

/-! ## Reachable states keep the constructor's lane set -/

theorem new_wellFormed {F : Type} (P : Platform F) : WellFormed (TrafficManager.new P) := by
  unfold WellFormed TrafficManager.new
  simp only
  rw [(synchronizeTrafficLights_proj P _).1]

theorem arrival_lanes {F : Type} (P : Platform F) (s : TrafficManager F) (l : LaneId)
    (v : Vehicle) (hwf : WellFormed s) :
    (addNewVehicleToState P (addVehicleToLane s l v) v l).lanes =
      lanesOf (Function.update (laneQueue s.lanes) l (laneQueue s.lanes l ++ [v])) := by
  have h := hwf.lanes_eq
  generalize laneQueue s.lanes = q at h
  simp only [addNewVehicleToState, addVehicleToLane, h, addVehicleToLanes_lanesOf]

theorem Reachable.wellFormed {F : Type} {P : Platform F} {s : TrafficManager F}
    (h : Reachable P s) : WellFormed s := by
  induction h with
  | init => exact new_wellFormed P
  | arrival s l v _ ih => exact wellFormed_lanesOf _ _ (arrival_lanes P s l v ih)
  | tick s dt nv _ ih =>
    obtain ⟨extra, k, _, _, h3, _⟩ := update_eq P s dt nv ih
    exact wellFormed_lanesOf _ _ h3

/-! ## C8: where a vehicle is -/

/-- C8, as stated, fails: after one arrival in AL1, a reachable state, vehicle 1 is in
the queue of AL1 and is a key of the active-vehicle table. -/
theorem one_place_counterexample :
    Reachable f32
        (addNewVehicleToState f32
          (addVehicleToLane (TrafficManager.new f32) LaneId.AL1_INCOMING
            ⟨1, Direction.STRAIGHT, LaneId.AL1_INCOMING⟩)
          ⟨1, Direction.STRAIGHT, LaneId.AL1_INCOMING⟩ LaneId.AL1_INCOMING) ∧
      (⟨1, Direction.STRAIGHT, LaneId.AL1_INCOMING⟩ : Vehicle) ∈
        laneQueue
          (addNewVehicleToState f32
            (addVehicleToLane (TrafficManager.new f32) LaneId.AL1_INCOMING
              ⟨1, Direction.STRAIGHT, LaneId.AL1_INCOMING⟩)
            ⟨1, Direction.STRAIGHT, LaneId.AL1_INCOMING⟩ LaneId.AL1_INCOMING).lanes
          LaneId.AL1_INCOMING ∧
      1 ∈ (addNewVehicleToState f32
          (addVehicleToLane (TrafficManager.new f32) LaneId.AL1_INCOMING
            ⟨1, Direction.STRAIGHT, LaneId.AL1_INCOMING⟩)
          ⟨1, Direction.STRAIGHT, LaneId.AL1_INCOMING⟩
          LaneId.AL1_INCOMING).activeVehicles.map Prod.fst := by
  refine ⟨Reachable.arrival _ _ _ Reachable.init, by decide!, by decide!⟩

/-- C8, amended: a waiting vehicle is in both places.  In every engine state reachable
from the constructor through arrivals and `update` ticks, the feed step
(`addVehicleToLane` followed by `addNewVehicleToState`) leaves the vehicle at the tail
of its lane's queue and, at the same time, under its id in the active-vehicle table with
`isMoving = false`. -/
theorem arrival_in_queue_and_table {F : Type} (P : Platform F) (s : TrafficManager F)
    (laneId : LaneId) (v : Vehicle) (hs : Reachable P s) :
    laneQueue (addNewVehicleToState P (addVehicleToLane s laneId v) v laneId).lanes laneId =
        laneQueue s.lanes laneId ++ [v] ∧
      ∃ st,
        (addNewVehicleToState P (addVehicleToLane s laneId v) v laneId).activeVehicles.find
            v.id = some st ∧
          st.vehicle = v ∧ st.isMoving = false := by
  refine ⟨?_, ?_⟩
  · rw [arrival_lanes P s laneId v hs.wellFormed, laneQueue_lanesOf, Function.update_same]
  · refine ⟨_, find_assign_self _ _ _, ?_, ?_⟩
    · cases hd : v.direction <;> cases laneId <;>
        simp [calculateTargetPosition, hd]
    · cases hd : v.direction <;> cases laneId <;>
        simp [calculateTargetPosition, hd]

/-- C8, amended, at the constructor state. -/
theorem arrival_in_queue_and_table_witness :
    Reachable f32 (TrafficManager.new f32) ∧
      laneQueue
          (addNewVehicleToState f32
            (addVehicleToLane (TrafficManager.new f32) LaneId.AL1_INCOMING
              ⟨1, Direction.STRAIGHT, LaneId.AL1_INCOMING⟩)
            ⟨1, Direction.STRAIGHT, LaneId.AL1_INCOMING⟩ LaneId.AL1_INCOMING).lanes
          LaneId.AL1_INCOMING =
        laneQueue (TrafficManager.new f32).lanes LaneId.AL1_INCOMING ++
          [⟨1, Direction.STRAIGHT, LaneId.AL1_INCOMING⟩] :=
  ⟨Reachable.init,
    (arrival_in_queue_and_table f32 (TrafficManager.new f32) LaneId.AL1_INCOMING
      ⟨1, Direction.STRAIGHT, LaneId.AL1_INCOMING⟩ Reachable.init).1⟩

/-! ## C7: separation of vehicles -/

theorem checkCollision_false {F : Type} (P : Platform F) (table : ActiveVehicles F)
    (state : VehicleState F) (newX newY : F)
    (h : checkCollision P table state newX newY = false) :
    ∀ e ∈ table, e.1 ≠ state.vehicle.id →
      P.lt (distanceTo P (P.sub newX e.2.x) (P.sub newY e.2.y)) (MIN_DISTANCE P) = false := by
  induction table with
  | nil =>
    intro e he
    cases he
  | cons e0 rest ih =>
    obtain ⟨k, other⟩ := e0
    intro e he hne
    simp only [checkCollision] at h
    split at h
    · cases h
    · rename_i hcond
      rcases List.mem_cons.mp he with rfl | he'
      · simp only [not_and] at hcond
        have := hcond hne
        simpa using this
      · exact ih h e he' hne

set_option maxRecDepth 100000 in
/-- C7, as stated, fails: after two arrivals in AL1 and one `update` tick, a reachable
state, the table holds exactly the entries 1 and 2, both at the point (182, 294): their
distance is 0, below `1.2 * VEHICLE_WIDTH`, in exact arithmetic and also by the distance
and the comparison of `checkCollision`. -/
theorem separation_counterexample :
    Reachable f32
        (update f32 (feedVehicles f32 (TrafficManager.new f32)
          (arrivals LaneId.AL1_INCOMING 1 2)) (1 / 64) []) ∧
      (update f32 (feedVehicles f32 (TrafficManager.new f32)
          (arrivals LaneId.AL1_INCOMING 1 2)) (1 / 64) []).activeVehicles.map
          (fun e => (e.1, e.2.x, e.2.y)) = [(1, 182, 294), (2, 182, 294)] ∧
      ((182 : ℚ) - 182) ^ 2 + ((294 : ℚ) - 294) ^ 2 <
        ((12 / 10 : ℚ) * f32.VEHICLE_WIDTH) ^ 2 ∧
      f32.lt (distanceTo f32 (f32.sub 182 182) (f32.sub 294 294)) (MIN_DISTANCE f32) =
        true := by
  refine ⟨Reachable.tick _ _ _ (Reachable.feed f32 _ _ Reachable.init), by decide!, ?_,
    by decide!⟩
  norm_num [f32]

/-- C7, amended: only committed moves are checked.  In `updateVehiclePositions`, when
the pass over a moving vehicle changes its position, `checkCollision` has found no other
entry of the table, at that entry's position of that moment, closer to the new position
than `1.2 * VEHICLE_WIDTH` by the distance and the comparison the code computes.
(Queued vehicles are placed without any check, and no separation holds among them.) -/
theorem committed_move_is_checked {F : Type} (P : Platform F) (lanes : List Lane)
    (deltaTime : F) (table : ActiveVehicles F) (state state' : VehicleState F)
    (hmoving : state.isMoving = true)
    (hstep : stepVehicle P lanes deltaTime table state = some state')
    (hmoved : state'.x ≠ state.x ∨ state'.y ≠ state.y) :
    checkCollision P table state state'.x state'.y = false ∧
      ∀ e ∈ table, e.1 ≠ state.vehicle.id →
        P.lt (distanceTo P (P.sub state'.x e.2.x) (P.sub state'.y e.2.y))
          (MIN_DISTANCE P) = false := by
  have hc : checkCollision P table state state'.x state'.y = false := by
    unfold stepVehicle at hstep
    simp only [hmoving, if_true] at hstep
    split at hstep
    · cases hstep
    · split at hstep
      · rename_i hfree
        simp only [Option.some.injEq] at hstep
        subst hstep
        simpa using hfree
      · simp only [Option.some.injEq] at hstep
        subst hstep
        rcases hmoved with h | h <;> exact absurd rfl h
  exact ⟨hc, checkCollision_false P table state _ _ hc⟩

set_option maxRecDepth 100000 in
/-- C7, amended, at a table of two entries: vehicle 1 moves from (0, 294) towards
(962, 294) past the waiting vehicle 2 at (-178, 384). -/
theorem committed_move_is_checked_witness :
    stepVehicle f32 initialLanes 1
        [(1, ⟨⟨1, Direction.STRAIGHT, LaneId.AL1_INCOMING⟩, 0, 294, 962, 294, 50, true,
            Direction.STRAIGHT, false, 0, 0, 0, 0⟩),
          (2, ⟨⟨2, Direction.STRAIGHT, LaneId.AL2_PRIORITY⟩, -178, 384, 962, 384, 50, false,
            Direction.STRAIGHT, false, 0, 0, 0, 0⟩)]
        ⟨⟨1, Direction.STRAIGHT, LaneId.AL1_INCOMING⟩, 0, 294, 962, 294, 50, true,
          Direction.STRAIGHT, false, 0, 0, 0, 0⟩ =
        some ⟨⟨1, Direction.STRAIGHT, LaneId.AL1_INCOMING⟩, 13000405 / 262144, 294, 962, 294,
          50, true, Direction.STRAIGHT, false, 0, 0, 0, 0⟩ ∧
      checkCollision f32
        [(1, ⟨⟨1, Direction.STRAIGHT, LaneId.AL1_INCOMING⟩, 0, 294, 962, 294, 50, true,
            Direction.STRAIGHT, false, 0, 0, 0, 0⟩),
          (2, ⟨⟨2, Direction.STRAIGHT, LaneId.AL2_PRIORITY⟩, -178, 384, 962, 384, 50, false,
            Direction.STRAIGHT, false, 0, 0, 0, 0⟩)]
        ⟨⟨1, Direction.STRAIGHT, LaneId.AL1_INCOMING⟩, 0, 294, 962, 294, 50, true,
          Direction.STRAIGHT, false, 0, 0, 0, 0⟩ (13000405 / 262144) 294 = false :=
  ⟨by decide!,
    (committed_move_is_checked f32 initialLanes 1 _ _
      ⟨⟨1, Direction.STRAIGHT, LaneId.AL1_INCOMING⟩, 13000405 / 262144, 294, 962, 294,
        50, true, Direction.STRAIGHT, false, 0, 0, 0, 0⟩ rfl (by decide!)
      (Or.inl (by decide!))).1⟩

/-! ## C11: the lockstep of normal mode -/

theorem synchronizeTrafficLights_normal {F : Type} (P : Platform F) (s : TrafficManager F)
    (h : s.inPriorityMode = false) :
    NormalStartConfiguration (synchronizeTrafficLights P s).trafficLights := by
  simp [synchronizeTrafficLights, h, NormalStartConfiguration, lightStateAt, setLight,
    TrafficLight.setState, TrafficLight.getState]

theorem synchronizeTrafficLights_priority {F : Type} (P : Platform F) (s : TrafficManager F)
    (h : s.inPriorityMode = true) :
    PriorityConfiguration (synchronizeTrafficLights P s).trafficLights := by
  simp [synchronizeTrafficLights, h, PriorityConfiguration, lightStateAt, setLight,
    TrafficLight.setState, TrafficLight.getState]

theorem updateTrafficLights_lockstep {F : Type} (P : Platform F) (s : TrafficManager F)
    (dt : F) (h : s.inPriorityMode = false) :
    Lockstep (updateTrafficLights P s dt).trafficLights := by
  unfold updateTrafficLights
  simp only [h, Bool.not_false, if_true]
  split
  · rename_i hg
    refine ⟨?_, ?_, Or.inr ⟨?_, ?_⟩⟩ <;>
      simp [lightStateAt, setLight, touchLight, TrafficLight.setState,
        TrafficLight.getState] <;>
      simpa [TrafficLight.getState] using hg
  · refine ⟨?_, ?_, Or.inl ⟨?_, ?_⟩⟩ <;>
      simp [lightStateAt, setLight, touchLight, TrafficLight.setState,
        TrafficLight.getState]

/-- C11: normal-mode lockstep.  After the constructor, and at the end of every `update`
tick on which the priority condition does not hold, whatever the state before the tick
and whatever a light's own `update` does, the AL2 and CL2 lights show the same state,
the BL2 and DL2 lights show the same state, each pair is RED or GREEN, and the AL2/CL2
pair is GREEN exactly when the BL2/DL2 pair is RED. -/
theorem normal_mode_lockstep {F : Type} (P : Platform F) :
    Lockstep (TrafficManager.new P).trafficLights ∧
      ∀ (s : TrafficManager F) (deltaTime : F) (newVehicles : List (LaneId × Vehicle)),
        checkPriorityConditions
            (updateVehiclePositions P (pollFeed P s deltaTime newVehicles) deltaTime) =
            false →
          Lockstep (update P s deltaTime newVehicles).trafficLights := by
  refine ⟨?_, ?_⟩
  · have h := synchronizeTrafficLights_normal P
      { lanes := initialLanes
        trafficLights :=
          assignLight (assignLight (assignLight (assignLight (fun _ => none)
            LaneId.AL2_PRIORITY P.lightDefault) LaneId.BL2_NORMAL P.lightDefault)
            LaneId.CL2_NORMAL P.lightDefault) LaneId.DL2_NORMAL P.lightDefault
        activeVehicles := []
        inPriorityMode := false
        stateTimer := P.lit 0 1
        lastUpdateTime := P.lit 0 1
        fileCheckTimer := P.lit 0 1 } rfl
    obtain ⟨h1, h2, h3, h4⟩ := h
    exact ⟨h1.trans h3.symm, h2.trans h4.symm, Or.inr ⟨h1, h2⟩⟩
  · intro s deltaTime newVehicles h
    have hmode :
        (schedule P (pollFeed P s deltaTime newVehicles) deltaTime).inPriorityMode =
          false := by
      rw [schedule_inPriorityMode]
      exact h
    exact updateTrafficLights_lockstep P _ deltaTime hmode

set_option maxRecDepth 100000 in
/-- C11 at a tick of the constructor state with no arrival. -/
theorem normal_mode_lockstep_witness :
    checkPriorityConditions
        (updateVehiclePositions f32 (pollFeed f32 (TrafficManager.new f32) (1 / 64) [])
          (1 / 64)) = false ∧
      Lockstep (update f32 (TrafficManager.new f32) (1 / 64) []).trafficLights :=
  ⟨by decide!,
    (normal_mode_lockstep f32).2 (TrafficManager.new f32) (1 / 64) [] (by decide!)⟩

/-! ## C12: the re-synchronization on a mode change -/

/-- C12 on the code: the call of `synchronizeTrafficLights` that `update` makes on a mode
change runs before `inPriorityMode` is assigned, so it sets the configuration of the
mode being left.  On a tick that goes from normal to priority mode the call sets AL2
RED, BL2 GREEN, CL2 RED, DL2 GREEN; on a tick that leaves priority mode it sets AL2
GREEN and BL2, CL2, DL2 RED. -/
theorem resync_sets_the_mode_being_left {F : Type} (P : Platform F) (s : TrafficManager F) :
    (s.inPriorityMode = false →
        priorityBranch P s =
            processPriorityLane
              { synchronizeTrafficLights P s with inPriorityMode := true } ∧
          NormalStartConfiguration (synchronizeTrafficLights P s).trafficLights) ∧
      (s.inPriorityMode = true →
        normalBranch P s =
            dispatchNormal P
              { synchronizeTrafficLights P s with inPriorityMode := false } ∧
          PriorityConfiguration (synchronizeTrafficLights P s).trafficLights) := by
  refine ⟨?_, ?_⟩
  · intro h
    refine ⟨?_, synchronizeTrafficLights_normal P s h⟩
    simp [priorityBranch, h]
  · intro h
    refine ⟨?_, synchronizeTrafficLights_priority P s h⟩
    simp [normalBranch, h]

set_option maxRecDepth 100000 in
/-- C12 at the constructor state fed eleven vehicles in AL2 on the tick: the tick enters
priority mode, and the `synchronizeTrafficLights` call it makes, on the state that
`updateVehiclePositions` left, sets the normal-mode configuration. -/
theorem resync_sets_the_mode_being_left_witness :
    (updateVehiclePositions f32
        (pollFeed f32 (TrafficManager.new f32) 1 (arrivals LaneId.AL2_PRIORITY 1 11))
        1).inPriorityMode = false ∧
      checkPriorityConditions
        (updateVehiclePositions f32
          (pollFeed f32 (TrafficManager.new f32) 1 (arrivals LaneId.AL2_PRIORITY 1 11))
          1) = true ∧
      NormalStartConfiguration
        (synchronizeTrafficLights f32
          (updateVehiclePositions f32
            (pollFeed f32 (TrafficManager.new f32) 1 (arrivals LaneId.AL2_PRIORITY 1 11))
            1)).trafficLights :=
  ⟨by decide!, by decide!,
    ((resync_sets_the_mode_being_left f32 _).1 (by decide!)).2⟩

/-! ## The feed parser -/

theorem digitChar_toNat (k : Nat) (h : k < 10) : (Nat.digitChar k).toNat = 48 + k := by
  interval_cases k <;> rfl

theorem decimalValue_append_singleton (xs : List Char) (c : Char) :
    decimalValue (xs ++ [c]) = 10 * decimalValue xs + (c.toNat - 48) := by
  simp [decimalValue, List.foldl_append]

theorem isDigit_digitChar (k : Nat) (h : k < 10) : isDigit (Nat.digitChar k) = true := by
  have := digitChar_toNat k h
  simp only [isDigit, this, Bool.and_eq_true, decide_eq_true_eq]
  omega

theorem toDigitsCore_spec (fuel n : Nat) (ds : List Char) (h : n < fuel) :
    ∃ xs : List Char,
      Nat.toDigitsCore 10 fuel n ds = xs ++ ds ∧ xs ≠ [] ∧
        (∀ c ∈ xs, isDigit c = true) ∧ decimalValue xs = n := by
  induction fuel generalizing n ds with
  | zero => omega
  | succ fuel ih =>
    have hmod : n % 10 < 10 := Nat.mod_lt _ (by norm_num)
    by_cases h0 : n / 10 = 0
    · refine ⟨[Nat.digitChar (n % 10)], ?_, by simp, ?_, ?_⟩
      · simp [Nat.toDigitsCore, h0]
      · intro c hc
        rw [List.mem_singleton] at hc
        rw [hc]
        exact isDigit_digitChar _ hmod
      · have hn : n < 10 := by omega
        have hd := digitChar_toNat n hn
        simp only [decimalValue, Nat.mod_eq_of_lt hn, List.foldl_cons, List.foldl_nil]
        omega
    · have hlt : n / 10 < fuel := by omega
      obtain ⟨xs, hxs, _, hdig, hval⟩ := ih (n / 10) (Nat.digitChar (n % 10) :: ds) hlt
      refine ⟨xs ++ [Nat.digitChar (n % 10)], ?_, by simp, ?_, ?_⟩
      · simp [Nat.toDigitsCore, h0, hxs]
      · intro c hc
        rcases List.mem_append.mp hc with hc | hc
        · exact hdig c hc
        · rw [List.mem_singleton] at hc
          rw [hc]
          exact isDigit_digitChar _ hmod
      · rw [decimalValue_append_singleton, hval, digitChar_toNat _ hmod]
        omega

/-- The decimal digits of `n`: a non-empty string of digit characters that denotes
`n`. -/
theorem toDigits_spec (n : Nat) :
    Nat.toDigits 10 n ≠ [] ∧ (∀ c ∈ Nat.toDigits 10 n, isDigit c = true) ∧
      decimalValue (Nat.toDigits 10 n) = n := by
  obtain ⟨xs, hxs, hne, hdig, hval⟩ := toDigitsCore_spec (n + 1) n [] (Nat.lt_succ_self n)
  have : Nat.toDigits 10 n = xs := by
    simp [Nat.toDigits, hxs]
  rw [this]
  exact ⟨hne, hdig, hval⟩

theorem findChar_append {c : Char} (xs rest : List Char) (h : ∀ x ∈ xs, x ≠ c) :
    findChar c (xs ++ c :: rest) = some xs.length := by
  induction xs with
  | nil => simp [findChar]
  | cons x xs ih =>
    have hx : x ≠ c := h x (List.mem_cons_self _ _)
    have := ih (fun y hy => h y (List.mem_cons_of_mem _ hy))
    simp [findChar, hx, this]

theorem findChar_isSome_of_mem {c : Char} (xs : List Char) (h : c ∈ xs) :
    (findChar c xs).isSome = true := by
  induction xs with
  | nil => cases h
  | cons x xs ih =>
    by_cases hx : x = c
    · simp [findChar, hx]
    · have hm : c ∈ xs := by
        rcases List.mem_cons.mp h with h | h
        · exact absurd h.symm hx
        · exact h
      simp [findChar, hx, ih hm]

theorem findChar_eq_none {c : Char} (xs : List Char) (h : c ∉ xs) : findChar c xs = none := by
  induction xs with
  | nil => rfl
  | cons x xs ih =>
    have hx : x ≠ c := fun e => h (e ▸ List.mem_cons_self _ _)
    have := ih (fun hm => h (List.mem_cons_of_mem _ hm))
    simp [findChar, hx, this]

theorem isDigit_not_special (c : Char) (h : isDigit c = true) :
    isSpace c = false ∧ c ≠ '-' ∧ c ≠ '+' ∧ c ≠ ',' ∧ c ≠ ';' ∧ c ≠ '\n' := by
  simp only [isDigit, Bool.and_eq_true, decide_eq_true_eq] at h
  refine ⟨?_, ?_, ?_, ?_, ?_, ?_⟩
  · simp only [isSpace, Bool.or_eq_false_iff, Bool.and_eq_false_iff, decide_eq_false_iff_not]
    omega
  all_goals
    intro e
    rw [e] at h
    revert h
    decide

/-- On a non-empty string of digits below `2 ^ ulongBits`, `std::stoul` returns the
number the digits denote. -/
theorem stoul_digits (ulongBits : Nat) (ds : List Char) (hne : ds ≠ [])
    (hdig : ∀ c ∈ ds, isDigit c = true) (hval : decimalValue ds < 2 ^ ulongBits) :
    stoul ulongBits ds = some (decimalValue ds) := by
  obtain ⟨c, rest, rfl⟩ := List.exists_cons_of_ne_nil hne
  have hc := isDigit_not_special c (hdig c (List.mem_cons_self _ _))
  have htake : (c :: rest).takeWhile isDigit = c :: rest :=
    List.takeWhile_eq_self_iff.mpr hdig
  have hdrop : (c :: rest).dropWhile isSpace = c :: rest := by
    simp [List.dropWhile, hc.1]
  have hneg : ¬ (c = '-') := hc.2.1
  have hpos : ¬ (c = '+') := hc.2.2.1
  simp only [stoul, hdrop, List.head?_cons, Option.some.injEq, hneg, hpos, or_self,
    if_false, htake, decide_False, Bool.false_eq_true]
  simp [Nat.not_le.mpr hval]

theorem getD_after_digits (xs : List Char) (a b c z : Char) :
    (xs ++ [a, b, c]).getD (xs.length + 1) z = b := by
  induction xs with
  | nil => rfl
  | cons x xs ih => simpa using ih

theorem parseLine_feedRecord (ulongBits : Nat) (hbits : 32 ≤ ulongBits) (n : Nat)
    (hn : n < 2 ^ 32) (d : Direction) (laneId : LaneId) :
    parseLine ulongBits laneId (feedRecord n d) = some ⟨n, d, laneId⟩ := by
  obtain ⟨hne, hdig, hval⟩ := toDigits_spec n
  have hcomma : findChar ',' (feedRecord n d) = some (Nat.toDigits 10 n).length :=
    findChar_append _ _ fun x hx => (isDigit_not_special x (hdig x hx)).2.2.2.1
  have hsemi : (findChar ';' (feedRecord n d)).isSome = true :=
    findChar_isSome_of_mem _ (by simp [feedRecord])
  obtain ⟨semicolonPos, hsemi⟩ := Option.isSome_iff_exists.mp hsemi
  have hpow : (2 : Nat) ^ 32 ≤ 2 ^ ulongBits := Nat.pow_le_pow_right (by norm_num) hbits
  have hstoul : stoul ulongBits (Nat.toDigits 10 n) = some n := by
    have := stoul_digits ulongBits _ hne hdig (by rw [hval]; omega)
    rw [this, hval]
  have hnil : feedRecord n d ≠ [] := by simp [feedRecord]
  have htake : (feedRecord n d).take (Nat.toDigits 10 n).length = Nat.toDigits 10 n := by
    simp [feedRecord]
  have hget : (feedRecord n d).getD ((Nat.toDigits 10 n).length + 1) (Char.ofNat 0) =
      directionChar d := by
    exact getD_after_digits _ _ _ _ _
  unfold parseLine
  rw [if_neg hnil, hcomma, hsemi]
  simp only [htake, hstoul, hget, Nat.mod_eq_of_lt hn]
  cases d <;> simp [directionChar]

theorem getLinesFrom_no_newline (line current : List Char) (h : '\n' ∉ line) :
    getLinesFrom line current =
      if line.reverse ++ current = [] then [] else [(line.reverse ++ current).reverse] := by
  induction line generalizing current with
  | nil => simp [getLinesFrom]
  | cons c rest ih =>
    have hc : c ≠ '\n' := fun e => h (e ▸ List.mem_cons_self _ _)
    have hrest : '\n' ∉ rest := fun hm => h (List.mem_cons_of_mem _ hm)
    simp [getLinesFrom, hc, ih _ hrest]

theorem getLinesFrom_append_newline (line rest current : List Char) (h : '\n' ∉ line) :
    getLinesFrom (line ++ '\n' :: rest) current =
      (current.reverse ++ line) :: getLinesFrom rest [] := by
  induction line generalizing current with
  | nil => simp [getLinesFrom]
  | cons c more ih =>
    have hc : c ≠ '\n' := fun e => h (e ▸ List.mem_cons_self _ _)
    have hmore : '\n' ∉ more := fun hm => h (List.mem_cons_of_mem _ hm)
    simp [getLinesFrom, hc, ih _ hmore]

/-- A file that starts with a line and a newline: `std::getline` returns that line, then
the lines of the rest. -/
theorem getLines_cons (line rest : List Char) (h : '\n' ∉ line) :
    getLines (line ++ '\n' :: rest) = line :: getLines rest := by
  simp [getLines, getLinesFrom_append_newline line rest [] h]

/-- A file that is one line without the final newline. -/
theorem getLines_single (line : List Char) (h : '\n' ∉ line) (hne : line ≠ []) :
    getLines line = [line] := by
  simp [getLines, getLinesFrom_no_newline line [] h, hne]

theorem feedRecord_no_newline (n : Nat) (d : Direction) : '\n' ∉ feedRecord n d := by
  obtain ⟨_, hdig, _⟩ := toDigits_spec n
  intro h
  simp only [feedRecord, List.mem_append, List.mem_cons, List.mem_singleton] at h
  rcases h with h | h | h | h | h
  · exact (isDigit_not_special _ (hdig _ h)).2.2.2.2.2 rfl
  · revert h; decide
  · cases d <;> revert h <;> decide
  · revert h; decide
  · cases h

theorem readNewVehiclesLoop_eq (ulongBits : Nat) (files : LaneFiles) (lanes : List LaneId)
    (hnodup : lanes.Nodup) (handler : FileHandler) (newVehicles : List (LaneId × Vehicle)) :
    readNewVehiclesLoop ulongBits files lanes handler newVehicles =
      (newVehicles ++ lanes.flatMap (vehiclesRead ulongBits files handler.lastReadPositions),
        ⟨fun l =>
          if l ∈ lanes then positionAfter ulongBits files handler.lastReadPositions l
          else handler.lastReadPositions l⟩) := by
  induction lanes generalizing handler newVehicles with
  | nil => simp [readNewVehiclesLoop]
  | cons laneId rest ih =>
    have hnot : laneId ∉ rest := (List.nodup_cons.mp hnodup).1
    have hrest : rest.Nodup := (List.nodup_cons.mp hnodup).2
    cases hfile : files laneId with
    | none =>
      simp only [readNewVehiclesLoop, hfile]
      rw [ih hrest]
      congr 1
      · simp [List.flatMap_cons, vehiclesRead, hfile]
      · congr 1
        funext l
        by_cases hl : l = laneId
        · subst hl
          simp [hnot, positionAfter, hfile]
        · simp [hl]
    | some content =>
      simp only [readNewVehiclesLoop, hfile]
      rw [ih hrest]
      have hsame : ∀ l ∈ rest,
          Function.update handler.lastReadPositions laneId
            (readLaneFile ulongBits laneId content (handler.lastReadPositions laneId)).2 l =
              handler.lastReadPositions l := by
        intro l hl
        have : l ≠ laneId := fun e => hnot (e ▸ hl)
        simp [Function.update, this]
      have hflat : rest.flatMap (vehiclesRead ulongBits files
            (Function.update handler.lastReadPositions laneId
              (readLaneFile ulongBits laneId content (handler.lastReadPositions laneId)).2)) =
          rest.flatMap (vehiclesRead ulongBits files handler.lastReadPositions) := by
        simp only [List.flatMap]
        congr 1
        apply List.map_congr_left
        intro l hl
        simp only [vehiclesRead, hsame l hl]
      congr 1
      · simp only [hflat, List.flatMap_cons, List.append_assoc]
        simp [vehiclesRead, hfile]
      · congr 1
        funext l
        by_cases hl : l = laneId
        · subst hl
          simp [hnot, positionAfter, hfile, Function.update]
        · by_cases hm : l ∈ rest
          · simp [hl, hm, positionAfter, hsame l hm]
          · simp [hl, hm, Function.update]

theorem allLaneIds_nodup : allLaneIds.Nodup := by decide

theorem mem_allLaneIds (l : LaneId) : l ∈ allLaneIds := by
  cases l <;> simp [allLaneIds]

/-- One call of `readNewVehicles`: the vehicles of the twelve files in the order of the
lane ids, each file read from the position the handler holds for it. -/
theorem readNewVehicles_eq (ulongBits : Nat) (handler : FileHandler) (files : LaneFiles) :
    handler.readNewVehicles ulongBits files =
      (allLaneIds.flatMap (vehiclesRead ulongBits files handler.lastReadPositions),
        ⟨positionAfter ulongBits files handler.lastReadPositions⟩) := by
  unfold FileHandler.readNewVehicles
  rw [readNewVehiclesLoop_eq _ _ _ allLaneIds_nodup]
  simp [mem_allLaneIds]

theorem pollFiles_eq (ulongBits : Nat) (files : LaneFiles) :
    pollFiles ulongBits files =
      allLaneIds.flatMap fun l =>
        ((getLines ((files l).getD [])).filterMap (parseLine ulongBits l)).map
          fun v => (l, v) := by
  unfold pollFiles
  rw [readNewVehicles_eq]
  simp only [List.flatMap]
  congr 1
  apply List.map_congr_left
  intro l _
  simp only [vehiclesRead, FileHandler.new, readLaneFile]
  by_cases h : (files l).getD [] = []
  · simp [h, getLines, getLinesFrom]
  · have : 0 < ((files l).getD []).length := List.length_pos.mpr h
    simp [this]

theorem pollFiles_oneLaneFile (ulongBits : Nat) (laneId : LaneId) (content : List Char) :
    pollFiles ulongBits (oneLaneFile laneId content) =
      ((getLines content).filterMap (parseLine ulongBits laneId)).map
        fun v => (laneId, v) := by
  rw [pollFiles_eq]
  cases laneId <;>
    simp [allLaneIds, oneLaneFile, getLines, getLinesFrom, List.flatMap]

/-! ## C14: the round trip of a feed record -/

theorem feedVehicles_lanes_eq {F : Type} (P : Platform F) (nv : List (LaneId × Vehicle))
    (s : TrafficManager F) (q : LaneId → List Vehicle) (h : s.lanes = lanesOf q) :
    (feedVehicles P s nv).lanes =
      lanesOf fun l => q l ++ (nv.filter fun e => decide (e.1 = l)).map Prod.snd := by
  induction nv generalizing s q with
  | nil => simpa [feedVehicles] using h
  | cons e rest ih =>
    obtain ⟨l, v⟩ := e
    have h1 : (addNewVehicleToState P (addVehicleToLane s l v) v l).lanes =
        lanesOf (Function.update q l (q l ++ [v])) := by
      simp only [addNewVehicleToState, addVehicleToLane, h, addVehicleToLanes_lanesOf]
    simp only [feedVehicles]
    rw [ih _ _ h1]
    apply lanesOf_congr
    intro j
    by_cases hj : l = j
    · subst hj
      simp [Function.update, List.filter_cons]
    · have hj' : j ≠ l := fun e => hj e.symm
      simp [Function.update, List.filter_cons, hj, hj']

/-- A poll of the feed appends to every lane queue the vehicles read for that lane, in
the order read. -/
theorem pollFeed_laneQueue {F : Type} (P : Platform F) (s : TrafficManager F) (dt : F)
    (nv : List (LaneId × Vehicle)) (hs : WellFormed s)
    (hpoll : P.ge (P.add s.fileCheckTimer dt) (P.div P.FILE_CHECK_INTERVAL (P.lit 1000 1)) =
      true) (l : LaneId) :
    laneQueue (pollFeed P s dt nv).lanes l =
      laneQueue s.lanes l ++ (nv.filter fun e => decide (e.1 = l)).map Prod.snd := by
  unfold pollFeed
  simp only [hpoll, if_true]
  have h := feedVehicles_lanes_eq P nv
    { s with
      stateTimer := P.add s.stateTimer dt
      lastUpdateTime := P.add s.lastUpdateTime dt
      fileCheckTimer := P.add s.fileCheckTimer dt } (laneQueue s.lanes) hs.lanes_eq
  rw [h, laneQueue_lanesOf]

/-- C14: for every id `n` below `2 ^ 32` written in decimal, every direction `d` and
every lane `X`, on a platform whose `unsigned long` has at least 32 bits: a lane file of
`X` holding the one line `n,d;` (with or without the final newline) makes the poll of
`update` read exactly one vehicle, with id `n`, the direction that `d` names and current
lane `X`; the feed phase of `update` on a reachable state appends it at the tail of the
queue of `X` and leaves the other queues as they were. -/
theorem feed_record_round_trip {F : Type} (P : Platform F) (ulongBits : Nat)
    (hbits : 32 ≤ ulongBits) (n : Nat) (hn : n < 2 ^ 32) (d : Direction) (X : LaneId)
    (s : TrafficManager F) (deltaTime : F) (hs : Reachable P s)
    (hpoll : P.ge (P.add s.fileCheckTimer deltaTime)
      (P.div P.FILE_CHECK_INTERVAL (P.lit 1000 1)) = true) :
    parseLine ulongBits X (feedRecord n d) = some ⟨n, d, X⟩ ∧
      pollFiles ulongBits (oneLaneFile X (feedRecord n d ++ ['\n'])) = [(X, ⟨n, d, X⟩)] ∧
      pollFiles ulongBits (oneLaneFile X (feedRecord n d)) = [(X, ⟨n, d, X⟩)] ∧
      laneQueue
          (pollFeed P s deltaTime
            (pollFiles ulongBits (oneLaneFile X (feedRecord n d ++ ['\n'])))).lanes X =
        laneQueue s.lanes X ++ [⟨n, d, X⟩] ∧
      ∀ l, l ≠ X →
        laneQueue
            (pollFeed P s deltaTime
              (pollFiles ulongBits (oneLaneFile X (feedRecord n d ++ ['\n'])))).lanes l =
          laneQueue s.lanes l := by
  have hparse := parseLine_feedRecord ulongBits hbits n hn d X
  have hnl := feedRecord_no_newline n d
  have hne : feedRecord n d ≠ [] := by simp [feedRecord]
  have h1 : pollFiles ulongBits (oneLaneFile X (feedRecord n d ++ ['\n'])) =
      [(X, ⟨n, d, X⟩)] := by
    rw [pollFiles_oneLaneFile, getLines_cons _ _ hnl]
    simp [getLines, getLinesFrom, hparse]
  have h2 : pollFiles ulongBits (oneLaneFile X (feedRecord n d)) = [(X, ⟨n, d, X⟩)] := by
    rw [pollFiles_oneLaneFile, getLines_single _ hnl hne]
    simp [hparse]
  refine ⟨hparse, h1, h2, ?_, ?_⟩
  · rw [h1, pollFeed_laneQueue P s deltaTime _ hs.wellFormed hpoll]
    simp
  · intro l hl
    rw [h1, pollFeed_laneQueue P s deltaTime _ hs.wellFormed hpoll]
    have : X ≠ l := fun e => hl e.symm
    simp [this]

set_option maxRecDepth 100000 in
/-- C14 at the record `42,S;` in the file of lane `AL1_INCOMING`, read by the first tick
of the engine with a 64-bit `unsigned long`. -/
theorem feed_record_round_trip_witness :
    feedRecord 42 Direction.STRAIGHT = ['4', '2', ',', 'S', ';'] ∧
      pollFiles 64 (oneLaneFile LaneId.AL1_INCOMING (feedRecord 42 Direction.STRAIGHT ++ ['\n'])) =
        [(LaneId.AL1_INCOMING, ⟨42, Direction.STRAIGHT, LaneId.AL1_INCOMING⟩)] ∧
      laneQueue
          (pollFeed f32 (TrafficManager.new f32) 1
            (pollFiles 64
              (oneLaneFile LaneId.AL1_INCOMING
                (feedRecord 42 Direction.STRAIGHT ++ ['\n'])))).lanes LaneId.AL1_INCOMING =
        laneQueue (TrafficManager.new f32).lanes LaneId.AL1_INCOMING ++
          [⟨42, Direction.STRAIGHT, LaneId.AL1_INCOMING⟩] :=
  ⟨by decide!,
    (feed_record_round_trip f32 64 (by decide) 42 (by decide) Direction.STRAIGHT
      LaneId.AL1_INCOMING (TrafficManager.new f32) 1 Reachable.init (by decide!)).2.1,
    (feed_record_round_trip f32 64 (by decide) 42 (by decide) Direction.STRAIGHT
      LaneId.AL1_INCOMING (TrafficManager.new f32) 1 Reachable.init (by decide!)).2.2.2.1⟩

/-! ## C15: malformed lines of the feed -/

theorem getLines_fileText_append (before : List (List Char)) (rest : List Char)
    (h : ∀ line ∈ before, '\n' ∉ line) :
    getLines (fileText before ++ rest) = before ++ getLines rest := by
  induction before with
  | nil => simp [fileText]
  | cons line more ih =>
    have hline : '\n' ∉ line := h line (List.mem_cons_self _ _)
    have hmore : ∀ l ∈ more, '\n' ∉ l := fun l hl => h l (List.mem_cons_of_mem _ hl)
    have : fileText (line :: more) ++ rest = line ++ '\n' :: (fileText more ++ rest) := by
      simp [fileText, List.flatMap_cons]
    rw [this, getLines_cons _ _ hline, ih hmore]
    rfl

theorem fileText_append (before after : List (List Char)) :
    fileText (before ++ after) = fileText before ++ fileText after := by
  simp [fileText, List.flatMap_append]

theorem parseLine_eq_none_iff (ulongBits : Nat) (laneId : LaneId) (line : List Char) :
    parseLine ulongBits laneId line = none ↔
      findChar ',' line = none ∨ findChar ';' line = none ∨
        ∃ commaPos, findChar ',' line = some commaPos ∧
          (stoul ulongBits (line.take commaPos) = none ∨
            line.getD (commaPos + 1) (Char.ofNat 0) ∉ ['S', 'L', 'R']) := by
  unfold parseLine
  by_cases hnil : line = []
  · subst hnil
    simp [findChar]
  · rw [if_neg hnil]
    cases hc : findChar ',' line with
    | none => simp
    | some commaPos =>
      cases hs : findChar ';' line with
      | none => simp
      | some semicolonPos =>
        simp only [Option.some.injEq, exists_eq_left', false_or, reduceCtorEq]
        generalize line.getD (commaPos + 1) (Char.ofNat 0) = dirChar
        cases hst : stoul ulongBits (line.take commaPos) with
        | none => simp
        | some value =>
          by_cases h1 : dirChar = 'S'
          · simp [h1]
          · by_cases h2 : dirChar = 'L'
            · simp [h2]
            · by_cases h3 : dirChar = 'R'
              · simp [h3]
              · simp [h1, h2, h3]

set_option maxRecDepth 100000 in
/-- C15, counterexample: the lines `12abc,S;`, `-1,S;` and `42,Sxyz;` are not skipped.
With an `unsigned long` of 64 or of 32 bits the parser makes the vehicles 12,
4294967295 and 42 of them, and a poll of a file holding `12abc,S;` returns vehicle
12. -/
theorem malformed_record_counterexample :
    parseLine 64 LaneId.AL1_INCOMING ['1', '2', 'a', 'b', 'c', ',', 'S', ';'] =
        some ⟨12, Direction.STRAIGHT, LaneId.AL1_INCOMING⟩ ∧
      parseLine 64 LaneId.AL1_INCOMING ['-', '1', ',', 'S', ';'] =
        some ⟨4294967295, Direction.STRAIGHT, LaneId.AL1_INCOMING⟩ ∧
      parseLine 64 LaneId.AL1_INCOMING ['4', '2', ',', 'S', 'x', 'y', 'z', ';'] =
        some ⟨42, Direction.STRAIGHT, LaneId.AL1_INCOMING⟩ ∧
      parseLine 32 LaneId.AL1_INCOMING ['1', '2', 'a', 'b', 'c', ',', 'S', ';'] =
        some ⟨12, Direction.STRAIGHT, LaneId.AL1_INCOMING⟩ ∧
      parseLine 32 LaneId.AL1_INCOMING ['-', '1', ',', 'S', ';'] =
        some ⟨4294967295, Direction.STRAIGHT, LaneId.AL1_INCOMING⟩ ∧
      parseLine 32 LaneId.AL1_INCOMING ['4', '2', ',', 'S', 'x', 'y', 'z', ';'] =
        some ⟨42, Direction.STRAIGHT, LaneId.AL1_INCOMING⟩ ∧
      pollFiles 64
          (oneLaneFile LaneId.AL1_INCOMING
            (fileText [['1', '2', 'a', 'b', 'c', ',', 'S', ';']])) =
        [(LaneId.AL1_INCOMING, ⟨12, Direction.STRAIGHT, LaneId.AL1_INCOMING⟩)] := by
  decide!

/-- C15, amended: a line is skipped exactly when it has no comma, or no semicolon, or
the text before its first comma makes `std::stoul` throw (no digit after the optional
white space and sign, or a number that does not fit `unsigned long`), or the character
right after its first comma is none of `S`, `L`, `R`. Such a line yields no vehicle, the
poll returns all the same (the exception of `std::stoul` is caught inside the loop), and
a file with the line gives the same vehicles as the file without it. -/
theorem malformed_lines_are_skipped (ulongBits : Nat) (X : LaneId) (line : List Char)
    (before after : List (List Char)) (hline : '\n' ∉ line)
    (hbefore : ∀ l ∈ before, '\n' ∉ l)
    (hbad : findChar ',' line = none ∨ findChar ';' line = none ∨
      ∃ commaPos, findChar ',' line = some commaPos ∧
        (stoul ulongBits (line.take commaPos) = none ∨
          line.getD (commaPos + 1) (Char.ofNat 0) ∉ ['S', 'L', 'R'])) :
    parseLine ulongBits X line = none ∧
      pollFiles ulongBits (oneLaneFile X (fileText (before ++ line :: after))) =
        pollFiles ulongBits (oneLaneFile X (fileText (before ++ after))) := by
  have hnone : parseLine ulongBits X line = none :=
    (parseLine_eq_none_iff ulongBits X line).mpr hbad
  refine ⟨hnone, ?_⟩
  have h1 : getLines (fileText (before ++ line :: after)) =
      before ++ line :: getLines (fileText after) := by
    have : fileText (before ++ line :: after) =
        fileText before ++ (line ++ '\n' :: fileText after) := by
      simp [fileText, List.flatMap_append, List.flatMap_cons]
    rw [this, getLines_fileText_append _ _ hbefore, getLines_cons _ _ hline]
  have h2 : getLines (fileText (before ++ after)) = before ++ getLines (fileText after) := by
    rw [fileText_append, getLines_fileText_append _ _ hbefore]
  rw [pollFiles_oneLaneFile, pollFiles_oneLaneFile, h1, h2]
  simp [List.filterMap_append, List.filterMap_cons, hnone]

set_option maxRecDepth 100000 in
/-- C15, amended, at the file of lane `BL1_INCOMING` with the lines `1,S;`, `abc,X`
and `2,L;`: the second line is skipped and the poll returns vehicles 1 and 2. -/
theorem malformed_lines_are_skipped_witness :
    parseLine 64 LaneId.BL1_INCOMING ['a', 'b', 'c', ',', 'X'] = none ∧
      pollFiles 64
          (oneLaneFile LaneId.BL1_INCOMING
            (fileText ([['1', ',', 'S', ';']] ++ ['a', 'b', 'c', ',', 'X'] ::
              [['2', ',', 'L', ';']]))) =
        pollFiles 64
          (oneLaneFile LaneId.BL1_INCOMING
            (fileText ([['1', ',', 'S', ';']] ++ [['2', ',', 'L', ';']]))) :=
  malformed_lines_are_skipped 64 LaneId.BL1_INCOMING ['a', 'b', 'c', ',', 'X']
    [['1', ',', 'S', ';']] [['2', ',', 'L', ';']] (by decide) (by decide)
    (Or.inr (Or.inl (by decide)))

/-! ## C16 and C17: repeated polls -/

theorem calculateTargetPosition_isMoving {F : Type} (P : Platform F) (st : VehicleState F)
    (laneId : LaneId) :
    (calculateTargetPosition P st laneId).isMoving = st.isMoving ∧
      (calculateTargetPosition P st laneId).vehicle = st.vehicle := by
  cases hd : st.direction <;> cases laneId <;> simp [calculateTargetPosition, hd]

theorem find_assign_ne {F : Type} (av : ActiveVehicles F) (id j : Nat) (st : VehicleState F)
    (h : j ≠ id) : (av.assign id st).find j = av.find j := by
  induction av with
  | nil =>
    have : ¬ id = j := fun e => h e.symm
    simp [ActiveVehicles.assign, ActiveVehicles.find, this]
  | cons e rest ih =>
    obtain ⟨k, old⟩ := e
    have hne : ¬ id = j := fun e => h e.symm
    by_cases h1 : id < k
    · simp [ActiveVehicles.assign, ActiveVehicles.find, h1, hne]
    · by_cases h2 : id = k
      · subst h2
        simp [ActiveVehicles.assign, ActiveVehicles.find, hne]
      · by_cases h3 : k = j
        · subst h3
          simp [ActiveVehicles.assign, ActiveVehicles.find, h1, h2]
        · simp [ActiveVehicles.assign, ActiveVehicles.find, h1, h2, h3, ih]

theorem addNewVehicleToState_find_self {F : Type} (P : Platform F) (s : TrafficManager F)
    (v : Vehicle) (laneId : LaneId) :
    ∃ st, (addNewVehicleToState P s v laneId).activeVehicles.find v.id = some st ∧
      st.vehicle = v ∧ st.isMoving = false := by
  refine ⟨_, find_assign_self _ _ _, ?_, ?_⟩
  · cases hd : v.direction <;> cases laneId <;> simp [calculateTargetPosition, hd]
  · cases hd : v.direction <;> cases laneId <;> simp [calculateTargetPosition, hd]

theorem addNewVehicleToState_find_ne {F : Type} (P : Platform F) (s : TrafficManager F)
    (v : Vehicle) (laneId : LaneId) (j : Nat) (h : j ≠ v.id) :
    (addNewVehicleToState P s v laneId).activeVehicles.find j = s.activeVehicles.find j := by
  unfold addNewVehicleToState
  exact find_assign_ne _ _ _ _ h

/-- The feed loop leaves every id it feeds, and every id that was waiting and is not
fed, with a waiting motion state. -/
theorem feedVehicles_find_waiting {F : Type} (P : Platform F) (nv : List (LaneId × Vehicle))
    (s : TrafficManager F) (id : Nat)
    (h : (∃ st, s.activeVehicles.find id = some st ∧ st.isMoving = false) ∨
      ∃ e ∈ nv, e.2.id = id) :
    ∃ st, (feedVehicles P s nv).activeVehicles.find id = some st ∧ st.isMoving = false := by
  induction nv generalizing s with
  | nil =>
    rcases h with h | ⟨e, he, _⟩
    · exact h
    · cases he
  | cons e rest ih =>
    obtain ⟨l, v⟩ := e
    simp only [feedVehicles]
    apply ih
    by_cases hid : v.id = id
    · left
      subst hid
      obtain ⟨st, hst, _, hmov⟩ := addNewVehicleToState_find_self P (addVehicleToLane s l v) v l
      exact ⟨st, hst, hmov⟩
    · rcases h with ⟨st, hst, hmov⟩ | ⟨e, he, heid⟩
      · left
        refine ⟨st, ?_, hmov⟩
        rw [addNewVehicleToState_find_ne P _ v l id (fun e => hid e.symm)]
        exact hst
      · right
        rcases List.mem_cons.mp he with he | he
        · subst he
          exact absurd heid hid
        · exact ⟨e, he, heid⟩

theorem pollFiles_lane (ulongBits : Nat) (files : LaneFiles) (l : LaneId) :
    ((pollFiles ulongBits files).filter fun e => decide (e.1 = l)).map Prod.snd =
      (getLines ((files l).getD [])).filterMap (parseLine ulongBits l) := by
  rw [pollFiles_eq]
  cases l <;> simp [allLaneIds, List.flatMap, List.filter_append, List.filter_map,
    Function.comp_def]

/-- A poll of the lane files on a state with the constructor's lanes: every lane queue
receives the vehicles of its whole file, each with a waiting motion state. -/
theorem pollFeed_pollFiles {F : Type} (P : Platform F) (ulongBits : Nat) (files : LaneFiles)
    (s : TrafficManager F) (dt : F) (hs : WellFormed s)
    (hpoll : P.ge (P.add s.fileCheckTimer dt) (P.div P.FILE_CHECK_INTERVAL (P.lit 1000 1)) =
      true) (l : LaneId) :
    laneQueue (pollFeed P s dt (pollFiles ulongBits files)).lanes l =
        laneQueue s.lanes l ++
          ((getLines ((files l).getD [])).filterMap (parseLine ulongBits l)) ∧
      ∀ v ∈ (getLines ((files l).getD [])).filterMap (parseLine ulongBits l),
        ∃ st,
          (pollFeed P s dt (pollFiles ulongBits files)).activeVehicles.find v.id = some st ∧
            st.isMoving = false := by
  have hmem : ∀ v ∈ (getLines ((files l).getD [])).filterMap (parseLine ulongBits l),
      (l, v) ∈ pollFiles ulongBits files := by
    intro v hv
    rw [pollFiles_eq]
    exact List.mem_flatMap.mpr ⟨l, mem_allLaneIds l, List.mem_map.mpr ⟨v, hv, rfl⟩⟩
  refine ⟨?_, ?_⟩
  · rw [pollFeed_laneQueue P s dt _ hs hpoll, pollFiles_lane]
  · intro v hv
    unfold pollFeed
    simp only [hpoll, if_true]
    exact feedVehicles_find_waiting P _ _ v.id (Or.inr ⟨(l, v), hmem v hv, rfl⟩)

/-- C16: every poll of `update` constructs a new `FileHandler`, whose read positions
are `0`, so a poll reads every lane file from its first byte whatever the polls before
it have read. On a reachable state, a second polling tick over the same files appends
all the vehicles of lane `l`'s file to the queue of `l` again and gives each of them a
waiting motion state again. -/
theorem second_poll_reads_feed_again {F : Type} (P : Platform F) (ulongBits : Nat)
    (files : LaneFiles) (s : TrafficManager F) (dt1 dt2 : F) (hs : Reachable P s)
    (hpoll : P.ge (P.add (update P s dt1 (pollFiles ulongBits files)).fileCheckTimer dt2)
      (P.div P.FILE_CHECK_INTERVAL (P.lit 1000 1)) = true) (l : LaneId) :
    laneQueue
        (pollFeed P (update P s dt1 (pollFiles ulongBits files)) dt2
          (pollFiles ulongBits files)).lanes l =
      laneQueue (update P s dt1 (pollFiles ulongBits files)).lanes l ++
        ((getLines ((files l).getD [])).filterMap (parseLine ulongBits l)) ∧
      ∀ v ∈ (getLines ((files l).getD [])).filterMap (parseLine ulongBits l),
        ∃ st,
          (pollFeed P (update P s dt1 (pollFiles ulongBits files)) dt2
            (pollFiles ulongBits files)).activeVehicles.find v.id = some st ∧
          st.isMoving = false :=
  pollFeed_pollFiles P ulongBits files _ dt2 (Reachable.tick _ _ _ hs).wellFormed hpoll l

set_option maxRecDepth 100000 in
/-- C16 at the file of lane `AL1_INCOMING` holding the one record `1,S;`, with two ticks
of half a second from the constructor state and nothing appended in between: the first
poll puts vehicle 1 in the queue, the second poll puts it there a second time. -/
theorem second_poll_reads_feed_again_witness :
    laneQueue
        (update f32 (TrafficManager.new f32) (1 / 2)
          (pollFiles 64 (oneLaneFile LaneId.AL1_INCOMING (fileText [['1', ',', 'S', ';']])))).lanes
        LaneId.AL1_INCOMING = [⟨1, Direction.STRAIGHT, LaneId.AL1_INCOMING⟩] ∧
      laneQueue
        (pollFeed f32
          (update f32 (TrafficManager.new f32) (1 / 2)
            (pollFiles 64 (oneLaneFile LaneId.AL1_INCOMING (fileText [['1', ',', 'S', ';']]))))
          (1 / 2)
          (pollFiles 64 (oneLaneFile LaneId.AL1_INCOMING (fileText [['1', ',', 'S', ';']])))).lanes
        LaneId.AL1_INCOMING =
      laneQueue
        (update f32 (TrafficManager.new f32) (1 / 2)
          (pollFiles 64 (oneLaneFile LaneId.AL1_INCOMING (fileText [['1', ',', 'S', ';']])))).lanes
        LaneId.AL1_INCOMING ++
        ((getLines
            ((oneLaneFile LaneId.AL1_INCOMING (fileText [['1', ',', 'S', ';']])
              LaneId.AL1_INCOMING).getD [])).filterMap
          (parseLine 64 LaneId.AL1_INCOMING)) ∧
      laneQueue
        (update f32
          (update f32 (TrafficManager.new f32) (1 / 2)
            (pollFiles 64 (oneLaneFile LaneId.AL1_INCOMING (fileText [['1', ',', 'S', ';']]))))
          (1 / 2)
          (pollFiles 64 (oneLaneFile LaneId.AL1_INCOMING (fileText [['1', ',', 'S', ';']])))).lanes
        LaneId.AL1_INCOMING =
      [⟨1, Direction.STRAIGHT, LaneId.AL1_INCOMING⟩,
        ⟨1, Direction.STRAIGHT, LaneId.AL1_INCOMING⟩] :=
  ⟨by decide!,
    (second_poll_reads_feed_again f32 64
      (oneLaneFile LaneId.AL1_INCOMING (fileText [['1', ',', 'S', ';']]))
      (TrafficManager.new f32) (1 / 2) (1 / 2) Reachable.init (by decide!)
      LaneId.AL1_INCOMING).1,
    by decide!⟩

theorem readLaneFile_lost (ulongBits : Nat) (laneId : LaneId) (content : List Char) :
    readLaneFile ulongBits laneId content (-1) = ([], -1) := by
  have h : (content.length : Int) > -1 := by omega
  simp [readLaneFile, h]

/-- C17: after the loop `while (std::getline(file, line))` has ended the stream is in
the failed state, so the `file.tellg()` stored as the read position is `-1`, not the
number of bytes consumed. Once a call of `readNewVehicles` has read the file of lane `l`
(the file was longer than the stored position), the position of `l` is `-1`, and every
later call on the same handler seeks to `-1`, fails, and returns no vehicle of lane `l`,
whatever the file holds by then. -/
theorem readNewVehicles_loses_position (ulongBits : Nat) (handler : FileHandler)
    (files later : LaneFiles) (l : LaneId) (content : List Char)
    (hfile : files l = some content)
    (hnew : (content.length : Int) > handler.lastReadPositions l) :
    (handler.readNewVehicles ulongBits files).2.lastReadPositions l = -1 ∧
      ∀ v, (l, v) ∉
        ((handler.readNewVehicles ulongBits files).2.readNewVehicles ulongBits later).1 := by
  have hpos : (handler.readNewVehicles ulongBits files).2.lastReadPositions l = -1 := by
    rw [readNewVehicles_eq]
    simp [positionAfter, hfile, readLaneFile, hnew]
  refine ⟨hpos, ?_⟩
  intro v hv
  rw [readNewVehicles_eq] at hv
  obtain ⟨l', _, hl'⟩ := List.mem_flatMap.mp hv
  unfold vehiclesRead at hl'
  cases hlater : later l' with
  | none => simp [hlater] at hl'
  | some c =>
    simp only [hlater, List.mem_map, Prod.mk.injEq] at hl'
    obtain ⟨w, hw, hl, _⟩ := hl'
    subst hl
    rw [hpos, readLaneFile_lost] at hw
    cases hw

set_option maxRecDepth 100000 in
/-- C17 at a new handler and the file of lane `AL1_INCOMING`: the first call reads the
record `1,S;` and leaves the position `-1` where 5 bytes were consumed; after the record
`2,L;` is appended the second call returns nothing. -/
theorem readNewVehicles_loses_position_witness :
    ((FileHandler.new fun _ => none).1.readNewVehicles 64
        (oneLaneFile LaneId.AL1_INCOMING (fileText [['1', ',', 'S', ';']]))).1 =
        [(LaneId.AL1_INCOMING, ⟨1, Direction.STRAIGHT, LaneId.AL1_INCOMING⟩)] ∧
      ((FileHandler.new fun _ => none).1.readNewVehicles 64
        (oneLaneFile LaneId.AL1_INCOMING
          (fileText [['1', ',', 'S', ';']]))).2.lastReadPositions LaneId.AL1_INCOMING = -1 ∧
      (((FileHandler.new fun _ => none).1.readNewVehicles 64
          (oneLaneFile LaneId.AL1_INCOMING (fileText [['1', ',', 'S', ';']]))).2.readNewVehicles
        64
        (oneLaneFile LaneId.AL1_INCOMING
          (fileText [['1', ',', 'S', ';'], ['2', ',', 'L', ';']]))).1 = [] :=
  ⟨by decide!,
    (readNewVehicles_loses_position 64 (FileHandler.new fun _ => none).1
      (oneLaneFile LaneId.AL1_INCOMING (fileText [['1', ',', 'S', ';']]))
      (oneLaneFile LaneId.AL1_INCOMING (fileText [['1', ',', 'S', ';'], ['2', ',', 'L', ';']]))
      LaneId.AL1_INCOMING (fileText [['1', ',', 'S', ';']]) (by decide) (by decide)).1,
    by decide!⟩

/-! ## C18: arrival -/

theorem updateVehicleQueuePosition_sameVehicle {F : Type} (P : Platform F)
    (state : VehicleState F) (laneId : LaneId) (queuePosition : Nat) (id : Nat) :
    SameVehicle (id, state) (id, updateVehicleQueuePosition P state laneId queuePosition) := by
  cases laneId <;> simp [SameVehicle, updateVehicleQueuePosition]

/-- One pass of the loop of `updateVehiclePositions`: an arrived entry is erased, any
other entry stays, with its vehicle, flag and target. -/
theorem stepVehicle_spec {F : Type} (P : Platform F) (lanes : List Lane) (deltaTime : F)
    (table : ActiveVehicles F) (id : Nat) (state : VehicleState F) :
    (arrived P state = true → stepVehicle P lanes deltaTime table state = none) ∧
      (arrived P state = false →
        ∃ state', stepVehicle P lanes deltaTime table state = some state' ∧
          SameVehicle (id, state) (id, state')) := by
  unfold stepVehicle arrived
  by_cases hm : state.isMoving = true
  · by_cases hd : P.lt (distanceTo P (P.sub state.targetX state.x)
        (P.sub state.targetY state.y)) (P.lit 1 1) = true
    · simp [hm, hd]
    · simp only [hm, hd, Bool.true_and, if_true, Bool.false_eq_true, if_false,
        false_implies, true_and, Bool.not_eq_true, forall_const]
      split
      · exact ⟨_, rfl, by simp [SameVehicle, hm]⟩
      · exact ⟨_, rfl, by simp [SameVehicle]⟩
  · simp only [Bool.not_eq_true] at hm
    simp only [hm, Bool.false_and, Bool.false_eq_true, if_false, false_implies, true_and,
      forall_const]
    exact ⟨_, rfl, updateVehicleQueuePosition_sameVehicle P state _ _ id⟩

theorem updateVehiclePositionsLoop_spec {F : Type} (P : Platform F) (lanes : List Lane)
    (deltaTime : F) (todo done : ActiveVehicles F) :
    ∃ out, updateVehiclePositionsLoop P lanes deltaTime done todo = done ++ out ∧
      List.Forall₂ SameVehicle (todo.filter fun e => !arrived P e.2) out := by
  induction todo generalizing done with
  | nil => exact ⟨[], by simp [updateVehiclePositionsLoop], by simp⟩
  | cons e rest ih =>
    obtain ⟨id, state⟩ := e
    obtain ⟨h1, h2⟩ := stepVehicle_spec P lanes deltaTime (done ++ (id, state) :: rest) id state
    cases ha : arrived P state with
    | true =>
      obtain ⟨out, hout, hrel⟩ := ih done
      refine ⟨out, ?_, ?_⟩
      · simp only [updateVehiclePositionsLoop, h1 ha, hout]
      · simpa [List.filter_cons, ha] using hrel
    | false =>
      obtain ⟨state', hstep, hsame⟩ := h2 ha
      obtain ⟨out, hout, hrel⟩ := ih (done ++ [(id, state')])
      refine ⟨(id, state') :: out, ?_, ?_⟩
      · simp only [updateVehiclePositionsLoop, hstep, hout, List.append_assoc,
          List.singleton_append]
      · simpa [List.filter_cons, ha] using List.Forall₂.cons hsame hrel

theorem forall₂_sameVehicle_keys {F : Type} (xs ys : ActiveVehicles F)
    (h : List.Forall₂ SameVehicle xs ys) : ys.map Prod.fst = xs.map Prod.fst := by
  induction h with
  | nil => rfl
  | cons hab _ ih => simp [ih, hab.1]

theorem updateVehiclePositions_spec {F : Type} (P : Platform F) (s : TrafficManager F)
    (deltaTime : F) :
    (updateVehiclePositions P s deltaTime).activeVehicles.map Prod.fst =
        (s.activeVehicles.filter fun e => !arrived P e.2).map Prod.fst ∧
      List.Forall₂ SameVehicle (s.activeVehicles.filter fun e => !arrived P e.2)
        (updateVehiclePositions P s deltaTime).activeVehicles := by
  obtain ⟨out, hout, hrel⟩ := updateVehiclePositionsLoop_spec P s.lanes deltaTime
    s.activeVehicles []
  have h : (updateVehiclePositions P s deltaTime).activeVehicles = out := by
    simp [updateVehiclePositions, hout]
  rw [h]
  exact ⟨forall₂_sameVehicle_keys _ _ hrel, hrel⟩

set_option maxRecDepth 100000 in
/-- C18, as stated, fails on binary32: a moving entry at `(0, 0)` with target
`(8272207/8388608, 11140801/67108864)` is at Euclidean distance below 1 from its target
(the squares add up to less than 1), yet the distance that the code computes is `1.0f`,
the test `distance < 1.0f` fails and the entry stays in the table. -/
theorem arrival_counterexample :
    ((8272207 / 8388608 : ℚ) - 0) ^ 2 + ((11140801 / 67108864 : ℚ) - 0) ^ 2 < 1 ^ 2 ∧
      distanceTo f32 (f32.sub (8272207 / 8388608) 0) (f32.sub (11140801 / 67108864) 0) = 1 ∧
      (updateVehiclePositions f32
          { TrafficManager.new f32 with
            activeVehicles :=
              [(1, stateAt ⟨1, Direction.STRAIGHT, LaneId.AL3_FREELANE⟩ 0 0
                (8272207 / 8388608) (11140801 / 67108864) true)] }
          (1 / 64)).activeVehicles.map Prod.fst = [1] := by
  refine ⟨by norm_num, by decide!, by decide!⟩

/-- C18, amended: `updateVehiclePositions` erases exactly the entries that are moving
and whose distance to the target, as the code computes it in `float` (the square root of
`dx * dx + dy * dy`, each operation rounded), compares below `1.0f`. The table after the
call holds, in the same order and once each, the other entries of the table before: the
keys are those of the entries that have not arrived, and every such entry keeps its key,
vehicle, flag and target. -/
theorem updateVehiclePositions_erases_arrived {F : Type} (P : Platform F)
    (s : TrafficManager F) (deltaTime : F) :
    (updateVehiclePositions P s deltaTime).activeVehicles.map Prod.fst =
        (s.activeVehicles.filter fun e => !arrived P e.2).map Prod.fst ∧
      List.Forall₂ SameVehicle (s.activeVehicles.filter fun e => !arrived P e.2)
        (updateVehiclePositions P s deltaTime).activeVehicles :=
  updateVehiclePositions_spec P s deltaTime

/-! ## C19: the collision rule -/

theorem checkCollision_eq_true_iff {F : Type} (P : Platform F) (table : ActiveVehicles F)
    (state : VehicleState F) (newX newY : F) :
    checkCollision P table state newX newY = true ↔
      ∃ e ∈ table, e.1 ≠ state.vehicle.id ∧
        P.lt (distanceTo P (P.sub newX e.2.x) (P.sub newY e.2.y)) (MIN_DISTANCE P) = true := by
  induction table with
  | nil => simp [checkCollision]
  | cons e rest ih =>
    obtain ⟨otherId, otherState⟩ := e
    unfold checkCollision
    split
    · rename_i hcond
      simp only [true_iff]
      exact ⟨(otherId, otherState), List.mem_cons_self _ _, hcond.1, hcond.2⟩
    · rename_i hcond
      rw [ih]
      constructor
      · rintro ⟨e, he, h1, h2⟩
        exact ⟨e, List.mem_cons_of_mem _ he, h1, h2⟩
      · rintro ⟨e, he, h1, h2⟩
        rcases List.mem_cons.mp he with rfl | he'
        · exact absurd ⟨h1, h2⟩ hcond
        · exact ⟨e, he', h1, h2⟩

set_option maxRecDepth 100000 in
/-- C19, as stated, fails on binary32 with `VEHICLE_WIDTH = 40`: the point
`(9574651/262144, 1020537/32768)` is at Euclidean distance below `1.2 * 40 = 48` from
another vehicle at `(0, 0)` (the squares add up to less than `48 ^ 2`), yet the distance
that the code computes is `48.0f`, which is not below `MIN_DISTANCE = 48.0f`, and
`checkCollision` returns `false`. -/
theorem collision_counterexample :
    ((9574651 / 262144 : ℚ) - 0) ^ 2 + ((1020537 / 32768 : ℚ) - 0) ^ 2 <
        ((12 / 10 : ℚ) * f32.VEHICLE_WIDTH) ^ 2 ∧
      MIN_DISTANCE f32 = 48 ∧
      distanceTo f32 (f32.sub (9574651 / 262144) 0) (f32.sub (1020537 / 32768) 0) = 48 ∧
      checkCollision f32
          [(1, stateAt ⟨1, Direction.STRAIGHT, LaneId.AL3_FREELANE⟩ 0 0 500 0 true),
            (2, stateAt ⟨2, Direction.STRAIGHT, LaneId.AL3_FREELANE⟩ 0 0 500 0 true)]
          (stateAt ⟨1, Direction.STRAIGHT, LaneId.AL3_FREELANE⟩ 0 0 500 0 true)
          (9574651 / 262144) (1020537 / 32768) = false := by
  refine ⟨by norm_num [f32], by decide!, by decide!, by decide!⟩

/-- C19, amended: `checkCollision(state, newX, newY)` returns `true` exactly when some
entry of the table under a key other than the id of `state`'s vehicle has its current
position at a distance from `(newX, newY)` that, as the code computes it in `float` (the
square root of `dx * dx + dy * dy`, each operation rounded), compares below the `float`
product `VEHICLE_WIDTH * 1.2f`; this holds of every call. When it returns `true` for the
prospective position of a moving vehicle that has not arrived, the pass of
`updateVehiclePositions` leaves the state, so `x` and `y`, as it was. A vehicle that is
alone in the table under its own id is never blocked: `checkCollision` returns `false`
at every position, and when the vehicle is moving and has not arrived the pass commits
its prospective position. -/
theorem checkCollision_rule {F : Type} (P : Platform F) (lanes : List Lane) (deltaTime : F)
    (table : ActiveVehicles F) (state : VehicleState F) (newX newY : F) :
    (checkCollision P table state newX newY = true ↔
        ∃ e ∈ table, e.1 ≠ state.vehicle.id ∧
          P.lt (distanceTo P (P.sub newX e.2.x) (P.sub newY e.2.y)) (MIN_DISTANCE P) = true) ∧
      (state.isMoving = true → arrived P state = false →
        checkCollision P table state (prospective P state deltaTime).1
          (prospective P state deltaTime).2 = true →
        stepVehicle P lanes deltaTime table state = some state) ∧
      checkCollision P [(state.vehicle.id, state)] state newX newY = false ∧
      (state.isMoving = true → arrived P state = false →
        stepVehicle P lanes deltaTime [(state.vehicle.id, state)] state =
          some { state with
            x := (prospective P state deltaTime).1
            y := (prospective P state deltaTime).2 }) := by
  have hlone : ∀ a b : F, checkCollision P [(state.vehicle.id, state)] state a b = false := by
    intro a b
    simp [checkCollision]
  refine ⟨checkCollision_eq_true_iff P table state newX newY, ?_, hlone newX newY, ?_⟩
  · intro hmoving hfar hblocked
    have hd : P.lt (distanceTo P (P.sub state.targetX state.x)
        (P.sub state.targetY state.y)) (P.lit 1 1) = false := by
      simpa [arrived, hmoving] using hfar
    unfold prospective at hblocked
    simp only at hblocked
    unfold stepVehicle
    simp only [hmoving, hd, hblocked, if_true, Bool.false_eq_true, if_false, Bool.not_true]
  · intro hmoving hfar
    have hd : P.lt (distanceTo P (P.sub state.targetX state.x)
        (P.sub state.targetY state.y)) (P.lit 1 1) = false := by
      simpa [arrived, hmoving] using hfar
    have hfree := hlone (prospective P state deltaTime).1 (prospective P state deltaTime).2
    unfold prospective at hfree ⊢
    simp only at hfree ⊢
    unfold stepVehicle
    simp only [hmoving, hd, hfree, if_true, Bool.false_eq_true, if_false, Bool.not_false]

set_option maxRecDepth 100000 in
/-- C19, amended, at a table of the binary32 instance with vehicle 1 moving from
`(0, 0)` towards `(500, 0)` and vehicle 2 at `(10, 0)`: vehicle 1 is blocked and
stays. -/
theorem checkCollision_rule_witness :
    stepVehicle f32 [] (1 / 64)
        [(1, stateAt ⟨1, Direction.STRAIGHT, LaneId.AL3_FREELANE⟩ 0 0 500 0 true),
          (2, stateAt ⟨2, Direction.STRAIGHT, LaneId.AL3_FREELANE⟩ 10 0 500 0 true)]
        (stateAt ⟨1, Direction.STRAIGHT, LaneId.AL3_FREELANE⟩ 0 0 500 0 true) =
      some (stateAt ⟨1, Direction.STRAIGHT, LaneId.AL3_FREELANE⟩ 0 0 500 0 true) :=
  (checkCollision_rule f32 [] (1 / 64)
    [(1, stateAt ⟨1, Direction.STRAIGHT, LaneId.AL3_FREELANE⟩ 0 0 500 0 true),
      (2, stateAt ⟨2, Direction.STRAIGHT, LaneId.AL3_FREELANE⟩ 10 0 500 0 true)]
    (stateAt ⟨1, Direction.STRAIGHT, LaneId.AL3_FREELANE⟩ 0 0 500 0 true) 0 0).2.1
    rfl (by decide!) (by decide!)

/-! ## C13: the life cycle of a motion state -/

theorem reachable_ticks {F : Type} (P : Platform F) (deltaTime : F) (n : Nat)
    (s : TrafficManager F) (h : Reachable P s) : Reachable P (ticks P deltaTime n s) := by
  induction n generalizing s with
  | zero => exact h
  | succ n ih => exact ih _ (Reachable.tick s deltaTime [] h)

theorem forall₂_continues_refl {F : Type} (av : ActiveVehicles F) :
    List.Forall₂ Continues av av := by
  induction av with
  | nil => exact List.Forall₂.nil
  | cons e rest ih => exact List.Forall₂.cons ⟨rfl, rfl, fun h => h⟩ ih

theorem forall₂_continues_trans {F : Type} (xs ys zs : ActiveVehicles F)
    (h1 : List.Forall₂ Continues xs ys) (h2 : List.Forall₂ Continues ys zs) :
    List.Forall₂ Continues xs zs := by
  induction h1 generalizing zs with
  | nil =>
    cases h2
    exact List.Forall₂.nil
  | cons hab _ ih =>
    cases h2 with
    | cons hbc hrest =>
      exact List.Forall₂.cons
        ⟨hbc.1.trans hab.1, hbc.2.1.trans hab.2.1, fun h => hbc.2.2 (hab.2.2 h)⟩ (ih _ hrest)

theorem forall₂_continues_of_sameVehicle {F : Type} (xs ys : ActiveVehicles F)
    (h : List.Forall₂ SameVehicle xs ys) : List.Forall₂ Continues xs ys := by
  induction h with
  | nil => exact List.Forall₂.nil
  | cons hab _ ih =>
    exact List.Forall₂.cons ⟨hab.1, hab.2.1, fun h => hab.2.2.1.trans h⟩ ih

theorem setMoving_continues {F : Type} (av : ActiveVehicles F) (id : Nat) :
    List.Forall₂ Continues av (av.setMoving id) := by
  induction av with
  | nil => exact List.Forall₂.nil
  | cons e rest ih =>
    obtain ⟨k, st⟩ := e
    by_cases h : k = id
    · simp only [ActiveVehicles.setMoving, h, if_true]
      exact List.Forall₂.cons ⟨rfl, rfl, fun _ => rfl⟩ (forall₂_continues_refl rest)
    · simp only [ActiveVehicles.setMoving, h, if_false]
      exact List.Forall₂.cons ⟨rfl, rfl, fun h => h⟩ ih

theorem releaseAll_continues {F : Type} (av : ActiveVehicles F) (vs : List Vehicle) :
    List.Forall₂ Continues av (releaseAll av vs) := by
  induction vs generalizing av with
  | nil => exact forall₂_continues_refl av
  | cons v vs ih =>
    rw [releaseAll_cons]
    exact forall₂_continues_trans _ _ _ (setMoving_continues av v.id) (ih _)

/-- After the feed, a tick only erases and releases: the table at the end of `update`
continues, entry by entry and in order, a sublist of the table after the feed. -/
theorem update_continues {F : Type} (P : Platform F) (s : TrafficManager F) (dt : F)
    (nv : List (LaneId × Vehicle)) (hwf : WellFormed s) :
    ∃ survivors, List.Sublist survivors (pollFeed P s dt nv).activeVehicles ∧
      List.Forall₂ Continues survivors (update P s dt nv).activeVehicles := by
  obtain ⟨extra, k, hex, _, _, hav⟩ := update_eq P s dt nv hwf
  obtain ⟨k', _, hsched, _⟩ := schedule_eq P (pollFeed P s dt nv) dt _ hex
  obtain ⟨_, hpos⟩ := updateVehiclePositions_spec P (pollFeed P s dt nv) dt
  refine ⟨(pollFeed P s dt nv).activeVehicles.filter fun e => !arrived P e.2,
    List.filter_sublist _, ?_⟩
  rw [hav, hsched]
  exact forall₂_continues_trans _ _ _
    (forall₂_continues_trans _ _ _ (forall₂_continues_of_sameVehicle _ _ hpos)
      (releaseAll_continues _ _))
    (releaseAll_continues _ _)

set_option maxRecDepth 1000000 in
/-- C13, as stated, fails. Vehicle 1 arrives in the free lane AL3 and is released by the
first tick (`isMoving = true`); eight ticks of four seconds later it has reached its
target and the table is empty. A second arrival under the id 1, after the first tick,
sets the flag of the entry back to `false`; after the erasure, it makes 1 a key of the
table again. All the states are reachable. -/
theorem life_cycle_counterexample :
    Reachable f32
        (addNewVehicleToState f32
          (addVehicleToLane
            (ticks f32 4 8
              (addNewVehicleToState f32
                (addVehicleToLane (TrafficManager.new f32) LaneId.AL3_FREELANE
                  ⟨1, Direction.STRAIGHT, LaneId.AL3_FREELANE⟩)
                ⟨1, Direction.STRAIGHT, LaneId.AL3_FREELANE⟩ LaneId.AL3_FREELANE))
            LaneId.AL3_FREELANE ⟨1, Direction.STRAIGHT, LaneId.AL3_FREELANE⟩)
          ⟨1, Direction.STRAIGHT, LaneId.AL3_FREELANE⟩ LaneId.AL3_FREELANE) ∧
      (ticks f32 4 1
          (addNewVehicleToState f32
            (addVehicleToLane (TrafficManager.new f32) LaneId.AL3_FREELANE
              ⟨1, Direction.STRAIGHT, LaneId.AL3_FREELANE⟩)
            ⟨1, Direction.STRAIGHT, LaneId.AL3_FREELANE⟩
            LaneId.AL3_FREELANE)).activeVehicles.map (fun e => (e.1, e.2.isMoving)) =
        [(1, true)] ∧
      (addNewVehicleToState f32
          (addVehicleToLane
            (ticks f32 4 1
              (addNewVehicleToState f32
                (addVehicleToLane (TrafficManager.new f32) LaneId.AL3_FREELANE
                  ⟨1, Direction.STRAIGHT, LaneId.AL3_FREELANE⟩)
                ⟨1, Direction.STRAIGHT, LaneId.AL3_FREELANE⟩ LaneId.AL3_FREELANE))
            LaneId.AL3_FREELANE ⟨1, Direction.STRAIGHT, LaneId.AL3_FREELANE⟩)
          ⟨1, Direction.STRAIGHT, LaneId.AL3_FREELANE⟩
          LaneId.AL3_FREELANE).activeVehicles.map (fun e => (e.1, e.2.isMoving)) =
        [(1, false)] ∧
      (ticks f32 4 8
          (addNewVehicleToState f32
            (addVehicleToLane (TrafficManager.new f32) LaneId.AL3_FREELANE
              ⟨1, Direction.STRAIGHT, LaneId.AL3_FREELANE⟩)
            ⟨1, Direction.STRAIGHT, LaneId.AL3_FREELANE⟩
            LaneId.AL3_FREELANE)).activeVehicles.map Prod.fst = [] ∧
      (addNewVehicleToState f32
          (addVehicleToLane
            (ticks f32 4 8
              (addNewVehicleToState f32
                (addVehicleToLane (TrafficManager.new f32) LaneId.AL3_FREELANE
                  ⟨1, Direction.STRAIGHT, LaneId.AL3_FREELANE⟩)
                ⟨1, Direction.STRAIGHT, LaneId.AL3_FREELANE⟩ LaneId.AL3_FREELANE))
            LaneId.AL3_FREELANE ⟨1, Direction.STRAIGHT, LaneId.AL3_FREELANE⟩)
          ⟨1, Direction.STRAIGHT, LaneId.AL3_FREELANE⟩
          LaneId.AL3_FREELANE).activeVehicles.map Prod.fst = [1] := by
  refine ⟨Reachable.arrival _ _ _
    (reachable_ticks f32 4 8 _ (Reachable.arrival _ _ _ Reachable.init)), by decide!,
    by decide!, by decide!, by decide!⟩

/-- C13, amended: within a tick the life cycle is one-way, and only an arrival restarts
it. In a reachable state, the part of `update` that follows the feed only erases and
releases: the table at the end of the tick continues, entry by entry, a sublist of the
table after the feed, every entry under the same key, with the same vehicle, and moving
if it was moving, so no key is added and no flag goes back to `false`. An arrival of a
vehicle leaves the entries of all other ids as they were and puts the vehicle under its
id with `isMoving = false`, whether or not the id was in the table before. -/
theorem life_cycle_within_tick {F : Type} (P : Platform F) (s : TrafficManager F)
    (deltaTime : F) (newVehicles : List (LaneId × Vehicle)) (hs : Reachable P s) :
    (∃ survivors,
        List.Sublist survivors (pollFeed P s deltaTime newVehicles).activeVehicles ∧
          List.Forall₂ Continues survivors
            (update P s deltaTime newVehicles).activeVehicles) ∧
      (∀ (laneId : LaneId) (v : Vehicle) (j : Nat), j ≠ v.id →
        (addNewVehicleToState P (addVehicleToLane s laneId v) v
          laneId).activeVehicles.find j = s.activeVehicles.find j) ∧
      ∀ (laneId : LaneId) (v : Vehicle),
        ∃ st,
          (addNewVehicleToState P (addVehicleToLane s laneId v) v
            laneId).activeVehicles.find v.id = some st ∧
          st.vehicle = v ∧ st.isMoving = false :=
  ⟨update_continues P s deltaTime newVehicles hs.wellFormed,
    fun laneId v j hj => addNewVehicleToState_find_ne P (addVehicleToLane s laneId v) v laneId j hj,
    fun laneId v => addNewVehicleToState_find_self P (addVehicleToLane s laneId v) v laneId⟩

/-- C13, amended, at the constructor state with a tick that feeds one vehicle. -/
theorem life_cycle_within_tick_witness :
    ∃ survivors,
      List.Sublist survivors
          (pollFeed f32 (TrafficManager.new f32) 1
            [(LaneId.AL3_FREELANE, ⟨1, Direction.STRAIGHT, LaneId.AL3_FREELANE⟩)]).activeVehicles ∧
        List.Forall₂ Continues survivors
          (update f32 (TrafficManager.new f32) 1
            [(LaneId.AL3_FREELANE, ⟨1, Direction.STRAIGHT, LaneId.AL3_FREELANE⟩)]).activeVehicles :=
  (life_cycle_within_tick f32 (TrafficManager.new f32) 1
    [(LaneId.AL3_FREELANE, ⟨1, Direction.STRAIGHT, LaneId.AL3_FREELANE⟩)] Reachable.init).1

/-! ## C20: lane size accounting -/

theorem drainPriorityLaneCount_eq (fuel : Nat) (lane : Lane)
    (h : lane.queue.length - 5 ≤ fuel) :
    drainPriorityLaneCount fuel lane = lane.queue.length - 5 := by
  induction fuel generalizing lane with
  | zero =>
    have h0 : lane.queue.length - 5 = 0 := by omega
    simp [drainPriorityLaneCount, h0]
  | succ n ih =>
    obtain ⟨id, pr, q⟩ := lane
    cases q with
    | nil => simp [drainPriorityLaneCount, Lane.getQueueSize]
    | cons v q =>
      by_cases hq : (v :: q).length > 5
      · have hle : q.length - 5 ≤ n := by
          simp only [List.length_cons] at h hq
          omega
        have := ih ⟨id, pr, q⟩ hle
        simp only [List.length_cons] at hq
        simp only [drainPriorityLaneCount, Lane.getQueueSize, List.length_cons, hq, if_true,
          Lane.removeVehicle, Option.isSome_some, this]
        omega
      · have h0 : (v :: q).length - 5 = 0 := by omega
        simp only [drainPriorityLaneCount, Lane.getQueueSize, hq, if_false, h0]

theorem dequeueUpToCount_eq (n : Nat) (lane : Lane) :
    dequeueUpToCount n lane = min n lane.queue.length := by
  induction n generalizing lane with
  | zero => simp [dequeueUpToCount]
  | succ n ih =>
    obtain ⟨id, pr, q⟩ := lane
    cases q with
    | nil => simp [dequeueUpToCount, Lane.getQueueSize]
    | cons v q =>
      have := ih ⟨id, pr, q⟩
      simp only [dequeueUpToCount, Lane.getQueueSize, List.length_cons, Nat.succ_pos,
        gt_iff_lt, if_true, Lane.removeVehicle, Option.isSome_some, this]
      omega

theorem drainFreeLaneCount_eq (fuel : Nat) (lane : Lane) (h : lane.queue.length ≤ fuel) :
    drainFreeLaneCount fuel lane = lane.queue.length := by
  induction fuel generalizing lane with
  | zero =>
    have h0 : lane.queue.length = 0 := by omega
    simp [drainFreeLaneCount, h0]
  | succ n ih =>
    obtain ⟨id, pr, q⟩ := lane
    cases q with
    | nil => simp [drainFreeLaneCount, Lane.getQueueSize]
    | cons v q =>
      have hle : q.length ≤ n := by
        simp only [List.length_cons] at h
        omega
      have := ih ⟨id, pr, q⟩ hle
      simp only [drainFreeLaneCount, Lane.getQueueSize, List.length_cons, Nat.succ_pos,
        gt_iff_lt, if_true, Lane.removeVehicle, Option.isSome_some, this]
      omega

theorem processPriorityLanesCount_lanesOf (q : LaneId → List Vehicle) (l : LaneId) :
    processPriorityLanesCount (lanesOf q) l =
      if l = LaneId.AL2_PRIORITY then (q LaneId.AL2_PRIORITY).length - 5 else 0 := by
  by_cases h : (q LaneId.AL2_PRIORITY).length > 5
  · cases l <;>
      simp [lanesOf, initialLanes, processPriorityLanesCount, Lane.isPriorityLane,
        Lane.getQueueSize, Lane.getId, h, drainPriorityLaneCount_eq]
  · have h0 : (q LaneId.AL2_PRIORITY).length - 5 = 0 := by omega
    cases l <;>
      simp [lanesOf, initialLanes, processPriorityLanesCount, Lane.isPriorityLane,
        Lane.getQueueSize, Lane.getId, h, h0]

theorem processNormalLanesCount_lanesOf (n : Nat) (q : LaneId → List Vehicle) (l : LaneId) :
    processNormalLanesCount n (lanesOf q) l =
      if l ∈ normalLaneIds then min n (q l).length else 0 := by
  cases l <;>
    simp [lanesOf, initialLanes, processNormalLanesCount, isNormalLane, Lane.isPriorityLane,
      Lane.getId, dequeueUpToCount_eq, normalLaneIds]

theorem processFreeLanesCount_lanesOf (q : LaneId → List Vehicle) (l : LaneId) :
    processFreeLanesCount (lanesOf q) l = if l ∈ freeLaneIds then (q l).length else 0 := by
  cases l <;>
    simp [lanesOf, initialLanes, processFreeLanesCount, isFreeLane, Lane.getId,
      Lane.getQueueSize, drainFreeLaneCount_eq, freeLaneIds]

theorem laneSizeIn_lanesOf_eq (q : LaneId → List Vehicle) (l : LaneId) :
    laneSizeIn (lanesOf q) l = (q l).length := by
  cases l <;> simp [lanesOf, initialLanes, laneSizeIn, Lane.getId, Lane.getQueueSize]

/-- The lanes of an accounted history are the constructor's twelve lanes, and every
queue holds as many vehicles as were added less those dequeued. -/
theorem accounted_balance {F : Type} {lanes : List Lane} {N M : LaneId → Nat}
    (h : Accounted (F := F) lanes N M) :
    ∃ q : LaneId → List Vehicle, lanes = lanesOf q ∧ ∀ l, (q l).length + M l = N l := by
  induction h with
  | init => exact ⟨fun _ => [], by simp [lanesOf, initialLanes], fun _ => rfl⟩
  | add lanes N M laneId v _ ih =>
    obtain ⟨q, hq, hbal⟩ := ih
    refine ⟨Function.update q laneId (q laneId ++ [v]), ?_, ?_⟩
    · rw [hq, addVehicleToLanes_lanesOf]
    · intro l
      have := hbal l
      by_cases hl : l = laneId
      · subst hl
        simp only [Function.update_same, List.length_append, List.length_singleton, if_true]
        omega
      · simp only [Function.update_noteq hl, hl, if_false]
        omega
  | priority lanes N M av _ ih =>
    obtain ⟨q, hq, hbal⟩ := ih
    refine ⟨Function.update q LaneId.AL2_PRIORITY
      ((q LaneId.AL2_PRIORITY).drop ((q LaneId.AL2_PRIORITY).length - 5)), ?_, ?_⟩
    · rw [hq, processPriorityLanes_lanesOf]
    · intro l
      have := hbal l
      subst hq
      simp only [processPriorityLanesCount_lanesOf]
      by_cases hl : l = LaneId.AL2_PRIORITY
      · subst hl
        simp only [Function.update_same, List.length_drop, if_true]
        omega
      · simp only [Function.update_noteq hl, hl, if_false]
        omega
  | normal lanes N M n av _ ih =>
    obtain ⟨q, hq, hbal⟩ := ih
    refine ⟨fun l => if l ∈ normalLaneIds then (q l).drop n else q l, ?_, ?_⟩
    · rw [hq, processNormalLanesLoop_lanesOf]
    · intro l
      have := hbal l
      subst hq
      simp only [processNormalLanesCount_lanesOf]
      by_cases hl : l ∈ normalLaneIds
      · simp only [hl, if_true, List.length_drop]
        omega
      · simp only [hl, if_false]
        omega
  | free lanes N M av _ ih =>
    obtain ⟨q, hq, hbal⟩ := ih
    refine ⟨fun l => if l ∈ freeLaneIds then [] else q l, ?_, ?_⟩
    · rw [hq, processFreeLanesLoop_lanesOf]
    · intro l
      have := hbal l
      subst hq
      simp only [processFreeLanesCount_lanesOf]
      by_cases hl : l ∈ freeLaneIds
      · simp only [hl, if_true, List.length_nil]
        omega
      · simp only [hl, if_false]
        omega

theorem accounted_feed {F : Type} (P : Platform F) (nv : List (LaneId × Vehicle))
    (s : TrafficManager F) (N M : LaneId → Nat) (h : Accounted (F := F) s.lanes N M) :
    ∃ N', Accounted (F := F) (feedVehicles P s nv).lanes N' M := by
  induction nv generalizing s N with
  | nil => exact ⟨N, h⟩
  | cons e rest ih =>
    obtain ⟨l, v⟩ := e
    exact ih (addNewVehicleToState P (addVehicleToLane s l v) v l) _
      (Accounted.add s.lanes N M l v h)

theorem accounted_pollFeed {F : Type} (P : Platform F) (s : TrafficManager F) (dt : F)
    (nv : List (LaneId × Vehicle)) (N M : LaneId → Nat)
    (h : Accounted (F := F) s.lanes N M) :
    ∃ N', Accounted (F := F) (pollFeed P s dt nv).lanes N' M := by
  unfold pollFeed
  simp only
  split
  · exact accounted_feed P nv
      { s with
        stateTimer := P.add s.stateTimer dt
        lastUpdateTime := P.add s.lastUpdateTime dt
        fileCheckTimer := P.add s.fileCheckTimer dt } N M h
  · exact ⟨N, h⟩

theorem accounted_priorityBranch {F : Type} (P : Platform F) (s : TrafficManager F)
    (N M : LaneId → Nat) (h : Accounted (F := F) s.lanes N M) :
    ∃ M', Accounted (F := F) (priorityBranch P s).lanes N M' := by
  obtain ⟨h1, h2⟩ := ite_sync_proj P s (!s.inPriorityMode)
  refine ⟨fun l => M l + processPriorityLanesCount s.lanes l, ?_⟩
  have := Accounted.priority s.lanes N M s.activeVehicles h
  unfold priorityBranch processPriorityLane
  simp only
  rw [h1, h2]
  exact this

theorem accounted_dispatchNormal {F : Type} (P : Platform F) (s : TrafficManager F)
    (N M : LaneId → Nat) (h : Accounted (F := F) s.lanes N M) :
    ∃ M', Accounted (F := F) (dispatchNormal P s).lanes N M' := by
  unfold dispatchNormal
  split
  · simp only
    unfold processNormalLanes
    split
    · exact ⟨M, h⟩
    · exact ⟨_, Accounted.normal s.lanes N M _ s.activeVehicles h⟩
  · exact ⟨M, h⟩

theorem accounted_normalBranch {F : Type} (P : Platform F) (s : TrafficManager F)
    (N M : LaneId → Nat) (h : Accounted (F := F) s.lanes N M) :
    ∃ M', Accounted (F := F) (normalBranch P s).lanes N M' := by
  obtain ⟨h1, _⟩ := ite_sync_proj P s s.inPriorityMode
  exact accounted_dispatchNormal P
    ({ (if s.inPriorityMode = true then synchronizeTrafficLights P s else s) with
      inPriorityMode := false }) N M (by rw [h1]; exact h)

theorem accounted_update {F : Type} (P : Platform F) (s : TrafficManager F) (dt : F)
    (nv : List (LaneId × Vehicle)) (N M : LaneId → Nat)
    (h : Accounted (F := F) s.lanes N M) :
    ∃ N' M', Accounted (F := F) (update P s dt nv).lanes N' M' := by
  obtain ⟨N', h1⟩ := accounted_pollFeed P s dt nv N M h
  have h2 : ∃ M', Accounted (F := F) (schedule P (pollFeed P s dt nv) dt).lanes
      N' M' := by
    unfold schedule
    simp only
    split
    · exact accounted_priorityBranch P _ N' M h1
    · exact accounted_normalBranch P _ N' M h1
  obtain ⟨M', h2⟩ := h2
  have h3 := Accounted.free _ N' M'
    (updateTrafficLights P (schedule P (pollFeed P s dt nv) dt) dt).activeVehicles
    (by rw [← updateTrafficLights_lanes P _ dt] at h2; exact h2)
  exact ⟨N', _, h3⟩

/-- Every reachable state has accounted lanes. -/
theorem reachable_accounted {F : Type} {P : Platform F} {s : TrafficManager F}
    (h : Reachable P s) : ∃ N M, Accounted (F := F) s.lanes N M := by
  induction h with
  | init =>
    refine ⟨fun _ => 0, fun _ => 0, ?_⟩
    have : (TrafficManager.new P).lanes = initialLanes := by
      unfold TrafficManager.new
      simp only
      rw [(synchronizeTrafficLights_proj P _).1]
    rw [this]
    exact Accounted.init
  | arrival s l v _ ih =>
    obtain ⟨N, M, h⟩ := ih
    exact ⟨_, M, Accounted.add s.lanes N M l v h⟩
  | tick s dt nv _ ih =>
    obtain ⟨N, M, h⟩ := ih
    exact accounted_update P s dt nv N M h

/-- C20: lane size accounting, over the class `Lane` as the spec describes it. The
lanes of every reachable state result from the constructor's lanes by calls of
`addVehicleToLane` and by the dequeuing loops of the scheduler; whenever `N l` such
calls were made for lane `l` and `M l` vehicles were dequeued from it, `M l ≤ N l` and
`getLaneSize(l) = N l - M l`. A call `addVehicleToLane(l, v)` raises `getLaneSize(l)`
by exactly 1, puts `v` at the tail of the queue of `l`, and leaves the content and the
size of every other lane as they were. -/
theorem lane_size_accounting {F : Type} (P : Platform F) (s : TrafficManager F)
    (laneId : LaneId) (v : Vehicle) (hs : Reachable P s) :
    (∃ N M, Accounted (F := F) s.lanes N M) ∧
      (∀ (N M : LaneId → Nat), Accounted (F := F) s.lanes N M →
        ∀ l, M l ≤ N l ∧ getLaneSize s l = N l - M l) ∧
      getLaneSize (addVehicleToLane s laneId v) laneId = getLaneSize s laneId + 1 ∧
      laneQueue (addVehicleToLane s laneId v).lanes laneId =
        laneQueue s.lanes laneId ++ [v] ∧
      ∀ l, l ≠ laneId →
        laneQueue (addVehicleToLane s laneId v).lanes l = laneQueue s.lanes l ∧
          getLaneSize (addVehicleToLane s laneId v) l = getLaneSize s l := by
  have hq := hs.wellFormed.lanes_eq
  have hadd : (addVehicleToLane s laneId v).lanes =
      lanesOf (Function.update (laneQueue s.lanes) laneId (laneQueue s.lanes laneId ++ [v])) := by
    generalize laneQueue s.lanes = q at hq
    simp only [addVehicleToLane, hq, addVehicleToLanes_lanesOf]
  have hsize : ∀ l, getLaneSize s l = (laneQueue s.lanes l).length := by
    intro l
    unfold getLaneSize
    conv_lhs => rw [hq]
    exact laneSizeIn_lanesOf_eq _ _
  refine ⟨reachable_accounted hs, ?_, ?_, ?_, ?_⟩
  · intro N M hacc l
    obtain ⟨q, hq', hbal⟩ := accounted_balance hacc
    have := hbal l
    unfold getLaneSize
    rw [hq', laneSizeIn_lanesOf_eq]
    omega
  · unfold getLaneSize
    rw [hadd, laneSizeIn_lanesOf_eq, Function.update_same, List.length_append, ← hsize]
    rfl
  · rw [hadd, laneQueue_lanesOf, Function.update_same]
  · intro l hl
    refine ⟨?_, ?_⟩
    · rw [hadd, laneQueue_lanesOf, Function.update_noteq hl]
    · unfold getLaneSize
      rw [hadd, laneSizeIn_lanesOf_eq, Function.update_noteq hl, ← hsize]
      rfl

/-- C20 at the constructor state and a vehicle added to lane `BL2_NORMAL`. -/
theorem lane_size_accounting_witness :
    getLaneSize
        (addVehicleToLane (TrafficManager.new f32) LaneId.BL2_NORMAL
          ⟨7, Direction.LEFT, LaneId.BL2_NORMAL⟩) LaneId.BL2_NORMAL =
      getLaneSize (TrafficManager.new f32) LaneId.BL2_NORMAL + 1 :=
  (lane_size_accounting f32 (TrafficManager.new f32) LaneId.BL2_NORMAL
    ⟨7, Direction.LEFT, LaneId.BL2_NORMAL⟩ Reachable.init).2.2.1

/-! ## Integers in the binary32 instance -/

theorem bitLog2_pow_le (fuel n : Nat) (h : 1 ≤ n) : 2 ^ bitLog2 fuel n ≤ n := by
  induction fuel generalizing n with
  | zero => simpa [bitLog2] using h
  | succ fuel ih =>
    unfold bitLog2
    split
    · simpa using h
    · rename_i h2
      have h1 : 1 ≤ n / 2 := by omega
      have := ih (n / 2) h1
      rw [pow_succ]
      omega

theorem roundHalfEven_one (N : Nat) : roundHalfEven N 1 = N := by
  simp [roundHalfEven, Nat.mod_one]

/-- An integer below `2 ^ 24` in absolute value is a binary32 number: rounding leaves
it as it is. -/
theorem roundF32_natCast (n : Nat) (h : n < 2 ^ 24) : roundF32 (n : ℚ) = n := by
  by_cases h0 : n = 0
  · subst h0
    simp [roundF32]
  · have hpos : 1 ≤ n := Nat.one_le_iff_ne_zero.mpr h0
    have hq : ((n : ℚ) = 0) = False := by simp [h0]
    have hlog := bitLog2_pow_le n n hpos
    have he : bitLog2 n n ≤ 23 := by
      by_contra hc
      have : 2 ^ 24 ≤ 2 ^ bitLog2 n n := Nat.pow_le_pow_right (by norm_num) (by omega)
      omega
    have hfl : floorLog2 n 1 = (bitLog2 n n : Int) := by
      unfold floorLog2
      have hb1 : bitLog2 1 1 = 0 := by decide
      simp only [hb1, Int.ofNat_zero, Nat.cast_zero, sub_zero]
      have hnn : (0 : Int) ≤ (bitLog2 n n : Int) := Int.natCast_nonneg _
      simp only [ge_iff_le, hnn, if_true, Int.toNat_ofNat, one_mul]
      rw [if_neg (by omega)]
    unfold roundF32
    simp only [hq, if_false, Rat.num_natCast, Rat.den_natCast, Int.natAbs_ofNat, hfl]
    have hneg : ¬ ((n : ℚ) < 0) := by
      have : (0 : ℚ) ≤ n := Nat.cast_nonneg n
      linarith
    rw [if_neg hneg]
    have hu : max ((bitLog2 n n : Int) - 23) (-149) = (bitLog2 n n : Int) - 23 := by
      apply max_eq_left
      omega
    rw [hu]
    by_cases h23 : bitLog2 n n = 23
    · simp [h23, scale2, roundHalfEven_one]
    · have hlt : ¬ ((bitLog2 n n : Int) - 23 ≥ 0) := by omega
      have htn : (-((bitLog2 n n : Int) - 23)).toNat = 23 - bitLog2 n n := by omega
      simp only [hlt, if_false, one_mul, roundHalfEven_one, scale2, htn]
      have hp : ((2 ^ (23 - bitLog2 n n) : Nat) : ℚ) ≠ 0 := by positivity
      push_cast
      field_simp

theorem roundF32_neg (q : ℚ) : roundF32 (-q) = -roundF32 q := by
  by_cases h0 : q = 0
  · subst h0
    simp [roundF32]
  · have hn0 : -q ≠ 0 := neg_ne_zero.mpr h0
    unfold roundF32
    simp only [h0, hn0, if_false, Rat.num_neg_eq_neg_num, Int.natAbs_neg, Rat.neg_den]
    rcases lt_or_gt_of_ne h0 with hlt | hgt
    · have h1 : ¬ (-q < 0) := by linarith
      simp [hlt, h1]
    · have h1 : -q < 0 := by linarith
      have h2 : ¬ (q < 0) := by linarith
      simp [h1, h2]

theorem roundF32_intCast (z : Int) (h : z.natAbs < 2 ^ 24) : roundF32 (z : ℚ) = z := by
  obtain ⟨n, rfl | rfl⟩ := Int.eq_nat_or_neg z
  · have hn : n < 2 ^ 24 := by simpa using h
    simpa using roundF32_natCast n hn
  · have hn : n < 2 ^ 24 := by simpa using h
    have := roundF32_natCast n hn
    push_cast
    rw [roundF32_neg, this]

/-! ## The queue geometry in the binary32 instance -/

theorem f32_axis (n : Nat) (hn : n ≤ 400000) :
    f32.sub (f32.sub f32.CENTER_X f32.QUEUE_START_OFFSET)
        (f32.mul (f32.ofNat n) f32.QUEUE_SPACING) = 512 - (250 + 40 * (n : ℚ)) ∧
      f32.sub (f32.sub f32.CENTER_Y f32.QUEUE_START_OFFSET)
        (f32.mul (f32.ofNat n) f32.QUEUE_SPACING) = 384 - (250 + 40 * (n : ℚ)) ∧
      f32.add (f32.add f32.CENTER_X f32.QUEUE_START_OFFSET)
        (f32.mul (f32.ofNat n) f32.QUEUE_SPACING) = 512 + (250 + 40 * (n : ℚ)) ∧
      f32.add (f32.add f32.CENTER_Y f32.QUEUE_START_OFFSET)
        (f32.mul (f32.ofNat n) f32.QUEUE_SPACING) = 384 + (250 + 40 * (n : ℚ)) := by
  have hn1 : roundF32 (n : ℚ) = n := roundF32_natCast n (by norm_num; omega)
  have hmul : roundF32 ((n : ℚ) * 40) = ((40 * n : Nat) : ℚ) := by
    have := roundF32_natCast (40 * n) (by norm_num; omega)
    rw [← this]
    push_cast
    ring_nf
  have h262 : roundF32 ((512 : ℚ) - 250) = 262 := by decide!
  have h134 : roundF32 ((384 : ℚ) - 250) = 134 := by decide!
  have h762 : roundF32 ((512 : ℚ) + 250) = 762 := by decide!
  have h634 : roundF32 ((384 : ℚ) + 250) = 634 := by decide!
  have e1 : roundF32 ((262 : ℚ) - ((40 * n : Nat) : ℚ)) = 512 - (250 + 40 * (n : ℚ)) := by
    have := roundF32_intCast (262 - 40 * (n : Int)) (by omega)
    push_cast at this ⊢
    rw [this]
    ring
  have e2 : roundF32 ((134 : ℚ) - ((40 * n : Nat) : ℚ)) = 384 - (250 + 40 * (n : ℚ)) := by
    have := roundF32_intCast (134 - 40 * (n : Int)) (by omega)
    push_cast at this ⊢
    rw [this]
    ring
  have e3 : roundF32 ((762 : ℚ) + ((40 * n : Nat) : ℚ)) = 512 + (250 + 40 * (n : ℚ)) := by
    have := roundF32_intCast (762 + 40 * (n : Int)) (by omega)
    push_cast at this ⊢
    rw [this]
    ring
  have e4 : roundF32 ((634 : ℚ) + ((40 * n : Nat) : ℚ)) = 384 + (250 + 40 * (n : ℚ)) := by
    have := roundF32_intCast (634 + 40 * (n : Int)) (by omega)
    push_cast at this ⊢
    rw [this]
    ring
  refine ⟨?_, ?_, ?_, ?_⟩
  · show roundF32 (roundF32 ((512 : ℚ) - 250) - roundF32 (roundF32 (n : ℚ) * 40)) = _
    rw [h262, hn1, hmul, e1]
  · show roundF32 (roundF32 ((384 : ℚ) - 250) - roundF32 (roundF32 (n : ℚ) * 40)) = _
    rw [h134, hn1, hmul, e2]
  · show roundF32 (roundF32 ((512 : ℚ) + 250) + roundF32 (roundF32 (n : ℚ) * 40)) = _
    rw [h762, hn1, hmul, e3]
  · show roundF32 (roundF32 ((384 : ℚ) + 250) + roundF32 (roundF32 (n : ℚ) * 40)) = _
    rw [h634, hn1, hmul, e4]

set_option maxRecDepth 100000 in
theorem f32_cross :
    (∀ l ∈ [LaneId.AL1_INCOMING, LaneId.AL2_PRIORITY, LaneId.AL3_FREELANE],
        f32.add (f32.add (f32.sub f32.CENTER_Y (f32.div f32.ROAD_WIDTH (f32.lit 2 1)))
          (f32.div f32.LANE_WIDTH (f32.lit 2 1))) (laneOffset f32 l LaneId.AL1_INCOMING) =
          crossCoordinate l) ∧
      (∀ l ∈ [LaneId.BL1_INCOMING, LaneId.BL2_NORMAL, LaneId.BL3_FREELANE],
        f32.add (f32.add (f32.sub f32.CENTER_X (f32.div f32.ROAD_WIDTH (f32.lit 2 1)))
          (f32.div f32.LANE_WIDTH (f32.lit 2 1))) (laneOffset f32 l LaneId.BL1_INCOMING) =
          crossCoordinate l) ∧
      (∀ l ∈ [LaneId.CL1_INCOMING, LaneId.CL2_NORMAL, LaneId.CL3_FREELANE],
        f32.add (f32.add (f32.sub f32.CENTER_Y (f32.div f32.ROAD_WIDTH (f32.lit 2 1)))
          (f32.div f32.LANE_WIDTH (f32.lit 2 1))) (laneOffset f32 l LaneId.CL1_INCOMING) =
          crossCoordinate l) ∧
      (∀ l ∈ [LaneId.DL1_INCOMING, LaneId.DL2_NORMAL, LaneId.DL3_FREELANE],
        f32.add (f32.add (f32.sub f32.CENTER_X (f32.div f32.ROAD_WIDTH (f32.lit 2 1)))
          (f32.div f32.LANE_WIDTH (f32.lit 2 1))) (laneOffset f32 l LaneId.DL1_INCOMING) =
          crossCoordinate l) := by
  decide!

/-- In the binary32 instance the position switch of `addNewVehicleToState` puts slot `n`
of a lane, for `n` up to 400000, exactly at `slotPoint`. -/
theorem spawnPosition_f32 (l : LaneId) (n : Nat) (hn : n ≤ 400000) :
    spawnPosition f32 l n = slotPoint l n := by
  obtain ⟨h1, h2, h3, h4⟩ := f32_axis n hn
  obtain ⟨c1, c2, c3, c4⟩ := f32_cross
  cases l
  · exact Prod.ext h1 (c1 _ (by simp))
  · exact Prod.ext h1 (c1 _ (by simp))
  · exact Prod.ext h1 (c1 _ (by simp))
  · exact Prod.ext (c2 _ (by simp)) h2
  · exact Prod.ext (c2 _ (by simp)) h2
  · exact Prod.ext (c2 _ (by simp)) h2
  · exact Prod.ext h3 (c3 _ (by simp))
  · exact Prod.ext h3 (c3 _ (by simp))
  · exact Prod.ext h3 (c3 _ (by simp))
  · exact Prod.ext (c4 _ (by simp)) h4
  · exact Prod.ext (c4 _ (by simp)) h4
  · exact Prod.ext (c4 _ (by simp)) h4

/-- The two position switches are the same expressions, in every arithmetic. -/
theorem updateVehicleQueuePosition_eq_spawnPosition {F : Type} (P : Platform F)
    (state : VehicleState F) (l : LaneId) (n : Nat) :
    ((updateVehicleQueuePosition P state l n).x, (updateVehicleQueuePosition P state l n).y) =
      spawnPosition P l n := by
  cases l <;> rfl

/-! ## C28 and C26: the queue geometry -/

theorem calculateTargetPosition_position {F : Type} (P : Platform F) (st : VehicleState F)
    (laneId : LaneId) :
    (calculateTargetPosition P st laneId).x = st.x ∧
      (calculateTargetPosition P st laneId).y = st.y := by
  cases hd : st.direction <;> cases laneId <;> simp [calculateTargetPosition, hd]

theorem addNewVehicleToState_position {F : Type} (P : Platform F) (s : TrafficManager F)
    (v : Vehicle) (laneId : LaneId) :
    ∃ st, (addNewVehicleToState P s v laneId).activeVehicles.find v.id = some st ∧
      (st.x, st.y) = spawnPosition P laneId (getLaneSize s laneId) := by
  refine ⟨_, find_assign_self _ _ _, ?_⟩
  rw [(calculateTargetPosition_position P _ laneId).1,
    (calculateTargetPosition_position P _ laneId).2]

set_option maxRecDepth 100000 in
/-- C28, as stated, fails on binary32 for a large queue position: for lane
`AL1_INCOMING` and `n = 1000000` both computations give `x = -39999736`, at distance
`40000248` from the centre `x = 512`, where `QUEUE_START_OFFSET + n * QUEUE_SPACING` is
`40000250`: the `float` result of `CENTER_X - QUEUE_START_OFFSET - n * QUEUE_SPACING`
is rounded to a multiple of 4. -/
theorem queue_geometry_counterexample :
    spawnPosition f32 LaneId.AL1_INCOMING 1000000 = (-39999736, 294) ∧
      ((updateVehicleQueuePosition f32
            (stateAt ⟨1, Direction.STRAIGHT, LaneId.AL1_INCOMING⟩ 0 0 0 0 false)
            LaneId.AL1_INCOMING 1000000).x,
          (updateVehicleQueuePosition f32
            (stateAt ⟨1, Direction.STRAIGHT, LaneId.AL1_INCOMING⟩ 0 0 0 0 false)
            LaneId.AL1_INCOMING 1000000).y) = (-39999736, 294) ∧
      f32.CENTER_X - (-39999736) = 40000248 ∧
      f32.QUEUE_START_OFFSET + 1000000 * f32.QUEUE_SPACING = 40000250 := by
  decide!

/-- C28, amended: the two queue-geometry computations agree. In every arithmetic, for
each lane and every queue position `n`, `updateVehicleQueuePosition` assigns the same
`(x, y)` as the position switch of `addNewVehicleToState`, and `addNewVehicleToState`
stores that position for `n = getLaneSize(laneId)`. The lanes of the approaches A and C
get a `y`, and those of B and D an `x`, that does not depend on `n`. In the binary32
instance, for `n` up to 400000, both computations give exactly the point at distance
`QUEUE_START_OFFSET + n * QUEUE_SPACING` from the centre on the lane's line. -/
theorem queue_geometry_agrees {F : Type} (P : Platform F) (s : TrafficManager F)
    (v : Vehicle) (laneId : LaneId) (state : VehicleState F) (state32 : VehicleState ℚ)
    (n m : Nat) :
    ((updateVehicleQueuePosition P state laneId n).x,
        (updateVehicleQueuePosition P state laneId n).y) = spawnPosition P laneId n ∧
      (∃ st, (addNewVehicleToState P s v laneId).activeVehicles.find v.id = some st ∧
        (st.x, st.y) =
          ((updateVehicleQueuePosition P state laneId (getLaneSize s laneId)).x,
            (updateVehicleQueuePosition P state laneId (getLaneSize s laneId)).y)) ∧
      (laneId ∈ [LaneId.AL1_INCOMING, LaneId.AL2_PRIORITY, LaneId.AL3_FREELANE,
          LaneId.CL1_INCOMING, LaneId.CL2_NORMAL, LaneId.CL3_FREELANE] →
        (spawnPosition P laneId n).2 = (spawnPosition P laneId m).2) ∧
      (laneId ∈ [LaneId.BL1_INCOMING, LaneId.BL2_NORMAL, LaneId.BL3_FREELANE,
          LaneId.DL1_INCOMING, LaneId.DL2_NORMAL, LaneId.DL3_FREELANE] →
        (spawnPosition P laneId n).1 = (spawnPosition P laneId m).1) ∧
      (n ≤ 400000 →
        spawnPosition f32 laneId n = slotPoint laneId n ∧
          ((updateVehicleQueuePosition f32 state32 laneId n).x,
            (updateVehicleQueuePosition f32 state32 laneId n).y) = slotPoint laneId n) := by
  refine ⟨updateVehicleQueuePosition_eq_spawnPosition P state laneId n, ?_, ?_, ?_, ?_⟩
  · obtain ⟨st, hst, hpos⟩ := addNewVehicleToState_position P s v laneId
    exact ⟨st, hst, hpos.trans (updateVehicleQueuePosition_eq_spawnPosition P state laneId _).symm⟩
  · intro h
    cases laneId <;> first | rfl | simp at h
  · intro h
    cases laneId <;> first | rfl | simp at h
  · intro hn
    refine ⟨spawnPosition_f32 laneId n hn, ?_⟩
    rw [updateVehicleQueuePosition_eq_spawnPosition]
    exact spawnPosition_f32 laneId n hn

/-- C28, amended, at lane `BL2_NORMAL` and queue position 3 of the binary32 instance:
both computations give `(512, 14)`. -/
theorem queue_geometry_agrees_witness :
    spawnPosition f32 LaneId.BL2_NORMAL 3 = slotPoint LaneId.BL2_NORMAL 3 ∧
      slotPoint LaneId.BL2_NORMAL 3 = (512, 14) :=
  ⟨((queue_geometry_agrees f32 (TrafficManager.new f32)
      ⟨1, Direction.STRAIGHT, LaneId.BL2_NORMAL⟩ LaneId.BL2_NORMAL
      (stateAt ⟨1, Direction.STRAIGHT, LaneId.BL2_NORMAL⟩ 0 0 0 0 false)
      (stateAt ⟨1, Direction.STRAIGHT, LaneId.BL2_NORMAL⟩ 0 0 0 0 false) 3 0).2.2.2.2
      (by decide)).1,
    by norm_num [slotPoint, crossCoordinate]⟩

theorem updateVehiclePositionsLoop_waiting {F : Type} (P : Platform F) (lanes : List Lane)
    (deltaTime : F) (todo done : ActiveVehicles F)
    (hdone : ∀ e ∈ done, e.2.isMoving = false →
      (e.2.x, e.2.y) =
        spawnPosition P e.2.vehicle.currentLane (laneSizeIn lanes e.2.vehicle.currentLane)) :
    ∀ e ∈ updateVehiclePositionsLoop P lanes deltaTime done todo, e.2.isMoving = false →
      (e.2.x, e.2.y) =
        spawnPosition P e.2.vehicle.currentLane (laneSizeIn lanes e.2.vehicle.currentLane) := by
  induction todo generalizing done with
  | nil => simpa [updateVehiclePositionsLoop] using hdone
  | cons e0 rest ih =>
    obtain ⟨id, state⟩ := e0
    unfold updateVehiclePositionsLoop
    cases hstep : stepVehicle P lanes deltaTime (done ++ (id, state) :: rest) state with
    | none => exact ih done hdone
    | some state' =>
      apply ih
      intro e he hw
      rcases List.mem_append.mp he with he | he
      · exact hdone e he hw
      · rw [List.mem_singleton] at he
        subst he
        simp only at hw ⊢
        unfold stepVehicle at hstep
        by_cases hm : state.isMoving = true
        · simp only [hm, if_true] at hstep
          split at hstep
          · cases hstep
          · split at hstep
            · cases hstep
              simp [hm] at hw
            · cases hstep
              simp [hm] at hw
        · simp only [hm, if_false, Bool.false_eq_true, Option.some.injEq] at hstep
          subst hstep
          have hv : (updateVehicleQueuePosition P state state.vehicle.currentLane
              (laneSizeIn lanes state.vehicle.currentLane)).vehicle = state.vehicle :=
            (updateVehicleQueuePosition_sameVehicle P state _ _ id).2.1
          rw [hv]
          exact updateVehicleQueuePosition_eq_spawnPosition P state _ _

set_option maxRecDepth 100000 in
/-- C26, as stated, fails on binary32 in its last clause: for lane `AL1_INCOMING` the
slots of the lane sizes 16777216 and 16777217 are the same point (the conversion of
16777217 to `float` gives 16777216), so the position does not move when the size goes
down by one; and from size 4000001 to size 4000000 the slot moves by 32, not by
`QUEUE_SPACING = 40`. -/
theorem queue_shift_counterexample :
    (updateVehicleQueuePosition f32
        (stateAt ⟨1, Direction.STRAIGHT, LaneId.AL1_INCOMING⟩ 0 0 0 0 false)
        LaneId.AL1_INCOMING 16777216).x -
      (updateVehicleQueuePosition f32
        (stateAt ⟨1, Direction.STRAIGHT, LaneId.AL1_INCOMING⟩ 0 0 0 0 false)
        LaneId.AL1_INCOMING (16777216 + 1)).x = 0 ∧
      (updateVehicleQueuePosition f32
        (stateAt ⟨1, Direction.STRAIGHT, LaneId.AL1_INCOMING⟩ 0 0 0 0 false)
        LaneId.AL1_INCOMING 4000000).x -
      (updateVehicleQueuePosition f32
        (stateAt ⟨1, Direction.STRAIGHT, LaneId.AL1_INCOMING⟩ 0 0 0 0 false)
        LaneId.AL1_INCOMING (4000000 + 1)).x = 32 ∧
      f32.QUEUE_SPACING * (towardsCentre LaneId.AL1_INCOMING).1 = 40 := by
  decide!

/-- C26, amended: queued vehicles are repositioned from the live queue depth. In every
arithmetic, after `updateVehiclePositions` every entry with `isMoving = false` has the
`(x, y)` that `updateVehicleQueuePosition` computes for the current lane of its vehicle
and the queue position `getLaneSize(current lane)`, whatever state it is applied to; the
pass over a waiting entry does not depend on the table, so no collision check takes
part. In the binary32 instance, for lane sizes up to 400000, the slot of size `n` lies
exactly `QUEUE_SPACING` nearer the intersection than the slot of size `n + 1`. -/
theorem queued_vehicles_follow_queue_depth {F : Type} (P : Platform F)
    (s : TrafficManager F) (deltaTime : F) (state0 : VehicleState F)
    (state32 : VehicleState ℚ) (laneId : LaneId) (n : Nat) :
    (∀ e ∈ (updateVehiclePositions P s deltaTime).activeVehicles, e.2.isMoving = false →
        e.2.x =
            (updateVehicleQueuePosition P state0 e.2.vehicle.currentLane
              (getLaneSize s e.2.vehicle.currentLane)).x ∧
          e.2.y =
            (updateVehicleQueuePosition P state0 e.2.vehicle.currentLane
              (getLaneSize s e.2.vehicle.currentLane)).y) ∧
      (∀ (state : VehicleState F) (table table' : ActiveVehicles F),
        state.isMoving = false →
          stepVehicle P s.lanes deltaTime table state =
            stepVehicle P s.lanes deltaTime table' state) ∧
      (n + 1 ≤ 400000 →
        (updateVehicleQueuePosition f32 state32 laneId n).x -
            (updateVehicleQueuePosition f32 state32 laneId (n + 1)).x =
          f32.QUEUE_SPACING * (towardsCentre laneId).1 ∧
        (updateVehicleQueuePosition f32 state32 laneId n).y -
            (updateVehicleQueuePosition f32 state32 laneId (n + 1)).y =
          f32.QUEUE_SPACING * (towardsCentre laneId).2) := by
  refine ⟨?_, ?_, ?_⟩
  · intro e he hw
    have h := updateVehiclePositionsLoop_waiting P s.lanes deltaTime s.activeVehicles []
      (by intro e he; cases he) e he hw
    have h2 := updateVehicleQueuePosition_eq_spawnPosition P state0 e.2.vehicle.currentLane
      (getLaneSize s e.2.vehicle.currentLane)
    have h3 := h.trans h2.symm
    exact ⟨congrArg Prod.fst h3, congrArg Prod.snd h3⟩
  · intro state table table' hw
    simp [stepVehicle, hw]
  · intro hn
    have h1 := (updateVehicleQueuePosition_eq_spawnPosition f32 state32 laneId n).trans
      (spawnPosition_f32 laneId n (by omega))
    have h2 := (updateVehicleQueuePosition_eq_spawnPosition f32 state32 laneId (n + 1)).trans
      (spawnPosition_f32 laneId (n + 1) hn)
    have hx1 := congrArg Prod.fst h1
    have hy1 := congrArg Prod.snd h1
    have hx2 := congrArg Prod.fst h2
    have hy2 := congrArg Prod.snd h2
    simp only at hx1 hy1 hx2 hy2
    rw [hx1, hy1, hx2, hy2]
    have hq : f32.QUEUE_SPACING = 40 := rfl
    rw [hq]
    cases laneId <;> simp only [slotPoint, towardsCentre] <;> constructor <;> push_cast <;> ring

set_option maxRecDepth 100000 in
/-- C26, amended, at the constructor state with two arrivals in lane `AL1_INCOMING`:
after the pass both waiting entries are at the slot of size 2, `(182, 294)`; and the
slot of size 1 is 40 further east than the slot of size 2. -/
theorem queued_vehicles_follow_queue_depth_witness :
    (updateVehiclePositions f32
        (feedVehicles f32 (TrafficManager.new f32) (arrivals LaneId.AL1_INCOMING 1 2))
        (1 / 64)).activeVehicles.map (fun e => (e.1, e.2.x, e.2.y)) =
        [(1, 182, 294), (2, 182, 294)] ∧
      (updateVehicleQueuePosition f32
          (stateAt ⟨1, Direction.STRAIGHT, LaneId.AL1_INCOMING⟩ 0 0 0 0 false)
          LaneId.AL1_INCOMING 1).x -
        (updateVehicleQueuePosition f32
          (stateAt ⟨1, Direction.STRAIGHT, LaneId.AL1_INCOMING⟩ 0 0 0 0 false)
          LaneId.AL1_INCOMING (1 + 1)).x =
        f32.QUEUE_SPACING * (towardsCentre LaneId.AL1_INCOMING).1 :=
  ⟨by decide!,
    ((queued_vehicles_follow_queue_depth f32 (TrafficManager.new f32) (1 / 64)
      (stateAt ⟨1, Direction.STRAIGHT, LaneId.AL1_INCOMING⟩ 0 0 0 0 false)
      (stateAt ⟨1, Direction.STRAIGHT, LaneId.AL1_INCOMING⟩ 0 0 0 0 false)
      LaneId.AL1_INCOMING 1).2.2 (by decide)).1⟩

/-! ## C23 and C22: the target of a vehicle -/

theorem calculateTargetPosition_left {F : Type} (P : Platform F) (state : VehicleState F)
    (laneId : LaneId) :
    ((calculateTargetPosition P { state with direction := Direction.LEFT } laneId).targetX,
        (calculateTargetPosition P { state with direction := Direction.LEFT } laneId).targetY) =
      turnTarget P P.TURN_GUIDE_RADIUS true laneId state.x state.y := by
  cases laneId <;> rfl

theorem calculateTargetPosition_right {F : Type} (P : Platform F) (state : VehicleState F)
    (laneId : LaneId) :
    ((calculateTargetPosition P { state with direction := Direction.RIGHT } laneId).targetX,
        (calculateTargetPosition P { state with direction := Direction.RIGHT }
          laneId).targetY) =
      turnTarget P (P.mul P.TURN_GUIDE_RADIUS (P.lit 6 10)) false laneId state.x state.y := by
  cases laneId <;> rfl

theorem calculateTargetPosition_straight {F : Type} (P : Platform F) (state : VehicleState F)
    (laneId : LaneId) :
    ((calculateTargetPosition P { state with direction := Direction.STRAIGHT } laneId).targetX,
        (calculateTargetPosition P { state with direction := Direction.STRAIGHT }
          laneId).targetY) =
      straightTarget P laneId state.x state.y := by
  cases laneId <;> rfl

theorem f32_add_int (a b : Int) (h : (a + b).natAbs < 2 ^ 24) :
    f32.add (a : ℚ) (b : ℚ) = ((a + b : Int) : ℚ) := by
  show roundF32 ((a : ℚ) + (b : ℚ)) = _
  rw [← Int.cast_add]
  exact roundF32_intCast _ h

theorem f32_sub_int (a b : Int) (h : (a - b).natAbs < 2 ^ 24) :
    f32.sub (a : ℚ) (b : ℚ) = ((a - b : Int) : ℚ) := by
  show roundF32 ((a : ℚ) - (b : ℚ)) = _
  rw [← Int.cast_sub]
  exact roundF32_intCast _ h

theorem slotPoint_int (l : LaneId) (n : Nat) :
    ∃ a b : Int, slotPoint l n = ((a : ℚ), (b : ℚ)) ∧
      a.natAbs ≤ 762 + 40 * n ∧ b.natAbs ≤ 762 + 40 * n := by
  cases l
  · exact ⟨512 - (250 + 40 * n), 294, by simp [slotPoint, crossCoordinate], by omega, by omega⟩
  · exact ⟨512 - (250 + 40 * n), 384, by simp [slotPoint, crossCoordinate], by omega, by omega⟩
  · exact ⟨512 - (250 + 40 * n), 474, by simp [slotPoint, crossCoordinate], by omega, by omega⟩
  · exact ⟨422, 384 - (250 + 40 * n), by simp [slotPoint, crossCoordinate], by omega, by omega⟩
  · exact ⟨512, 384 - (250 + 40 * n), by simp [slotPoint, crossCoordinate], by omega, by omega⟩
  · exact ⟨602, 384 - (250 + 40 * n), by simp [slotPoint, crossCoordinate], by omega, by omega⟩
  · exact ⟨512 + (250 + 40 * n), 294, by simp [slotPoint, crossCoordinate], by omega, by omega⟩
  · exact ⟨512 + (250 + 40 * n), 384, by simp [slotPoint, crossCoordinate], by omega, by omega⟩
  · exact ⟨512 + (250 + 40 * n), 474, by simp [slotPoint, crossCoordinate], by omega, by omega⟩
  · exact ⟨422, 384 + (250 + 40 * n), by simp [slotPoint, crossCoordinate], by omega, by omega⟩
  · exact ⟨512, 384 + (250 + 40 * n), by simp [slotPoint, crossCoordinate], by omega, by omega⟩
  · exact ⟨602, 384 + (250 + 40 * n), by simp [slotPoint, crossCoordinate], by omega, by omega⟩

/-- In the binary32 instance, from a queue slot up to 400000 the turn target is offset
along the approach axis by exactly the integer radius `r`, towards the intersection. -/
theorem turnTarget_f32_offset (l : LaneId) (n : Nat) (hn : n ≤ 400000) (r : Nat)
    (hr : r ≤ 1000) (left : Bool) :
    axisOffset l (slotPoint l n)
        (turnTarget f32 (r : ℚ) left l (slotPoint l n).1 (slotPoint l n).2) = r := by
  obtain ⟨a, b, hab, ha, hb⟩ := slotPoint_int l n
  rw [hab]
  have h1 : f32.add (a : ℚ) ((r : Int) : ℚ) = ((a + r : Int) : ℚ) :=
    f32_add_int a r (by omega)
  have h2 : f32.sub (a : ℚ) ((r : Int) : ℚ) = ((a - r : Int) : ℚ) :=
    f32_sub_int a r (by omega)
  have h3 : f32.add (b : ℚ) ((r : Int) : ℚ) = ((b + r : Int) : ℚ) :=
    f32_add_int b r (by omega)
  have h4 : f32.sub (b : ℚ) ((r : Int) : ℚ) = ((b - r : Int) : ℚ) :=
    f32_sub_int b r (by omega)
  simp only [Int.cast_natCast] at h1 h2 h3 h4
  cases l <;>
    simp only [axisOffset, turnTarget, towardsCentre, h1, h2, h3, h4] <;>
    push_cast <;> ring

set_option maxRecDepth 100000 in
theorem f32_right_radius :
    f32.mul f32.TURN_GUIDE_RADIUS (f32.lit 6 10) = ((18 : Nat) : ℚ) ∧
      f32.TURN_GUIDE_RADIUS = ((30 : Nat) : ℚ) ∧
      ((18 : Nat) : ℚ) = 6 / 10 * f32.TURN_GUIDE_RADIUS := by
  decide!

set_option maxRecDepth 100000 in
/-- C23, as stated, fails on binary32. For lane `AL1_INCOMING` at queue depth 1000000
the spawn position is `x = -39999736`, where `float` numbers are 4 apart: the left-turn
target is 32 along the approach axis from it, not `TURN_GUIDE_RADIUS = 30`, and the
right-turn target 16, not `0.6 * 30 = 18`. The right-turn radius is the `float` product
with `0.6f`, which is not `0.6`: for a radius of 50 the product is not `0.6 * 50`. -/
theorem turn_offsets_counterexample :
    axisOffset LaneId.AL1_INCOMING (spawnPosition f32 LaneId.AL1_INCOMING 1000000)
        (targetAt f32 Direction.LEFT LaneId.AL1_INCOMING 1000000) = 32 ∧
      axisOffset LaneId.AL1_INCOMING (spawnPosition f32 LaneId.AL1_INCOMING 1000000)
        (targetAt f32 Direction.RIGHT LaneId.AL1_INCOMING 1000000) = 16 ∧
      f32.TURN_GUIDE_RADIUS = 30 ∧
      f32.lit 6 10 = 5033165 / 8388608 ∧
      f32.mul 50 (f32.lit 6 10) = 15728641 / 524288 ∧
      (15728641 / 524288 : ℚ) ≠ 6 / 10 * 50 := by
  decide!

/-- C23, amended: turn offsets. In every arithmetic, `calculateTargetPosition` leaves
`x` and `y` as they are and gives a vehicle that turns left the target `turnTarget`
with the radius `TURN_GUIDE_RADIUS`, and a vehicle that turns right the target
`turnTarget` with the radius `TURN_GUIDE_RADIUS * 0.6f`: the coordinate along the
approach axis is the `float` sum or difference of the position's and the radius, with
the same sign for both turns, and the other coordinate is the centre minus or plus 450,
with opposite signs for the two turns. In the binary32 instance
(`TURN_GUIDE_RADIUS = 30`), for every lane and every spawn position of queue depth up
to 400000, the offset along the approach axis is exactly `TURN_GUIDE_RADIUS` for a left
turn and exactly `0.6 * TURN_GUIDE_RADIUS` for a right turn, towards the
intersection. -/
theorem turn_offsets {F : Type} (P : Platform F) (state : VehicleState F) (laneId : LaneId)
    (n : Nat) :
    ((calculateTargetPosition P { state with direction := Direction.LEFT } laneId).targetX,
        (calculateTargetPosition P { state with direction := Direction.LEFT } laneId).targetY) =
        turnTarget P P.TURN_GUIDE_RADIUS true laneId state.x state.y ∧
      ((calculateTargetPosition P { state with direction := Direction.RIGHT } laneId).targetX,
        (calculateTargetPosition P { state with direction := Direction.RIGHT }
          laneId).targetY) =
        turnTarget P (P.mul P.TURN_GUIDE_RADIUS (P.lit 6 10)) false laneId state.x state.y ∧
      (calculateTargetPosition P state laneId).x = state.x ∧
      (calculateTargetPosition P state laneId).y = state.y ∧
      (n ≤ 400000 →
        axisOffset laneId (spawnPosition f32 laneId n) (targetAt f32 Direction.LEFT laneId n) =
            f32.TURN_GUIDE_RADIUS ∧
          axisOffset laneId (spawnPosition f32 laneId n)
              (targetAt f32 Direction.RIGHT laneId n) =
            6 / 10 * f32.TURN_GUIDE_RADIUS) := by
  obtain ⟨h18, h30, hexact⟩ := f32_right_radius
  refine ⟨calculateTargetPosition_left P state laneId,
    calculateTargetPosition_right P state laneId,
    (calculateTargetPosition_position P state laneId).1,
    (calculateTargetPosition_position P state laneId).2, ?_⟩
  intro hn
  refine ⟨?_, ?_⟩
  · simp only [targetAt]
    rw [spawnPosition_f32 laneId n hn, h30]
    exact turnTarget_f32_offset laneId n hn 30 (by norm_num) true
  · simp only [targetAt]
    rw [spawnPosition_f32 laneId n hn, h18, ← hexact]
    exact turnTarget_f32_offset laneId n hn 18 (by norm_num) false

/-- C23, amended, at lane `CL1_INCOMING` and queue depth 2 of the binary32 instance: the
left-turn target is 30 west of the spawn position. -/
theorem turn_offsets_witness :
    axisOffset LaneId.CL1_INCOMING (spawnPosition f32 LaneId.CL1_INCOMING 2)
        (targetAt f32 Direction.LEFT LaneId.CL1_INCOMING 2) = f32.TURN_GUIDE_RADIUS :=
  ((turn_offsets f32 (stateAt ⟨1, Direction.LEFT, LaneId.CL1_INCOMING⟩ 0 0 0 0 false)
    LaneId.CL1_INCOMING 2).2.2.2.2 (by decide)).1

/-! ### C22 -/

theorem addVehicleToLanes_keys (lanes : List Lane) (l : LaneId) (v : Vehicle) :
    (addVehicleToLanes lanes l v).map (fun lane => (lane.getId, lane.isPriorityLane)) =
      lanes.map fun lane => (lane.getId, lane.isPriorityLane) := by
  induction lanes with
  | nil => rfl
  | cons lane rest ih =>
    unfold addVehicleToLanes
    split
    · simp [Lane.addVehicle, Lane.getId, Lane.isPriorityLane]
    · simp [ih]

theorem feedVehicles_laneKeys {F : Type} (P : Platform F) (nv : List (LaneId × Vehicle))
    (s : TrafficManager F) : laneKeys (feedVehicles P s nv) = laneKeys s := by
  induction nv generalizing s with
  | nil => rfl
  | cons e rest ih =>
    obtain ⟨l, v⟩ := e
    simp only [feedVehicles]
    rw [ih]
    exact addVehicleToLanes_keys s.lanes l v

theorem pollFeed_laneKeys {F : Type} (P : Platform F) (s : TrafficManager F) (dt : F)
    (nv : List (LaneId × Vehicle)) : laneKeys (pollFeed P s dt nv) = laneKeys s := by
  unfold pollFeed
  simp only
  split
  · exact feedVehicles_laneKeys P nv _
  · rfl

theorem processPriorityLanes_keys {F : Type} (lanes : List Lane) (av : ActiveVehicles F) :
    (processPriorityLanes lanes av).1.map (fun lane => (lane.getId, lane.isPriorityLane)) =
      lanes.map fun lane => (lane.getId, lane.isPriorityLane) := by
  induction lanes with
  | nil => rfl
  | cons lane rest ih =>
    unfold processPriorityLanes
    split
    · rw [drainPriorityLane_eq _ _ _ (by simp [Lane.getQueueSize])]
      simp [Lane.getId, Lane.isPriorityLane]
    · simp [ih]

theorem processNormalLanesLoop_keys {F : Type} (n : Nat) (lanes : List Lane)
    (av : ActiveVehicles F) :
    (processNormalLanesLoop n lanes av).1.map (fun lane => (lane.getId, lane.isPriorityLane)) =
      lanes.map fun lane => (lane.getId, lane.isPriorityLane) := by
  induction lanes generalizing av with
  | nil => rfl
  | cons lane rest ih =>
    unfold processNormalLanesLoop
    simp only [Lane.getId, Lane.isPriorityLane] at ih ⊢
    split
    · simp [dequeueUpTo_eq, ih]
    · simp [ih]

theorem processFreeLanesLoop_keys {F : Type} (lanes : List Lane) (av : ActiveVehicles F) :
    (processFreeLanesLoop lanes av).1.map (fun lane => (lane.getId, lane.isPriorityLane)) =
      lanes.map fun lane => (lane.getId, lane.isPriorityLane) := by
  induction lanes generalizing av with
  | nil => rfl
  | cons lane rest ih =>
    unfold processFreeLanesLoop
    simp only [Lane.getId, Lane.isPriorityLane] at ih ⊢
    split
    · rw [drainFreeLane_eq _ _ _ (by simp [Lane.getQueueSize])]
      simp [ih]
    · simp [ih]

theorem priorityBranch_laneKeys {F : Type} (P : Platform F) (s : TrafficManager F) :
    laneKeys (priorityBranch P s) = laneKeys s := by
  obtain ⟨h1, _⟩ := ite_sync_proj P s (!s.inPriorityMode)
  unfold priorityBranch processPriorityLane laneKeys
  simp only
  rw [processPriorityLanes_keys, h1]

theorem dispatchNormal_laneKeys {F : Type} (P : Platform F) (s : TrafficManager F) :
    laneKeys (dispatchNormal P s) = laneKeys s := by
  unfold dispatchNormal
  split
  · simp only
    unfold processNormalLanes
    split
    · rfl
    · exact processNormalLanesLoop_keys _ s.lanes s.activeVehicles
  · rfl

theorem normalBranch_laneKeys {F : Type} (P : Platform F) (s : TrafficManager F) :
    laneKeys (normalBranch P s) = laneKeys s := by
  obtain ⟨h1, _⟩ := ite_sync_proj P s s.inPriorityMode
  unfold normalBranch
  simp only
  rw [dispatchNormal_laneKeys]
  unfold laneKeys
  simp only
  rw [h1]

theorem update_laneKeys {F : Type} (P : Platform F) (s : TrafficManager F) (dt : F)
    (nv : List (LaneId × Vehicle)) : laneKeys (update P s dt nv) = laneKeys s := by
  have h1 : laneKeys (schedule P (pollFeed P s dt nv) dt) = laneKeys s := by
    unfold schedule
    simp only
    split
    · rw [priorityBranch_laneKeys]
      exact pollFeed_laneKeys P s dt nv
    · rw [normalBranch_laneKeys]
      exact pollFeed_laneKeys P s dt nv
  have h2 : laneKeys (updateTrafficLights P (schedule P (pollFeed P s dt nv) dt) dt) =
      laneKeys s := by
    unfold laneKeys at h1 ⊢
    rw [updateTrafficLights_lanes]
    exact h1
  unfold update
  unfold laneKeys at h2 ⊢
  unfold processFreeLanes
  simp only
  rw [processFreeLanesLoop_keys]
  exact h2

theorem setLight_isSome {F : Type} (P : Platform F) (m : LaneId → Option (TrafficLight F))
    (k0 : LaneId) (st : LightState) (k : LaneId) :
    (setLight P m k0 st k).isSome = ((m k).isSome || decide (k = k0)) := by
  by_cases h : k = k0 <;> simp [setLight, h]

theorem touchLight_isSome {F : Type} (P : Platform F) (m : LaneId → Option (TrafficLight F))
    (k0 k : LaneId) : (touchLight P m k0 k).isSome = ((m k).isSome || decide (k = k0)) := by
  by_cases h : k = k0 <;> simp [touchLight, h]

theorem synchronizeTrafficLights_isSome {F : Type} (P : Platform F) (s : TrafficManager F)
    (k : LaneId) :
    ((synchronizeTrafficLights P s).trafficLights k).isSome =
      ((s.trafficLights k).isSome || decide (k ∈ lightIds)) := by
  unfold synchronizeTrafficLights
  split <;> simp only [setLight_isSome] <;> cases (s.trafficLights k).isSome <;>
    cases k <;> decide

theorem updateTrafficLights_isSome {F : Type} (P : Platform F) (s : TrafficManager F)
    (dt : F) (k : LaneId) :
    ((updateTrafficLights P s dt).trafficLights k).isSome =
      ((s.trafficLights k).isSome || decide (k ∈ lightIds)) := by
  unfold updateTrafficLights
  simp only
  split
  · split <;> simp only [setLight_isSome, touchLight_isSome, Option.isSome_map'] <;>
      cases (s.trafficLights k).isSome <;> cases k <;> decide
  · simp only [setLight_isSome, Option.isSome_map']
    cases (s.trafficLights k).isSome <;> cases k <;> decide

theorem ite_sync_isSome {F : Type} (P : Platform F) (s : TrafficManager F) (b : Bool)
    (k : LaneId) :
    ((if b = true then synchronizeTrafficLights P s else s).trafficLights k).isSome =
      ((s.trafficLights k).isSome || (b && decide (k ∈ lightIds))) := by
  cases b
  · simp
  · simp [synchronizeTrafficLights_isSome]

theorem schedule_isSome {F : Type} (P : Platform F) (s : TrafficManager F) (dt : F)
    (k : LaneId) :
    ∃ b : Bool, ((schedule P s dt).trafficLights k).isSome =
      ((s.trafficLights k).isSome || (b && decide (k ∈ lightIds))) := by
  unfold schedule
  simp only
  split
  · refine ⟨!(updateVehiclePositions P s dt).inPriorityMode, ?_⟩
    have := ite_sync_isSome P (updateVehiclePositions P s dt)
      (!(updateVehiclePositions P s dt).inPriorityMode) k
    unfold priorityBranch processPriorityLane
    simp only
    exact this
  · refine ⟨(updateVehiclePositions P s dt).inPriorityMode, ?_⟩
    have := ite_sync_isSome P (updateVehiclePositions P s dt)
      (updateVehiclePositions P s dt).inPriorityMode k
    unfold normalBranch
    simp only
    rw [dispatchNormal_trafficLights]
    exact this

/-- The keys of the lights after a tick: those before and the four controlled lanes. -/
theorem update_isSome {F : Type} (P : Platform F) (s : TrafficManager F) (dt : F)
    (nv : List (LaneId × Vehicle)) (k : LaneId) :
    ((update P s dt nv).trafficLights k).isSome =
      ((s.trafficLights k).isSome || decide (k ∈ lightIds)) := by
  obtain ⟨b, hb⟩ := schedule_isSome P (pollFeed P s dt nv) dt k
  have h : ((updateTrafficLights P (schedule P (pollFeed P s dt nv) dt) dt).trafficLights
      k).isSome = ((s.trafficLights k).isSome || decide (k ∈ lightIds)) := by
    rw [updateTrafficLights_isSome, hb, pollFeed_trafficLights]
    cases (s.trafficLights k).isSome <;> cases b <;> cases decide (k ∈ lightIds) <;> rfl
  unfold update processFreeLanes
  exact h

theorem new_lightKeys {F : Type} (P : Platform F) :
    lightKeys (TrafficManager.new P) = lightIds := by
  unfold lightKeys TrafficManager.new
  simp only [synchronizeTrafficLights_isSome]
  simp [allLaneIds, lightIds, assignLight, List.filter]

theorem update_lightKeys {F : Type} (P : Platform F) (s : TrafficManager F) (dt : F)
    (nv : List (LaneId × Vehicle)) (h : lightKeys s = lightIds) :
    lightKeys (update P s dt nv) = lightIds := by
  have hmem : ∀ k, (s.trafficLights k).isSome = decide (k ∈ lightIds) := by
    intro k
    have hk : k ∈ lightKeys s ↔ k ∈ lightIds := by rw [h]
    simp only [lightKeys, List.mem_filter, mem_allLaneIds, true_and] at hk
    cases hs : (s.trafficLights k).isSome
    · simp only [hs, Bool.false_eq_true, false_iff] at hk
      simp [hk]
    · simp only [hs, true_iff] at hk
      simp [hk]
  unfold lightKeys
  simp only [update_isSome, hmem, Bool.or_self]
  simp [allLaneIds, lightIds, List.filter]

theorem reachable_lightKeys {F : Type} {P : Platform F} {s : TrafficManager F}
    (h : Reachable P s) : lightKeys s = lightIds := by
  induction h with
  | init => exact new_lightKeys P
  | arrival s l v _ ih => exact ih
  | tick s dt nv _ ih => exact update_lightKeys P s dt nv ih

theorem reachable_laneKeys {F : Type} {P : Platform F} {s : TrafficManager F}
    (h : Reachable P s) : laneKeys s = laneKeys (TrafficManager.new P) := by
  induction h with
  | init => rfl
  | arrival s l v _ ih =>
    rw [← ih]
    exact addVehicleToLanes_keys s.lanes l v
  | tick s dt nv _ ih => rw [update_laneKeys, ih]

/-- C21: the lane set is fixed. The constructor creates the twelve lanes, with pairwise
distinct ids, of which `AL2_PRIORITY` alone has the priority flag, and the four lights
keyed `AL2_PRIORITY`, `BL2_NORMAL`, `CL2_NORMAL`, `DL2_NORMAL`. On every state,
`update`, `addVehicleToLane` and `addNewVehicleToState` leave the list of lane ids with
their priority flags as it is; the two arrival functions do not touch the lights, and
`update` leaves the set of light keys as it is once it holds the four keys. So every
reachable state has the constructor's lane list and exactly the four light keys. -/
theorem lane_set_is_fixed {F : Type} (P : Platform F) (s : TrafficManager F) (deltaTime : F)
    (newVehicles : List (LaneId × Vehicle)) (laneId : LaneId) (v : Vehicle)
    (hs : Reachable P s) :
    laneKeys (TrafficManager.new P) =
        [(LaneId.AL1_INCOMING, false), (LaneId.AL2_PRIORITY, true),
          (LaneId.AL3_FREELANE, false), (LaneId.BL1_INCOMING, false),
          (LaneId.BL2_NORMAL, false), (LaneId.BL3_FREELANE, false),
          (LaneId.CL1_INCOMING, false), (LaneId.CL2_NORMAL, false),
          (LaneId.CL3_FREELANE, false), (LaneId.DL1_INCOMING, false),
          (LaneId.DL2_NORMAL, false), (LaneId.DL3_FREELANE, false)] ∧
      ((laneKeys (TrafficManager.new P)).map Prod.fst).Nodup ∧
      lightKeys (TrafficManager.new P) = lightIds ∧
      laneKeys (update P s deltaTime newVehicles) = laneKeys s ∧
      laneKeys (addVehicleToLane s laneId v) = laneKeys s ∧
      laneKeys (addNewVehicleToState P s v laneId) = laneKeys s ∧
      (addVehicleToLane s laneId v).trafficLights = s.trafficLights ∧
      (addNewVehicleToState P s v laneId).trafficLights = s.trafficLights ∧
      lightKeys (update P s deltaTime newVehicles) = lightKeys s ∧
      laneKeys s = laneKeys (TrafficManager.new P) ∧
      lightKeys s = lightIds := by
  have hnew : laneKeys (TrafficManager.new P) =
      [(LaneId.AL1_INCOMING, false), (LaneId.AL2_PRIORITY, true),
        (LaneId.AL3_FREELANE, false), (LaneId.BL1_INCOMING, false),
        (LaneId.BL2_NORMAL, false), (LaneId.BL3_FREELANE, false),
        (LaneId.CL1_INCOMING, false), (LaneId.CL2_NORMAL, false),
        (LaneId.CL3_FREELANE, false), (LaneId.DL1_INCOMING, false),
        (LaneId.DL2_NORMAL, false), (LaneId.DL3_FREELANE, false)] := by
    unfold laneKeys TrafficManager.new
    simp only
    rw [(synchronizeTrafficLights_proj P _).1]
    rfl
  refine ⟨hnew, ?_, new_lightKeys P, update_laneKeys P s deltaTime newVehicles,
    addVehicleToLanes_keys s.lanes laneId v, rfl, rfl, rfl, ?_, reachable_laneKeys hs,
    reachable_lightKeys hs⟩
  · rw [hnew]
    decide
  · rw [update_lightKeys P s deltaTime newVehicles (reachable_lightKeys hs),
      reachable_lightKeys hs]

set_option maxRecDepth 100000 in
/-- C21 at the constructor state of the binary32 instance and a tick that feeds one
vehicle. -/
theorem lane_set_is_fixed_witness :
    laneKeys
        (update f32 (TrafficManager.new f32) 1
          [(LaneId.BL2_NORMAL, ⟨1, Direction.STRAIGHT, LaneId.BL2_NORMAL⟩)]) =
      laneKeys (TrafficManager.new f32) :=
  (lane_set_is_fixed f32 (TrafficManager.new f32) 1
    [(LaneId.BL2_NORMAL, ⟨1, Direction.STRAIGHT, LaneId.BL2_NORMAL⟩)] LaneId.BL2_NORMAL
    ⟨1, Direction.STRAIGHT, LaneId.BL2_NORMAL⟩ Reachable.init).2.2.2.1

/-! ## C24: the order of the phases of a tick -/

theorem setMoving_release {F : Type} (av : ActiveVehicles F) (id : Nat) :
    (av.setMoving id).map (fun e => (e.1, e.2.release)) =
      av.map fun e => (e.1, e.2.release) := by
  induction av with
  | nil => rfl
  | cons e rest ih =>
    obtain ⟨k, st⟩ := e
    by_cases h : k = id
    · simp [ActiveVehicles.setMoving, h, VehicleState.release]
    · simp [ActiveVehicles.setMoving, h, ih]

theorem releaseAll_release {F : Type} (av : ActiveVehicles F) (vs : List Vehicle) :
    (releaseAll av vs).map (fun e => (e.1, e.2.release)) =
      av.map fun e => (e.1, e.2.release) := by
  induction vs generalizing av with
  | nil => rfl
  | cons v vs ih => rw [releaseAll_cons, ih, setMoving_release]

set_option maxRecDepth 100000 in
/-- C24, as stated, fails: the motion pass runs before the scheduling decision. A tick
of one second feeds vehicle 1 into the free lane AL3 of the constructor state. After
the feed the vehicle waits at `(222, 474)`; at the end of the tick it has been released
(`isMoving = true`) and is still at `(222, 474)`, so it was not advanced in the tick
that released it; a motion pass on the state after the tick does advance it. -/
theorem phase_order_counterexample :
    (pollFeed f32 (TrafficManager.new f32) 1
        [(LaneId.AL3_FREELANE, ⟨1, Direction.STRAIGHT, LaneId.AL3_FREELANE⟩)]).activeVehicles.map
        (fun e => (e.1, e.2.x, e.2.y, e.2.isMoving)) = [(1, 222, 474, false)] ∧
      (update f32 (TrafficManager.new f32) 1
        [(LaneId.AL3_FREELANE, ⟨1, Direction.STRAIGHT, LaneId.AL3_FREELANE⟩)]).activeVehicles.map
        (fun e => (e.1, e.2.x, e.2.y, e.2.isMoving)) = [(1, 222, 474, true)] ∧
      (updateVehiclePositions f32
        (update f32 (TrafficManager.new f32) 1
          [(LaneId.AL3_FREELANE, ⟨1, Direction.STRAIGHT, LaneId.AL3_FREELANE⟩)])
        1).activeVehicles.map
        (fun e => (e.1, e.2.x, e.2.y, e.2.isMoving)) = [(1, 8872389 / 32768, 474, true)] := by
  decide!

/-- C24, amended: `update` runs its phases in the order feed poll, motion update,
scheduling decision, signal update, release of the free lanes. In a reachable state the
phases after the motion pass change nothing in the table but `isMoving` flags: with
every flag set, the table at the end of the tick is the table that
`updateVehiclePositions` left. So the motion pass of a tick sees the flags as they
were after the feed, and a vehicle released in a tick keeps the position of a queued
vehicle until the motion pass of the next tick. -/
theorem motion_pass_precedes_scheduling {F : Type} (P : Platform F) (s : TrafficManager F)
    (deltaTime : F) (newVehicles : List (LaneId × Vehicle)) (hs : Reachable P s) :
    update P s deltaTime newVehicles =
        processFreeLanes
          (updateTrafficLights P
            (if checkPriorityConditions
                (updateVehiclePositions P (pollFeed P s deltaTime newVehicles) deltaTime) then
              priorityBranch P
                (updateVehiclePositions P (pollFeed P s deltaTime newVehicles) deltaTime)
            else
              normalBranch P
                (updateVehiclePositions P (pollFeed P s deltaTime newVehicles) deltaTime))
            deltaTime) ∧
      (update P s deltaTime newVehicles).activeVehicles.map (fun e => (e.1, e.2.release)) =
        (updateVehiclePositions P (pollFeed P s deltaTime newVehicles)
          deltaTime).activeVehicles.map fun e => (e.1, e.2.release) := by
  refine ⟨rfl, ?_⟩
  obtain ⟨extra, k, hex, _, _, hav⟩ := update_eq P s deltaTime newVehicles hs.wellFormed
  obtain ⟨k', _, hsched, _⟩ := schedule_eq P (pollFeed P s deltaTime newVehicles) deltaTime _ hex
  rw [hav, hsched, releaseAll_release, releaseAll_release]

set_option maxRecDepth 100000 in
/-- C24, amended, at the tick of the counterexample. -/
theorem motion_pass_precedes_scheduling_witness :
    (update f32 (TrafficManager.new f32) 1
        [(LaneId.AL3_FREELANE, ⟨1, Direction.STRAIGHT, LaneId.AL3_FREELANE⟩)]).activeVehicles.map
        (fun e => (e.1, e.2.release)) =
      (updateVehiclePositions f32
        (pollFeed f32 (TrafficManager.new f32) 1
          [(LaneId.AL3_FREELANE, ⟨1, Direction.STRAIGHT, LaneId.AL3_FREELANE⟩)])
        1).activeVehicles.map fun e => (e.1, e.2.release) :=
  (motion_pass_precedes_scheduling f32 (TrafficManager.new f32) 1
    [(LaneId.AL3_FREELANE, ⟨1, Direction.STRAIGHT, LaneId.AL3_FREELANE⟩)] Reachable.init).2

/-! ## C25: the displacement of a moving vehicle -/

theorem stepVehicle_moved {F : Type} (P : Platform F) (lanes : List Lane) (deltaTime : F)
    (table : ActiveVehicles F) (state state' : VehicleState F)
    (hmoving : state.isMoving = true)
    (hstep : stepVehicle P lanes deltaTime table state = some state')
    (hmoved : state'.x ≠ state.x ∨ state'.y ≠ state.y) :
    ∀ e ∈ table, e.1 ≠ state.vehicle.id →
      P.lt (distanceTo P (P.sub state'.x e.2.x) (P.sub state'.y e.2.y))
        (MIN_DISTANCE P) = false := by
  have hc : checkCollision P table state state'.x state'.y = false := by
    unfold stepVehicle at hstep
    simp only [hmoving, if_true] at hstep
    split at hstep
    · cases hstep
    · split at hstep
      · rename_i hfree
        simp only [Option.some.injEq] at hstep
        subst hstep
        simpa using hfree
      · simp only [Option.some.injEq] at hstep
        subst hstep
        rcases hmoved with h | h <;> exact absurd rfl h
  exact checkCollision_false P table state _ _ hc

theorem updateVehiclePositionsLoop_separated {F : Type} (P : Platform F) (lanes : List Lane)
    (deltaTime : F) (todo done : ActiveVehicles F)
    (hkeys : ∀ e ∈ todo, e.1 = e.2.vehicle.id) :
    ∃ out, updateVehiclePositionsLoop P lanes deltaTime done todo = done ++ out ∧
      List.Pairwise (SeparatedPair P) ((todo.filter fun e => !arrived P e.2).zip out) ∧
      ∀ p ∈ (todo.filter fun e => !arrived P e.2).zip out,
        p.1.2.isMoving = true → Moved p → ∀ d ∈ done, d.1 ≠ p.1.1 → Apart P p.2.2 d.2 := by
  induction todo generalizing done with
  | nil => exact ⟨[], by simp [updateVehiclePositionsLoop], by simp, by simp⟩
  | cons e rest ih =>
    obtain ⟨id, state⟩ := e
    have hid : id = state.vehicle.id := hkeys (id, state) (List.mem_cons_self _ _)
    have hrest : ∀ e ∈ rest, e.1 = e.2.vehicle.id :=
      fun e he => hkeys e (List.mem_cons_of_mem _ he)
    obtain ⟨h1, h2⟩ :=
      stepVehicle_spec P lanes deltaTime (done ++ (id, state) :: rest) id state
    cases ha : arrived P state with
    | true =>
      obtain ⟨out, hout, hpair, hdone⟩ := ih done hrest
      refine ⟨out, ?_, ?_, ?_⟩
      · simp only [updateVehiclePositionsLoop, h1 ha, hout]
      · simpa [List.filter_cons, ha] using hpair
      · simpa [List.filter_cons, ha] using hdone
    | false =>
      obtain ⟨state', hstep, _⟩ := h2 ha
      obtain ⟨out, hout, hpair, hdone⟩ := ih (done ++ [(id, state')]) hrest
      have hzip : ((((id, state) :: rest).filter fun e => !arrived P e.2).zip
          ((id, state') :: out)) =
          ((id, state), (id, state')) ::
            ((rest.filter fun e => !arrived P e.2).zip out) := by
        simp [List.filter_cons, ha]
      have hcheck : state.isMoving = true → Moved ((id, state), (id, state')) →
          ∀ e ∈ done ++ (id, state) :: rest, e.1 ≠ id →
            P.lt (distanceTo P (P.sub state'.x e.2.x) (P.sub state'.y e.2.y))
              (MIN_DISTANCE P) = false := by
        intro hm hmv e he hne
        exact stepVehicle_moved P lanes deltaTime _ state state' hm hstep hmv e he
          (by rw [← hid]; exact hne)
      refine ⟨(id, state') :: out, ?_, ?_, ?_⟩
      · simp only [updateVehiclePositionsLoop, hstep, hout, List.append_assoc,
          List.singleton_append]
      · rw [hzip]
        refine List.Pairwise.cons ?_ hpair
        intro q hq hmp hmq hne
        refine ⟨?_, ?_⟩
        · intro hmv
          exact hdone q hq hmq hmv (id, state')
            (List.mem_append_right _ (List.mem_singleton_self _)) hne
        · intro hmv hnot
          have hq1 : q.1 ∈ rest :=
            List.mem_of_mem_filter (List.of_mem_zip hq).1
          have := hcheck hmp hmv q.1
            (List.mem_append_right _ (List.mem_cons_of_mem _ hq1)) (fun e => hne e.symm)
          have hx : q.2.2.x = q.1.2.x := by
            by_contra hc
            exact hnot (Or.inl hc)
          have hy : q.2.2.y = q.1.2.y := by
            by_contra hc
            exact hnot (Or.inr hc)
          unfold Apart
          simp only
          rw [hx, hy]
          exact this
      · rw [hzip]
        intro p hp hmp hmv d hd hne
        rcases List.mem_cons.mp hp with rfl | hp'
        · exact hcheck hmp hmv d (List.mem_append_left _ hd) hne
        · exact hdone p hp' hmp hmv d (List.mem_append_left _ hd) hne

set_option maxRecDepth 100000 in
/-- C27, as stated, fails on binary32 with `VEHICLE_WIDTH = 40`. Vehicle 1 moves from
`(0, 0)` towards `(500, 0)`, vehicle 2 is moving at `(5745003/131072, 691399/32768)`
with target `(0, 0)`. In a pass of `1/64` vehicle 1 commits its move to
`(12031295/16777216, 0)`: the distance to vehicle 2 that `checkCollision` computes is
`48.0f`, not below `MIN_DISTANCE = 48.0f`. Vehicle 2 is blocked and stays. After the
pass both are in the table, and their Euclidean distance is below `1.2 * 40 = 48` (the
squares add up to less than `48 ^ 2`). -/
theorem moving_separation_counterexample :
    (updateVehiclePositions f32
        { TrafficManager.new f32 with
          activeVehicles :=
            [(1, stateAt ⟨1, Direction.STRAIGHT, LaneId.AL1_INCOMING⟩ 0 0 500 0 true),
              (2, stateAt ⟨2, Direction.STRAIGHT, LaneId.AL1_INCOMING⟩ (5745003 / 131072)
                (691399 / 32768) 0 0 true)] }
        (1 / 64)).activeVehicles.map (fun e => (e.1, e.2.x, e.2.y, e.2.isMoving)) =
        [(1, 12031295 / 16777216, 0, true),
          (2, 5745003 / 131072, 691399 / 32768, true)] ∧
      ((12031295 / 16777216 : ℚ) - 5745003 / 131072) ^ 2 + ((0 : ℚ) - 691399 / 32768) ^ 2 <
        ((12 / 10 : ℚ) * f32.VEHICLE_WIDTH) ^ 2 ∧
      distanceTo f32 (f32.sub (12031295 / 16777216) (5745003 / 131072))
        (f32.sub 0 (691399 / 32768)) = 48 ∧
      MIN_DISTANCE f32 = 48 := by
  refine ⟨by decide!, by norm_num [f32], by decide!, by decide!⟩

/-- C27, amended: separation holds for the distance and the comparison of the code. Let
the keys of the table be the ids of the vehicles, and pair each entry that the pass of
`updateVehiclePositions` does not erase with its entry after the pass (they have the
same key, vehicle and flag). For any two such pairs with different keys that were both
moving, the earlier in key order first: if the later one changed its position, the
distance from its new position to the final position of the earlier one, computed as
`checkCollision` does in `float`, does not compare below `VEHICLE_WIDTH * 1.2f`; if only
the earlier one changed its position, the same holds from its new position to the
position of the later one. -/
theorem moving_pairs_are_checked {F : Type} (P : Platform F) (s : TrafficManager F)
    (deltaTime : F) (hkeys : ∀ e ∈ s.activeVehicles, e.1 = e.2.vehicle.id) :
    List.Forall₂ SameVehicle (s.activeVehicles.filter fun e => !arrived P e.2)
        (updateVehiclePositions P s deltaTime).activeVehicles ∧
      List.Pairwise (SeparatedPair P)
        ((s.activeVehicles.filter fun e => !arrived P e.2).zip
          (updateVehiclePositions P s deltaTime).activeVehicles) := by
  refine ⟨(updateVehiclePositions_spec P s deltaTime).2, ?_⟩
  obtain ⟨out, hout, hpair, _⟩ :=
    updateVehiclePositionsLoop_separated P s.lanes deltaTime s.activeVehicles [] hkeys
  have h : (updateVehiclePositions P s deltaTime).activeVehicles = out := by
    simp [updateVehiclePositions, hout]
  rw [h]
  exact hpair

set_option maxRecDepth 100000 in
/-- C27, amended, at a table of the binary32 instance with vehicle 1 moving from
`(0, 0)` towards `(500, 0)` and vehicle 2 moving far away, from `(0, 200)` towards
`(500, 200)`: both commit their moves. -/
theorem moving_pairs_are_checked_witness :
    List.Pairwise (SeparatedPair f32)
      (([(1, stateAt ⟨1, Direction.STRAIGHT, LaneId.AL1_INCOMING⟩ 0 0 500 0 true),
          (2, stateAt ⟨2, Direction.STRAIGHT, LaneId.AL1_INCOMING⟩ 0 200 500 200 true)].filter
          fun e => !arrived f32 e.2).zip
        (updateVehiclePositions f32
          { TrafficManager.new f32 with
            activeVehicles :=
              [(1, stateAt ⟨1, Direction.STRAIGHT, LaneId.AL1_INCOMING⟩ 0 0 500 0 true),
                (2, stateAt ⟨2, Direction.STRAIGHT, LaneId.AL1_INCOMING⟩ 0 200 500 200
                  true)] }
          (1 / 64)).activeVehicles) :=
  (moving_pairs_are_checked f32
    { TrafficManager.new f32 with
      activeVehicles :=
        [(1, stateAt ⟨1, Direction.STRAIGHT, LaneId.AL1_INCOMING⟩ 0 0 500 0 true),
          (2, stateAt ⟨2, Direction.STRAIGHT, LaneId.AL1_INCOMING⟩ 0 200 500 200 true)] }
    (1 / 64) (by decide!)).2

end TrafficMgmt
